import Mathlib

/-!
# OgreNav: tile cache configuration, build and persistence

A shallow embedding of `OgreDetourTileCache` (constructor, `configure`,
`initTileCache`, `rasterizeTileLayers`, `TileCacheBuild`, `saveAll`, `loadAll`,
`AddObstacle`, `RemoveObstacle`, `getObstacleByRef`, `handleUpdate`,
`getTileSelection`), of the helpers `MeshProcess` and `LinearAllocator` and of
`OgreRecast::FindPath`, together with the theorems that settle the specification's
statements about them.

Conventions of the embedding

* A C++ `int` is an `Int`; results of arithmetic that can leave the 32-bit range
  are passed through `wrap32`, conversions to `unsigned int` through `toU32`.
* A `float` value is a rational (`ℚ`); the result of every `float` operation of the
  code under src/ is rounded to the nearest `float` by `f32` (IEEE binary32, round to
  nearest, ties to even). Infinities and NaN are not part of the model. `(int) f` is
  truncation toward zero.
* A nullable pointer is an `Option`.
* The Recast/Detour objects the class drives (`dtTileCache`, `dtNavMesh`, the
  allocation routines) are collaborators: their outcomes are read from a
  `Collab` record, and the calls made on them are recorded in the model objects.
-/

namespace OgreNav

/-! ## Machine integers -/

/-- Two's-complement reduction of an integer to the range of a 32-bit `int`. -/
def wrap32 (x : Int) : Int := (x + 2147483648) % 4294967296 - 2147483648

/-- Conversion of an `int` to `unsigned int`. -/
def toU32 (x : Int) : Nat := (x % 4294967296).toNat

/-- Conversion of an `unsigned int` to `int`. -/
def ofU32 (u : Nat) : Int := wrap32 (u : Int)

/-- Largest value of a 32-bit `int`. -/
def INT_MAX : Int := 2147483647

/-- Smallest value of a 32-bit `int`. -/
def INT_MIN : Int := -2147483648

/-! ## The constructor's tile size -/

/-- The member initialiser `m_tileSize(tileSize - (tileSize%8))` of the
`OgreDetourTileCache` constructor; `%` is the C++ truncating remainder. -/
def snapTileSize (tileSize : Int) : Int := wrap32 (tileSize - Int.tmod tileSize 8)

/-- The value of `m_tileSize` when the `OgreDetourTileCache` constructor returns:
the snapped size, replaced by 48 by the sanity check
`if(m_tileSize < 16 || m_tileSize > 128) m_tileSize = 48;`. -/
def ctorTileSize (tileSize : Int) : Int :=
  let m_tileSize := snapTileSize tileSize
  if m_tileSize < 16 ∨ m_tileSize > 128 then 48 else m_tileSize

/-! ## Detour and Recast helpers used by the grid configuration -/

/-- Modelled from the spec: `dtNextPow2` of Detour's `DetourCommon.h` (not under src/),
the spec's `nextPowerOfTwo`, written as the library's routine on `unsigned int`:
decrement, smear the top bit to the right, increment, each modulo 2^32. -/
def dtNextPow2 (v : Nat) : Nat :=
  let v := (v + 4294967295) % 4294967296
  let v := v ||| (v >>> 1)
  let v := v ||| (v >>> 2)
  let v := v ||| (v >>> 4)
  let v := v ||| (v >>> 8)
  let v := v ||| (v >>> 16)
  (v + 1) % 4294967296

/-- Modelled from the spec: `dtIlog2` of Detour's `DetourCommon.h` (not under src/),
the spec's integer `log2`, written as the library's branch-free binary search for the
position of the highest set bit of an `unsigned int`. -/
def dtIlog2 (v : Nat) : Nat :=
  let r := (if v > 65535 then 1 else 0) <<< 4
  let v := v >>> r
  let shift := (if v > 255 then 1 else 0) <<< 3
  let v := v >>> shift
  let r := r ||| shift
  let shift := (if v > 15 then 1 else 0) <<< 2
  let v := v >>> shift
  let r := r ||| shift
  let shift := (if v > 3 then 1 else 0) <<< 1
  let v := v >>> shift
  let r := r ||| shift
  r ||| (v >>> 1)

/-- Recast's `rcMin` template: `a < b ? a : b`. -/
def rcMin (a b : Int) : Int := if a < b then a else b

/-- The conversion `(int) f` of a `float`: truncation toward zero. -/
def truncToInt (f : ℚ) : Int := if 0 ≤ f then ⌊f⌋ else ⌈f⌉

/-- Rounding of a rational to the nearest integer, a tie going to the even integer. -/
def roundHalfEven (q : ℚ) : Int :=
  if q - ⌊q⌋ < 1 / 2 then ⌊q⌋
  else if 1 / 2 < q - ⌊q⌋ then ⌊q⌋ + 1
  else if ⌊q⌋ % 2 = 0 then ⌊q⌋ else ⌊q⌋ + 1

/-- The exponent of the unit in the last place of the `float` format (IEEE binary32:
24 significant bits, least normal exponent -126) at `q`: `⌊log2 |q|⌋ - 23`, and -149
in the subnormal range. -/
def ulpExp (q : ℚ) : Int := max (Int.log 2 |q|) (-126) - 23

/-- The `float` nearest to `q`, a tie going to the even significand: the rounding that
ends every `float` operation and every conversion of an `int` to `float`. The exponent
has no upper limit here, so a result beyond the largest `float`, which the machine turns
into an infinity, stays finite. -/
def f32 (q : ℚ) : ℚ := (roundHalfEven (q / 2 ^ ulpExp q) : ℚ) * 2 ^ ulpExp q

/-- The largest `float`, `(2^24 - 1) * 2^104`. -/
def FLT_MAX : ℚ := 340282346638528859811704183484516925440

/-- A `float[3]` vector; `x`, `y`, `z` are the entries 0, 1, 2. -/
structure Vec3 where
  x : ℚ
  y : ℚ
  z : ℚ
deriving DecidableEq

/-- Modelled from the spec: `rcCalcGridSize` of Recast (not under src/), the voxel-grid
size of a bounding box: `(int)((bmax[i] - bmin[i]) / cs + 0.5f)` on the x and z axes. -/
def rcCalcGridSize (bmin bmax : Vec3) (cs : ℚ) : Int × Int :=
  (truncToInt ((bmax.x - bmin.x) / cs + 1 / 2), truncToInt ((bmax.z - bmin.z) / cs + 1 / 2))

/-- The constant `OgreDetourTileCache::EXPECTED_LAYERS_PER_TILE`. -/
def EXPECTED_LAYERS_PER_TILE : Int := 1

/-- The constant `OgreDetourTileCache::BORDER_PADDING`. -/
def BORDER_PADDING : ℚ := 3

/-- The constant `MAX_LAYERS` of `OgreDetourTileCache.h`. -/
def MAX_LAYERS : Int := 1

/-- The expression `(gw + ts-1) / ts` of `configure` and `loadAll`: `int` addition and
truncating division. In `configure` the divisor is the stored tile size, which the
constructor makes at least 16; `loadAll`, which takes it from the file, checks it with
`divUndefined` first. -/
def tileCount (gw ts : Int) : Int := Int.tdiv (wrap32 (wrap32 (gw + ts) - 1)) ts

/-- Whether the `int` division `a / b` is undefined: a zero divisor, or `INT_MIN / -1`. -/
def divUndefined (a b : Int) : Bool :=
  decide (b = 0) || (decide (a = INT_MIN) && decide (b = -1))

/-- The `int` product `tw*th*EXPECTED_LAYERS_PER_TILE`. -/
def tileTotal (tw th : Int) : Int := wrap32 (wrap32 (tw * th) * EXPECTED_LAYERS_PER_TILE)

/-- The local `tileBits` of `configure` and `loadAll`:
`rcMin((int)dtIlog2(dtNextPow2(tw*th*EXPECTED_LAYERS_PER_TILE)), 14)` followed by
`if (tileBits > 14) tileBits = 14;`. -/
def tileBitsOf (tw th : Int) : Int :=
  let tileBits := rcMin (ofU32 (dtIlog2 (dtNextPow2 (toU32 (tileTotal tw th))))) 14
  if tileBits > 14 then 14 else tileBits

/-- The local `polyBits = 22 - tileBits`. -/
def polyBitsOf (tw th : Int) : Int := 22 - tileBitsOf tw th

/-- The `int` shift `1 << n`. -/
def shl1 (n : Int) : Int := wrap32 (2 ^ n.toNat)

/-! ## Data model -/

/-- A byte of a buffer or of a file, a natural number below 256. -/
abbrev Byte := Nat

/-- Recast's `rcConfig`, the build configuration copied from the `OgreRecast` module. -/
structure rcConfig where
  width : Int
  height : Int
  tileSize : Int
  borderSize : Int
  cs : ℚ
  ch : ℚ
  bmin : Vec3
  bmax : Vec3
  walkableSlopeAngle : ℚ
  walkableHeight : Int
  walkableClimb : Int
  walkableRadius : Int
  maxEdgeLen : Int
  maxSimplificationError : ℚ
  minRegionArea : Int
  mergeRegionArea : Int
  maxVertsPerPoly : Int
  detailSampleDist : ℚ
  detailSampleMaxError : ℚ
deriving DecidableEq

/-- Detour's `dtTileCacheParams`. -/
structure dtTileCacheParams where
  orig : Vec3
  cs : ℚ
  ch : ℚ
  width : Int
  height : Int
  walkableHeight : ℚ
  walkableRadius : ℚ
  walkableClimb : ℚ
  maxSimplificationError : ℚ
  maxTiles : Int
  maxObstacles : Int
deriving DecidableEq

/-- Detour's `dtNavMeshParams`. -/
structure dtNavMeshParams where
  orig : Vec3
  tileWidth : ℚ
  tileHeight : ℚ
  maxTiles : Int
  maxPolys : Int
deriving DecidableEq

/-- The result of `memset(&m_tcparams, 0, sizeof(m_tcparams))`. -/
def dtTileCacheParams.zero : dtTileCacheParams :=
  { orig := ⟨0, 0, 0⟩, cs := 0, ch := 0, width := 0, height := 0, walkableHeight := 0,
    walkableRadius := 0, walkableClimb := 0, maxSimplificationError := 0, maxTiles := 0,
    maxObstacles := 0 }

/-- Modelled from the spec: `InputGeom` (declared outside src/), the world geometry:
vertex and triangle counts, whether the chunky-triangle spatial index was built, and
the mesh bounds. -/
structure InputGeom where
  nverts : Int
  ntris : Int
  chunkyMesh : Bool
  bmin : Vec3
  bmax : Vec3
deriving DecidableEq

/-- Modelled from the spec: `InputGeom::isEmpty` (declared outside src/): the geometry
"has no usable vertices/triangles". -/
def InputGeom.isEmpty (g : InputGeom) : Bool := decide (g.nverts ≤ 0) || decide (g.ntris ≤ 0)

/-- Detour's `dtTileCacheLayerHeader`, the header at the start of a compressed layer. -/
structure dtTileCacheLayerHeader where
  tx : Int
  ty : Int
  tlayer : Int
  bmin : Vec3
  bmax : Vec3
  width : Nat
  height : Nat
  minx : Nat
  maxx : Nat
  miny : Nat
  maxy : Nat
  hmin : Nat
  hmax : Nat
deriving DecidableEq

/-- A slot of the tile cache, Detour's `dtCompressedTile`: `header` is the (nullable)
pointer to the layer header, `data`/`dataSize` the compressed block, `ref` the value
`dtTileCache::getTileRef` returns for the slot. -/
structure dtCompressedTile where
  header : Option dtTileCacheLayerHeader
  data : List Byte
  dataSize : Int
  ref : Nat
deriving DecidableEq

/-- A free slot of the tile cache. -/
def dtCompressedTile.free : dtCompressedTile :=
  { header := none, data := [], dataSize := 0, ref := 0 }

/-- The shape handed to `dtTileCache::addBoxObstacle`: an axis-aligned box given by two
corners, or a box given by centre, half extents and a rotation about the vertical axis. -/
inductive ObstacleShape where
  | box (bmin bmax : Vec3)
  | orientedBox (centre halfExtents : Vec3) (yRadians : ℚ)
deriving DecidableEq

/-- The states of an obstacle slot. -/
inductive ObstacleState where
  | empty
  | requestedAdd
  | committed
  | requestedRemove
deriving DecidableEq

/-- Detour's `dtTileCacheObstacle` as far as the wrapper observes it: `touched` holds the
references of the tiles the obstacle touches, `pending` those of them still to be
rebuilt. -/
structure dtTileCacheObstacle where
  shape : ObstacleShape
  areaId : Nat
  flags : Nat
  state : ObstacleState
  touched : List Nat
  pending : List Nat
deriving DecidableEq

/-- An entry of the request queue of the tile cache. -/
inductive ObstacleRequest where
  | add (ref : Nat)
  | remove (ref : Nat)
deriving DecidableEq

/-- Detour's `dtTileCache` as far as the wrapper observes it: the parameters given to a
successful `init`, the tile slots, the obstacle slots used so far, the queue of pending
obstacle requests (oldest first) and the references of the tiles waiting for a
rebuild. -/
structure dtTileCache where
  params : Option dtTileCacheParams
  tiles : List dtCompressedTile
  m_obstacles : List dtTileCacheObstacle := []
  m_reqs : List ObstacleRequest := []
  m_update : List Nat := []
deriving DecidableEq

/-- A mesh build requested from the tile cache: `buildNavMeshTile(ref, navMesh)` or
`buildNavMeshTilesAt(x, y, navMesh)`. -/
inductive MeshBuild where
  | byRef (ref : Nat)
  | tilesAt (x y : Int)
deriving DecidableEq

/-- Detour's `dtNavMesh` as far as the wrapper observes it: the parameters given to a
successful `init` and the mesh builds performed on it, oldest first. -/
structure dtNavMesh where
  params : Option dtNavMeshParams
  builds : List MeshBuild
deriving DecidableEq

/-- Detour's `dtNavMeshQuery`: whether its `init` succeeded. -/
structure dtNavMeshQuery where
  ready : Bool
deriving DecidableEq

/-- The `LinearAllocator` of `OgreDetourTileCache.h`; `buffer` tells whether the buffer
pointer is non-null. -/
structure LinearAllocator where
  buffer : Bool
  capacity : Int
  top : Int
  high : Int
deriving DecidableEq

/-- The parts of the `OgreRecast` module the tile cache reads and writes. `m_ctx` is the
build-context pointer, identified by a number. -/
structure OgreRecast where
  m_cfg : rcConfig
  m_navMesh : Option dtNavMesh
  m_navQuery : Option dtNavMeshQuery
  m_ctx : Option Nat
deriving DecidableEq

/-- The state of an `OgreDetourTileCache` object, with the `OgreRecast` module it points
to. `m_tmproc` is the geometry held by the mesh post-processor; `NavMeshDebugInstance` is
the debugger pointer, identified by a number. -/
structure OgreDetourTileCache where
  m_recast : OgreRecast
  m_geom : Option InputGeom
  m_tileSize : Int
  MaxNumObstacles : Nat
  m_talloc : LinearAllocator
  m_tmproc : Option InputGeom
  m_tileCache : Option dtTileCache
  m_cfg : rcConfig
  m_tcparams : dtTileCacheParams
  m_ctx : Option Nat
  m_cacheCompressedSize : Int
  m_cacheRawSize : Int
  m_cacheLayerCount : Int
  m_cacheBuildMemUsage : Int
  m_maxTiles : Int
  m_maxPolysPerTile : Int
  m_cellSize : ℚ
  m_tw : Int
  m_th : Int
  TempObstacleAdded : Bool
  NavMeshDebugInstance : Option Nat := none
deriving DecidableEq

/-- Recast's `rcHeightfieldLayer`: the fields copied into the layer header. -/
structure rcHeightfieldLayer where
  bmin : Vec3
  bmax : Vec3
  width : Int
  height : Int
  minx : Int
  maxx : Int
  miny : Int
  maxy : Int
  hmin : Int
  hmax : Int
deriving DecidableEq

/-- The struct `TileCacheData`: a compressed tile buffer and its size. -/
structure TileCacheData where
  data : List Byte
  dataSize : Int
deriving DecidableEq

/-- The outcomes of the Recast/Detour routines and of the C runtime that the wrapper
calls. Each field answers one call from its arguments; the wrapper's control flow is
modelled on top of these answers. -/
structure Collab where
  /-- `dtAllocTileCache()` returns a non-null pointer. -/
  dtAllocTileCache : Bool
  /-- `dtTileCache::init(params, ...)` reports success. -/
  tileCacheInit : dtTileCacheParams → Bool
  /-- `dtAllocNavMesh()` returns a non-null pointer. -/
  dtAllocNavMesh : Bool
  /-- `dtNavMesh::init(params)` reports success. -/
  navMeshInit : dtNavMeshParams → Bool
  /-- `dtNavMeshQuery::init(navMesh, 2048)` reports success. -/
  navQueryInit : Bool
  /-- `dtAlloc(size, DT_ALLOC_PERM)` returns a non-null pointer. -/
  dtAlloc : Int → Bool
  /-- `dtTileCache::addTile(data, dataSize, ...)` on the given cache: the reference of
  the new tile, or `none` when the cache rejects the tile. -/
  addTile : dtTileCache → List Byte → Int → Option Nat
  /-- The layer header Detour finds at the start of a compressed block. -/
  layerHeader : List Byte → dtTileCacheLayerHeader
  /-- `dtAlign4(sizeof(dtTileCacheLayerHeader))`. -/
  layerHeaderSize : Int
  /-- `rcAllocHeightfield()` returns a non-null pointer. -/
  rcAllocHeightfield : Bool
  /-- `rcCreateHeightfield` with the tile's configuration reports success. -/
  rcCreateHeightfield : rcConfig → Bool
  /-- `rcGetChunksOverlappingRect(chunkyMesh, tbmin, tbmax, cid, 512)`. -/
  rcGetChunksOverlappingRect : InputGeom → ℚ × ℚ → ℚ × ℚ → Int
  /-- `rcAllocCompactHeightfield()` returns a non-null pointer. -/
  rcAllocCompactHeightfield : Bool
  /-- `rcBuildCompactHeightfield` reports success. -/
  rcBuildCompactHeightfield : InputGeom → rcConfig → Bool
  /-- `rcErodeWalkableArea` reports success. -/
  rcErodeWalkableArea : InputGeom → rcConfig → Bool
  /-- `rcAllocHeightfieldLayerSet()` returns a non-null pointer. -/
  rcAllocHeightfieldLayerSet : Bool
  /-- `rcBuildHeightfieldLayers`: the layers of the tile, or `none` on failure. -/
  rcBuildHeightfieldLayers : InputGeom → rcConfig → Option (List rcHeightfieldLayer)
  /-- `dtBuildTileCacheLayer`: the compressed block of a layer, or `none` on failure. -/
  dtBuildTileCacheLayer : dtTileCacheLayerHeader → rcHeightfieldLayer → Option TileCacheData
  /-- `MAX_REQUESTS`, the capacity of the request queue of the tile cache. -/
  MAX_REQUESTS : Nat := 64
  /-- `dtTileCache::queryTiles` over the bounds of a shape: the references of the tiles
  whose bounds the shape intersects. -/
  queryTiles : List dtCompressedTile → ObstacleShape → List Nat := fun _ _ => []

/-- The format identifiers `TILECACHESET_MAGIC` and `TILECACHESET_VERSION`, constants
defined outside src/. -/
structure FormatIds where
  TILECACHESET_MAGIC : Int
  TILECACHESET_VERSION : Int

/-- The struct `TileCacheSetHeader` at the start of a saved tile cache. -/
structure TileCacheSetHeader where
  magic : Int
  version : Int
  numTiles : Int
  meshParams : dtNavMeshParams
  cacheParams : dtTileCacheParams
  recastConfig : rcConfig
deriving DecidableEq

/-- The struct `TileCacheTileHeader` in front of each saved tile. -/
structure TileCacheTileHeader where
  tileRef : Nat
  dataSize : Int
deriving DecidableEq

/-- A saved tile cache as `loadAll` reads it: the leading `sizeof(TileCacheSetHeader)`
bytes seen as the struct, and the bytes after them. -/
structure TileCacheFile where
  header : TileCacheSetHeader
  body : List Byte
deriving DecidableEq

/-! ## Tile cache initialisation and configuration -/

/-- The tile cache object after `dtAllocTileCache()`: no parameters, no slots. -/
def dtTileCache.fresh : dtTileCache := { params := none, tiles := [] }

/-- The tile cache object after a successful `init(params, ...)`: `params.maxTiles`
free slots. -/
def dtTileCache.inited (params : dtTileCacheParams) : dtTileCache :=
  { params := some params, tiles := List.replicate params.maxTiles.toNat dtCompressedTile.free }

/-- The nav mesh object after `dtAllocNavMesh()`. -/
def dtNavMesh.fresh : dtNavMesh := { params := none, builds := [] }

/-- The multi-tile nav mesh parameters `initTileCache` fills in: the tile cache origin,
the tile edge `m_tileSize*m_tcparams.cs` (an `int` times a `float`), `m_maxTiles` and
`m_maxPolysPerTile`. -/
def initNavMeshParams (s : OgreDetourTileCache) : dtNavMeshParams :=
  { orig := s.m_tcparams.orig, tileWidth := f32 (f32 (s.m_tileSize : ℚ) * s.m_tcparams.cs),
    tileHeight := f32 (f32 (s.m_tileSize : ℚ) * s.m_tcparams.cs), maxTiles := s.m_maxTiles,
    maxPolys := s.m_maxPolysPerTile }

/-- `OgreDetourTileCache::initTileCache`: allocate and initialise the tile cache, the nav
mesh and the nav mesh query, returning `false` at the first step that fails. -/
def initTileCache (env : Collab) (s : OgreDetourTileCache) : Bool × OgreDetourTileCache :=
  if !env.dtAllocTileCache then (false, { s with m_tileCache := none }) else
  if !env.tileCacheInit s.m_tcparams then
    (false, { s with m_tileCache := some dtTileCache.fresh }) else
  let s := { s with m_tileCache := some (dtTileCache.inited s.m_tcparams) }
  if !env.dtAllocNavMesh then
    (false, { s with m_recast := { s.m_recast with m_navMesh := none } }) else
  let params := initNavMeshParams s
  if !env.navMeshInit params then
    (false, { s with m_recast := { s.m_recast with m_navMesh := some dtNavMesh.fresh } }) else
  let nav : dtNavMesh := { params := some params, builds := [] }
  let s := { s with m_recast := { s.m_recast with m_navMesh := some nav } }
  if !env.navQueryInit then
    (false, { s with m_recast := { s.m_recast with m_navQuery := some { ready := false } } })
  else
    (true, { s with m_recast := { s.m_recast with m_navQuery := some { ready := true } } })

/-- The value of `m_cfg` after the assignments of `configure`: the recast module's
configuration with the tile size, border size, heightfield size and mesh bounds
replaced. In `(int) (m_cfg.walkableRadius + BORDER_PADDING)` the `int` radius is
converted to `float` and the sum is a `float` sum. -/
def configureCfg (g : InputGeom) (s : OgreDetourTileCache) : rcConfig :=
  let tileSize := s.m_tileSize
  let borderSize :=
    truncToInt (f32 (f32 (s.m_recast.m_cfg.walkableRadius : ℚ) + BORDER_PADDING))
  let width := wrap32 (tileSize + wrap32 (borderSize * 2))
  let height := wrap32 (tileSize + wrap32 (borderSize * 2))
  { s.m_recast.m_cfg with
    tileSize := tileSize, borderSize := borderSize, width := width, height := height,
    bmin := g.bmin, bmax := g.bmax }

/-- The value of `m_tcparams` after the assignments of `configure`, for the tile grid
`tw` x `th`; `cfg` is the new `m_cfg`. -/
def configureTcParams (g : InputGeom) (s : OgreDetourTileCache) (cfg : rcConfig) (tw th : Int) :
    dtTileCacheParams :=
  { orig := g.bmin, cs := cfg.cs, ch := cfg.ch, width := s.m_tileSize, height := s.m_tileSize,
    walkableHeight := f32 (cfg.walkableHeight : ℚ),
    walkableRadius := f32 (cfg.walkableRadius : ℚ),
    walkableClimb := f32 (cfg.walkableClimb : ℚ),
    maxSimplificationError := cfg.maxSimplificationError,
    maxTiles := tileTotal tw th, maxObstacles := ofU32 s.MaxNumObstacles }

/-- The assignments of `OgreDetourTileCache::configure` between the geometry checks and
the final `return initTileCache();`, for the usable geometry `g` stored in `m_geom`. -/
def configureGrid (g : InputGeom) (s : OgreDetourTileCache) : OgreDetourTileCache :=
  let cfg := configureCfg g s
  let recastCfg : rcConfig := { s.m_recast.m_cfg with bmin := g.bmin, bmax := g.bmax }
  let m_cellSize := cfg.cs
  let gw := (rcCalcGridSize g.bmin g.bmax m_cellSize).1
  let gh := (rcCalcGridSize g.bmin g.bmax m_cellSize).2
  let ts := s.m_tileSize
  let tw := tileCount gw ts
  let th := tileCount gh ts
  let tileBits := tileBitsOf tw th
  let polyBits := 22 - tileBits
  { s with
    m_tmproc := some g, m_cfg := cfg, m_recast := { s.m_recast with m_cfg := recastCfg },
    m_cellSize := m_cellSize, m_tw := tw, m_th := th,
    m_maxTiles := shl1 tileBits, m_maxPolysPerTile := shl1 polyBits,
    m_tcparams := configureTcParams g s cfg tw th }

/-- `OgreDetourTileCache::configure(inputGeom)`: store the geometry and the build
context, reject missing or empty geometry and geometry without a chunky mesh, derive
the grid configuration and finish with `initTileCache`. -/
def configure (env : Collab) (inputGeom : Option InputGeom) (s : OgreDetourTileCache) :
    Bool × OgreDetourTileCache :=
  let s := { s with m_geom := inputGeom }
  let s := { s with m_ctx := s.m_recast.m_ctx }
  match s.m_geom with
  | none => (false, s)
  | some g =>
    if g.isEmpty then (false, s) else
    if !g.chunkyMesh then (false, s) else
    initTileCache env (configureGrid g s)

/-! ## Building the tiles -/

/-- The tile configuration `tcfg` of `rasterizeTileLayers`: a copy of `m_cfg` whose
bounds are the tile's rectangle grown by the border. Every product has an `int` factor,
which is converted to `float` first. -/
def tileConfig (s : OgreDetourTileCache) (tx ty : Int) : rcConfig :=
  let tcs : ℚ := f32 (f32 (s.m_tileSize : ℚ) * s.m_cellSize)
  let tcfg := s.m_cfg
  let bmin : Vec3 :=
    { x := f32 (s.m_cfg.bmin.x + f32 (f32 (tx : ℚ) * tcs)), y := s.m_cfg.bmin.y,
      z := f32 (s.m_cfg.bmin.z + f32 (f32 (ty : ℚ) * tcs)) }
  let bmax : Vec3 :=
    { x := f32 (s.m_cfg.bmin.x + f32 (f32 ((wrap32 (tx + 1) : Int) : ℚ) * tcs)),
      y := s.m_cfg.bmax.y,
      z := f32 (s.m_cfg.bmin.z + f32 (f32 ((wrap32 (ty + 1) : Int) : ℚ) * tcs)) }
  let bmin := { bmin with x := f32 (bmin.x - f32 (f32 (tcfg.borderSize : ℚ) * tcfg.cs)) }
  let bmin := { bmin with z := f32 (bmin.z - f32 (f32 (tcfg.borderSize : ℚ) * tcfg.cs)) }
  let bmax := { bmax with x := f32 (bmax.x + f32 (f32 (tcfg.borderSize : ℚ) * tcfg.cs)) }
  let bmax := { bmax with z := f32 (bmax.z + f32 (f32 (tcfg.borderSize : ℚ) * tcfg.cs)) }
  { tcfg with bmin := bmin, bmax := bmax }

/-- The layer header `rasterizeTileLayers` fills in for layer `i` of tile `(tx, ty)`;
the casts to `unsigned char` and `unsigned short` reduce modulo 256 and 65536. -/
def layerHeaderOf (tx ty i : Int) (layer : rcHeightfieldLayer) : dtTileCacheLayerHeader :=
  { tx := tx, ty := ty, tlayer := i, bmin := layer.bmin, bmax := layer.bmax
    width := (layer.width % 256).toNat, height := (layer.height % 256).toNat
    minx := (layer.minx % 256).toNat, maxx := (layer.maxx % 256).toNat
    miny := (layer.miny % 256).toNat, maxy := (layer.maxy % 256).toNat
    hmin := (layer.hmin % 65536).toNat, hmax := (layer.hmax % 65536).toNat }

/-- The serialisation loop of `rasterizeTileLayers` over the layers still to do,
`i` being the index of the first of them: `none` when `dtBuildTileCacheLayer` fails
(the function then returns 0), otherwise the tiles in `rc.tiles`. -/
def buildLayerTiles (env : Collab) (tx ty : Int) :
    Int → List rcHeightfieldLayer → Option (List TileCacheData)
  | _, [] => some []
  | i, layer :: rest =>
    match env.dtBuildTileCacheLayer (layerHeaderOf tx ty i layer) layer with
    | none => none
    | some tile =>
      match buildLayerTiles env tx ty (i + 1) rest with
      | none => none
      | some tiles => some (tile :: tiles)

/-- `OgreDetourTileCache::rasterizeTileLayers(geom, tx, ty, cfg, tiles, maxTiles)`: the
tiles written to the caller's array, whose number is the return value. -/
def rasterizeTileLayers (env : Collab) (s : OgreDetourTileCache) (geom : Option InputGeom)
    (tx ty : Int) (maxTiles : Int) : List TileCacheData :=
  match geom with
  | none => []
  | some g =>
    if g.isEmpty then [] else
    if !g.chunkyMesh then [] else
    let tcfg := tileConfig s tx ty
    if !env.rcAllocHeightfield then [] else
    if !env.rcCreateHeightfield tcfg then [] else
    let ncid := env.rcGetChunksOverlappingRect g (tcfg.bmin.x, tcfg.bmin.z) (tcfg.bmax.x, tcfg.bmax.z)
    if ncid = 0 then [] else
    if !env.rcAllocCompactHeightfield then [] else
    if !env.rcBuildCompactHeightfield g tcfg then [] else
    if !env.rcErodeWalkableArea g tcfg then [] else
    if !env.rcAllocHeightfieldLayerSet then [] else
    match env.rcBuildHeightfieldLayers g tcfg with
    | none => []
    | some layers =>
      let nlayers : Int := layers.length
      match buildLayerTiles env tx ty 0 (layers.take (rcMin nlayers MAX_LAYERS).toNat) with
      | none => []
      | some rcTiles =>
        let ntiles : Int := rcTiles.length
        rcTiles.take (rcMin ntiles maxTiles).toNat

/-- Index of the first free slot of a slot list. -/
def firstFree : List dtCompressedTile → Option Nat
  | [] => none
  | t :: rest => if t.header.isNone then some 0 else (firstFree rest).map Nat.succ

/-- The slot content after the tile cache has taken over a compressed block: its header
pointer refers to the layer header at the start of the block. -/
def storedTile (env : Collab) (data : List Byte) (dataSize : Int) (ref : Nat) : dtCompressedTile :=
  { header := some (env.layerHeader data), data := data, dataSize := dataSize, ref := ref }

/-- Modelled from the spec: `dtTileCache::addTile` of Detour (not under src/),
"reference or failure(duplicate/full)": when the cache accepts the block it is stored
in the first free slot, the status is success and the new reference is returned;
otherwise the status is failure, the cache is unchanged and no reference is written
(the caller's reference stays 0). The result is the status, the reference and the
cache. -/
def dtTileCache.addTile (env : Collab) (tc : dtTileCache) (data : List Byte) (dataSize : Int) :
    Bool × Nat × dtTileCache :=
  match env.addTile tc data dataSize, firstFree tc.tiles with
  | some ref, some i =>
    (true, ref, { tc with tiles := tc.tiles.set i (storedTile env data dataSize ref) })
  | _, _ => (false, 0, tc)

/-- The function `calcLayerBufferSize(gridWidth, gridHeight)` of the header file. -/
def calcLayerBufferSize (env : Collab) (gridWidth gridHeight : Int) : Int :=
  let headerSize := env.layerHeaderSize
  let gridSize := wrap32 (gridWidth * gridHeight)
  wrap32 (headerSize + wrap32 (gridSize * 4))

/-- The tile coordinates visited by `for (y < th) for (x < tw)`, in order. -/
def tileCoords (tw th : Int) : List (Int × Int) :=
  (List.range th.toNat).flatMap fun y => (List.range tw.toNat).map fun x => ((x : Int), (y : Int))

/-- The inner loop of `TileCacheBuild` over the tiles of one grid position: add each
compressed tile to the tile cache and count the accepted ones. `none` stands for the
dereference of a null `m_tileCache`. -/
def addBuiltTiles (env : Collab) :
    List TileCacheData → OgreDetourTileCache → Option OgreDetourTileCache
  | [], s => some s
  | tile :: rest, s =>
    match s.m_tileCache with
    | none => none
    | some tc =>
      let (status, _, tc) := tc.addTile env tile.data tile.dataSize
      let s := { s with m_tileCache := some tc }
      if !status then addBuiltTiles env rest s else
      let s := { s with m_cacheLayerCount := wrap32 (s.m_cacheLayerCount + 1) }
      let s := { s with m_cacheCompressedSize := wrap32 (s.m_cacheCompressedSize + tile.dataSize) }
      let raw := calcLayerBufferSize env s.m_tcparams.width s.m_tcparams.height
      let s := { s with m_cacheRawSize := wrap32 (s.m_cacheRawSize + raw) }
      addBuiltTiles env rest s

/-- The first double loop of `TileCacheBuild`: rasterise every grid position and add
its tiles. -/
def buildAllTiles (env : Collab) :
    List (Int × Int) → OgreDetourTileCache → Option OgreDetourTileCache
  | [], s => some s
  | (x, y) :: rest, s =>
    match addBuiltTiles env (rasterizeTileLayers env s s.m_geom x y MAX_LAYERS) s with
    | none => none
    | some s => buildAllTiles env rest s

/-- A mesh build performed on the recast module's nav mesh, recorded when there is
one. -/
def recordMeshBuild (b : MeshBuild) (s : OgreDetourTileCache) : OgreDetourTileCache :=
  let nav := s.m_recast.m_navMesh.map fun nm => { nm with builds := nm.builds ++ [b] }
  { s with m_recast := { s.m_recast with m_navMesh := nav } }

/-- The loop `m_tileCache->buildNavMeshTilesAt(x, y, m_recast->m_navMesh)` over the grid
positions. `none` stands for the dereference of a null `m_tileCache`; the builds are
recorded in the nav mesh when there is one. -/
def buildAllMeshes : List (Int × Int) → OgreDetourTileCache → Option OgreDetourTileCache
  | [], s => some s
  | (x, y) :: rest, s =>
    match s.m_tileCache with
    | none => none
    | some _ => buildAllMeshes rest (recordMeshBuild (MeshBuild.tilesAt x y) s)

/-- `OgreDetourTileCache::TileCacheBuild`, from the geometry `inputGeom` built out of the
source meshes and the area list: configure, build and add every tile, build every mesh,
record the memory statistics and return. The outer `none` stands for the dereference
of a null pointer (`m_tileCache`, or the nav mesh in the final statistics loop). -/
def TileCacheBuild (env : Collab) (inputGeom : InputGeom) (s : OgreDetourTileCache) :
    Option (Bool × OgreDetourTileCache) :=
  let s := (configure env (some inputGeom) s).2
  let s := { s with m_cacheLayerCount := 0, m_cacheCompressedSize := 0, m_cacheRawSize := 0 }
  match buildAllTiles env (tileCoords s.m_tw s.m_th) s with
  | none => none
  | some s =>
    match buildAllMeshes (tileCoords s.m_tw s.m_th) s with
    | none => none
    | some s =>
      let s := { s with m_cacheBuildMemUsage := s.m_talloc.high }
      match s.m_recast.m_navMesh with
      | none => none
      | some _ => some (true, s)

/-! ## Saving and loading -/

/-- The four bytes of an `unsigned int` in the file, least significant first. -/
def le32 (u : Nat) : List Byte :=
  [u % 256, u / 256 % 256, u / 65536 % 256, u / 16777216 % 256]

/-- The `unsigned int` stored in four bytes, least significant first. -/
def unle32 (b0 b1 b2 b3 : Byte) : Nat := b0 + 256 * b1 + 65536 * b2 + 16777216 * b3

/-- The eight bytes `fwrite(&tileHeader, sizeof(tileHeader), 1, fp)` puts in the file. -/
def writeTileHeader (h : TileCacheTileHeader) : List Byte :=
  le32 (h.tileRef % 4294967296) ++ le32 (toU32 h.dataSize)

/-- The call `fread(&tileHeader, sizeof(tileHeader), 1, fp)`: the header and the rest of
the file, or `none` when fewer than eight bytes are left (the header then stays
indeterminate). -/
def readTileHeader : List Byte → Option (TileCacheTileHeader × List Byte)
  | b0 :: b1 :: b2 :: b3 :: b4 :: b5 :: b6 :: b7 :: rest =>
    some ({ tileRef := unle32 b0 b1 b2 b3, dataSize := ofU32 (unle32 b4 b5 b6 b7) }, rest)
  | _ => none

/-- The calls `memset(data, 0, n); fread(data, n, 1, fp)`: the buffer of `n` bytes, zero
where the file ended early, and the rest of the file. -/
def readData (n : Nat) (file : List Byte) : List Byte × List Byte :=
  (file.take n ++ List.replicate (n - file.length) 0, file.drop n)

/-- `dtTileCache::getTileCount()`, which returns `m_params.maxTiles`. -/
def dtTileCache.getTileCount (tc : dtTileCache) : Int :=
  match tc.params with
  | none => 0
  | some p => p.maxTiles

/-- `dtTileCache::getParams()`. -/
def dtTileCache.getParams (tc : dtTileCache) : dtTileCacheParams :=
  tc.params.getD dtTileCacheParams.zero

/-- `dtNavMesh::getParams()`. -/
def dtNavMesh.getParams (nm : dtNavMesh) : dtNavMeshParams :=
  nm.params.getD { orig := ⟨0, 0, 0⟩, tileWidth := 0, tileHeight := 0, maxTiles := 0, maxPolys := 0 }

/-- The test `!tile || !tile->header || !tile->dataSize` of `saveAll` negated: the slot
holds a tile. -/
def dtCompressedTile.present (t : dtCompressedTile) : Bool :=
  t.header.isSome && decide (t.dataSize ≠ 0)

/-- The tiles the loops `for (i < getTileCount())` of `saveAll` do not skip, in slot
order. -/
def savedTiles (tc : dtTileCache) : List dtCompressedTile :=
  (List.range tc.getTileCount.toNat).filterMap fun i =>
    match tc.tiles[i]? with
    | none => none
    | some t => if t.present then some t else none

/-- The record `saveAll` writes for one tile: the tile header, then `dataSize` bytes of
the compressed block. -/
def writeTile (t : dtCompressedTile) : List Byte :=
  writeTileHeader { tileRef := t.ref, dataSize := t.dataSize } ++ t.data.take t.dataSize.toNat

/-- The first loop of `saveAll` over the slot indices still to visit: `header.numTiles++`
for every slot that is not skipped by `!tile || !tile->header || !tile->dataSize`. -/
def countTiles (tc : dtTileCache) : List Nat → Int → Int
  | [], numTiles => numTiles
  | i :: rest, numTiles =>
    match tc.tiles[i]? with
    | none => countTiles tc rest numTiles
    | some tile =>
      if tile.header.isNone ∨ tile.dataSize = 0 then countTiles tc rest numTiles
      else countTiles tc rest (numTiles + 1)

/-- The second loop of `saveAll` over the slot indices still to visit: the bytes written
for every slot that is not skipped, a tile header and the compressed block. -/
def storeTiles (tc : dtTileCache) : List Nat → List Byte
  | [] => []
  | i :: rest =>
    match tc.tiles[i]? with
    | none => storeTiles tc rest
    | some tile =>
      if tile.header.isNone ∨ tile.dataSize = 0 then storeTiles tc rest
      else writeTile tile ++ storeTiles tc rest

/-- `OgreDetourTileCache::saveAll`: the return value and the file written, if any;
`fopenOk` tells whether the file could be opened. The outer `none` stands for the
dereference of a null nav mesh. -/
def saveAll (ids : FormatIds) (fopenOk : Bool) (s : OgreDetourTileCache) :
    Option (Bool × Option TileCacheFile) :=
  match s.m_tileCache with
  | none => some (false, none)
  | some tc =>
    if !fopenOk then some (false, none) else
    match s.m_recast.m_navMesh with
    | none => none
    | some nav =>
      let header : TileCacheSetHeader :=
        { magic := ids.TILECACHESET_MAGIC, version := ids.TILECACHESET_VERSION,
          numTiles := countTiles tc (List.range tc.getTileCount.toNat) 0,
          cacheParams := tc.getParams, meshParams := nav.getParams, recastConfig := s.m_cfg }
      some (true, some { header := header, body := storeTiles tc (List.range tc.getTileCount.toNat) })

/-- The loop `for (i < header.numTiles)` of `loadAll` with `n` rounds to go: read a tile
header, stop at a null reference, a zero size or a failed allocation, read the block,
add it to the tile cache and build its mesh when the add returned a reference. `none`
stands for a tile header that could not be read. -/
def loadTiles (env : Collab) :
    Nat → List Byte → dtTileCache → dtNavMesh → Option (dtTileCache × dtNavMesh)
  | 0, _, tc, nav => some (tc, nav)
  | n + 1, file, tc, nav =>
    match readTileHeader file with
    | none => none
    | some (tileHeader, file) =>
      if tileHeader.tileRef = 0 ∨ tileHeader.dataSize = 0 then some (tc, nav) else
      if !env.dtAlloc tileHeader.dataSize then some (tc, nav) else
      let (data, file) := readData tileHeader.dataSize.toNat file
      let (_, tile, tc) := tc.addTile env data tileHeader.dataSize
      let nav := if tile ≠ 0 then { nav with builds := nav.builds ++ [MeshBuild.byRef tile] } else nav
      loadTiles env n file tc nav

/-- The part of `loadAll` after the tile loop: create the nav mesh query, copy the loaded
configuration into the members and the recast module, derive the grid size and the
identifier bits, build every mesh, and take over the geometry. `none` stands for a
failed `assert ( !m_geom && !m_ctx )` or the dereference of a null pointer. -/
def loadConfig (env : Collab) (header : TileCacheSetHeader) (srcGeom : InputGeom)
    (s : OgreDetourTileCache) : Option (Bool × OgreDetourTileCache) :=
  let query : dtNavMeshQuery := { ready := env.navQueryInit }
  let s := { s with m_recast := { s.m_recast with m_navQuery := some query } }
  let s := { s with m_cellSize := s.m_cfg.cs, m_tileSize := s.m_cfg.tileSize }
  let bmin := s.m_cfg.bmin
  let bmax := s.m_cfg.bmax
  let s := { s with m_recast := { s.m_recast with m_cfg := s.m_cfg } }
  let s := { s with m_tcparams := header.cacheParams }
  let gw := (rcCalcGridSize bmin bmax s.m_cellSize).1
  let gh := (rcCalcGridSize bmin bmax s.m_cellSize).2
  let ts := s.m_tileSize
  if divUndefined (wrap32 (wrap32 (gw + ts) - 1)) ts then none else
  if divUndefined (wrap32 (wrap32 (gh + ts) - 1)) ts then none else
  let tw := tileCount gw ts
  let th := tileCount gh ts
  let s := { s with m_tw := tw, m_th := th }
  let tileBits := tileBitsOf tw th
  let polyBits := 22 - tileBits
  let s := { s with m_maxTiles := shl1 tileBits, m_maxPolysPerTile := shl1 polyBits }
  match buildAllMeshes (tileCoords s.m_tw s.m_th) s with
  | none => none
  | some s =>
    let s := { s with m_cacheBuildMemUsage := s.m_talloc.high }
    if s.m_geom.isSome ∨ s.m_ctx.isSome then none else
    some (true, { s with m_geom := some srcGeom, m_ctx := s.m_recast.m_ctx })

/-- `OgreDetourTileCache::loadAll`: `file` is the content of the named file (`none` when
it cannot be opened), `srcGeom` the geometry built from the source meshes. The outer
`none` stands for undefined behaviour or a failed assertion. -/
def loadAll (ids : FormatIds) (env : Collab) (file : Option TileCacheFile) (srcGeom : InputGeom)
    (s : OgreDetourTileCache) : Option (Bool × OgreDetourTileCache) :=
  match file with
  | none => some (false, s)
  | some fp =>
    let header := fp.header
    if header.magic ≠ ids.TILECACHESET_MAGIC then some (false, s) else
    if header.version ≠ ids.TILECACHESET_VERSION then some (false, s) else
    if !env.dtAllocNavMesh then
      some (false, { s with m_recast := { s.m_recast with m_navMesh := none } }) else
    if !env.navMeshInit header.meshParams then
      some (false, { s with m_recast := { s.m_recast with m_navMesh := some dtNavMesh.fresh } })
    else
    let nav : dtNavMesh := { params := some header.meshParams, builds := [] }
    let s := { s with m_recast := { s.m_recast with m_navMesh := some nav } }
    if !env.dtAllocTileCache then some (false, { s with m_tileCache := none }) else
    if !env.tileCacheInit header.cacheParams then
      some (false, { s with m_tileCache := some dtTileCache.fresh }) else
    let tc := dtTileCache.inited header.cacheParams
    let s := { s with m_cfg := header.recastConfig }
    match loadTiles env header.numTiles.toNat fp.body tc nav with
    | none => none
    | some (tc, nav) =>
      let s := { s with m_tileCache := some tc }
      let s := { s with m_recast := { s.m_recast with m_navMesh := some nav } }
      loadConfig env header srcGeom s

/-! ## Construction and sample objects -/

/-- The `LinearAllocator(cap)` constructor: all members zero, then `resize(cap)`, whose
`dtAlloc` succeeds or not according to the collaborator. -/
def LinearAllocator.new (env : Collab) (cap : Int) : LinearAllocator :=
  { buffer := env.dtAlloc cap, capacity := cap, top := 0, high := 0 }

/-- An `rcConfig` with every field zero. -/
def rcConfig.zero : rcConfig :=
  { width := 0, height := 0, tileSize := 0, borderSize := 0, cs := 0, ch := 0,
    bmin := ⟨0, 0, 0⟩, bmax := ⟨0, 0, 0⟩, walkableSlopeAngle := 0, walkableHeight := 0,
    walkableClimb := 0, walkableRadius := 0, maxEdgeLen := 0, maxSimplificationError := 0,
    minRegionArea := 0, mergeRegionArea := 0, maxVertsPerPoly := 0, detailSampleDist := 0,
    detailSampleMaxError := 0 }

/-- A configuration with cells of size 1 and tiles of 48 cells, every other field zero. -/
def sampleConfig : rcConfig := { rcConfig.zero with cs := 1, tileSize := 48 }

/-- The `OgreDetourTileCache(recast, max_num_obstacles, tileSize)` constructor. The members
`m_cfg` and `m_tcparams`, which the constructor leaves unset, are taken as zero. -/
def construct (env : Collab) (recast : OgreRecast) (max_num_obstacles : Nat) (tileSize : Int) :
    OgreDetourTileCache :=
  { m_recast := recast, m_geom := none, m_tileSize := ctorTileSize tileSize,
    MaxNumObstacles := max_num_obstacles, m_talloc := LinearAllocator.new env 32000,
    m_tmproc := none, m_tileCache := none, m_cfg := rcConfig.zero,
    m_tcparams := dtTileCacheParams.zero, m_ctx := none, m_cacheCompressedSize := 0,
    m_cacheRawSize := 0, m_cacheLayerCount := 0, m_cacheBuildMemUsage := 0, m_maxTiles := 0,
    m_maxPolysPerTile := 0, m_cellSize := 0, m_tw := 0, m_th := 0, TempObstacleAdded := false }

/-- A collaborator for which every allocation and initialisation succeeds, every tile is
accepted with reference 1, and the rasterisation finds no geometry. -/
def okCollab : Collab :=
  { dtAllocTileCache := true, tileCacheInit := fun _ => true, dtAllocNavMesh := true,
    navMeshInit := fun _ => true, navQueryInit := true, dtAlloc := fun _ => true,
    addTile := fun _ _ _ => some 1,
    layerHeader := fun _ =>
      { tx := 0, ty := 0, tlayer := 0, bmin := ⟨0, 0, 0⟩, bmax := ⟨0, 0, 0⟩, width := 0,
        height := 0, minx := 0, maxx := 0, miny := 0, maxy := 0, hmin := 0, hmax := 0 },
    layerHeaderSize := 56, rcAllocHeightfield := true, rcCreateHeightfield := fun _ => true,
    rcGetChunksOverlappingRect := fun _ _ _ => 0, rcAllocCompactHeightfield := true,
    rcBuildCompactHeightfield := fun _ _ => true, rcErodeWalkableArea := fun _ _ => true,
    rcAllocHeightfieldLayerSet := true, rcBuildHeightfieldLayers := fun _ _ => some [],
    dtBuildTileCacheLayer := fun _ _ => none }

/-- An `OgreRecast` module configured with the given cell size, without a nav mesh. -/
def sampleRecast (cs : ℚ) : OgreRecast :=
  { m_cfg := { rcConfig.zero with cs := cs, ch := cs, walkableRadius := 2 },
    m_navMesh := none, m_navQuery := none, m_ctx := some 1 }

/-- A non-empty geometry with a chunky mesh and the given bounds. -/
def sampleGeom (bmin bmax : Vec3) : InputGeom :=
  { nverts := 4, ntris := 2, chunkyMesh := true, bmin := bmin, bmax := bmax }

/-- A geometry without vertices or triangles, as built from an empty mesh list. -/
def emptyGeom : InputGeom :=
  { nverts := 0, ntris := 0, chunkyMesh := false, bmin := ⟨0, 0, 0⟩, bmax := ⟨0, 0, 0⟩ }

/-- The test of `configure` and `rasterizeTileLayers` on the geometry pointer: it is
null, the geometry is empty, or it has no chunky mesh. -/
def unusable (inputGeom : Option InputGeom) : Bool :=
  match inputGeom with
  | none => true
  | some g => g.isEmpty || !g.chunkyMesh

/-- An `OgreRecast` module that already holds a nav mesh, as after
`OgreRecast::NavMeshBuild`. -/
def recastWithMesh (cs : ℚ) : OgreRecast :=
  { sampleRecast cs with m_navMesh := some dtNavMesh.fresh }

/-- What the tile cache holds for a tile apart from its reference: the layer header, the
compressed block and its size. -/
def tileView (t : dtCompressedTile) : Option dtTileCacheLayerHeader × List Byte × Int :=
  (t.header, t.data, t.dataSize)

/-- Sample values for the format identifiers. -/
def sampleIds : FormatIds := { TILECACHESET_MAGIC := 1414743380, TILECACHESET_VERSION := 1 }

/-- A file whose header carries the magic number 0. -/
def badMagicFile : TileCacheFile :=
  { header :=
      { magic := 0, version := 1, numTiles := 0, meshParams := dtNavMesh.fresh.getParams,
        cacheParams := dtTileCacheParams.zero, recastConfig := rcConfig.zero },
    body := [] }

/-- A tile cache initialised with `params` whose first slots hold the tiles `added`, the
remaining slots up to the capacity being free; `n` is the number of added tiles. -/
def afterLoad (params : dtTileCacheParams) (added : List dtCompressedTile) (n : Nat) : dtTileCache :=
  { params := some params
    tiles := added ++ List.replicate (params.maxTiles.toNat - n) dtCompressedTile.free }

/-- A tile cache of capacity 3 holding two tiles, in slots 0 and 2. -/
def sampleCache : dtTileCache :=
  { params := some { dtTileCacheParams.zero with maxTiles := 3 }
    tiles := [storedTile okCollab [1, 2, 3] 3 65537, dtCompressedTile.free,
      storedTile okCollab [9, 8] 2 65538] }

/-- An object holding `sampleCache` and a nav mesh. -/
def sampleSaved : OgreDetourTileCache :=
  { construct okCollab (recastWithMesh 1) 8 48 with
    m_tileCache := some sampleCache
    m_cfg := sampleConfig }

/-- The file `saveAll` writes for `sampleSaved`. -/
def sampleFile : TileCacheFile :=
  { header :=
      { magic := 1414743380, version := 1, numTiles := 2,
        meshParams := dtNavMesh.fresh.getParams,
        cacheParams := { dtTileCacheParams.zero with maxTiles := 3 },
        recastConfig := sampleConfig },
    body := [1, 0, 1, 0, 3, 0, 0, 0, 1, 2, 3, 2, 0, 1, 0, 2, 0, 0, 0, 9, 8] }

/-- The first `n` tile records of a byte sequence, as the format lays them out: a tile
header, then as many bytes as its `dataSize` says. The result is the records, each with
its block, and the bytes after them; `none` when the bytes run out. -/
def readRecords : Nat → List Byte → Option (List (TileCacheTileHeader × List Byte) × List Byte)
  | 0, file => some ([], file)
  | n + 1, file =>
    match readTileHeader file with
    | none => none
    | some (tileHeader, file) =>
      if file.length < tileHeader.dataSize.toNat then none else
      match readRecords n (file.drop tileHeader.dataSize.toNat) with
      | none => none
      | some (records, rest) =>
        some ((tileHeader, file.take tileHeader.dataSize.toNat) :: records, rest)

/-- The record of a tile: its reference and size as the tile header, and its block. -/
def recordOf (t : dtCompressedTile) : TileCacheTileHeader × List Byte :=
  ({ tileRef := t.ref, dataSize := t.dataSize }, t.data)

/-- The object of `loadAll` when the tile loop has ended with the tile cache `tc` and
the nav mesh `nav`: the configuration of the file, the new tile cache and nav mesh. -/
def loadedState (fp : TileCacheFile) (s : OgreDetourTileCache) (tc : dtTileCache)
    (nav : dtNavMesh) : OgreDetourTileCache :=
  { s with
    m_cfg := fp.header.recastConfig
    m_tileCache := some tc
    m_recast := { s.m_recast with m_navMesh := some nav } }

/-- A file announcing two tile records, the first of which carries a null reference. -/
def nullRefFile : TileCacheFile :=
  { header :=
      { magic := 1414743380, version := 1, numTiles := 2,
        meshParams := dtNavMesh.fresh.getParams,
        cacheParams := { dtTileCacheParams.zero with maxTiles := 3 },
        recastConfig := sampleConfig },
    body := [0, 0, 0, 0, 3, 0, 0, 0, 1, 2, 3, 2, 0, 1, 0, 2, 0, 0, 0, 9, 8] }

/-! ## The linear allocator -/

/-- Detour's `dtMax` template: `a > b ? a : b`. -/
def dtMax (a b : Int) : Int := if a > b then a else b

/-- `LinearAllocator::resize(cap)`: a new buffer of `cap` bytes, whose allocation
succeeds or not according to the collaborator; `top` and `high` stay. -/
def LinearAllocator.resize (env : Collab) (a : LinearAllocator) (cap : Int) : LinearAllocator :=
  { a with buffer := env.dtAlloc cap, capacity := cap }

/-- `LinearAllocator::reset()`: `high = dtMax(high, top); top = 0;`. -/
def LinearAllocator.reset (a : LinearAllocator) : LinearAllocator :=
  { a with high := dtMax a.high a.top, top := 0 }

/-- `LinearAllocator::alloc(size)`: the returned pointer, as an offset into the buffer
(`none` for the null pointer), and the allocator afterwards. -/
def LinearAllocator.alloc (a : LinearAllocator) (size : Int) : Option Int × LinearAllocator :=
  if !a.buffer then (none, a) else
  if wrap32 (a.top + size) > a.capacity then (none, a) else
  (some a.top, { a with top := wrap32 (a.top + size) })

/-- `LinearAllocator::free(ptr)`, whose body is empty. -/
def LinearAllocator.free (a : LinearAllocator) (_ptr : Option Int) : LinearAllocator := a

/-- A run of `alloc` calls with the given sizes: the blocks handed out, each as its
offset and size, and the allocator afterwards. -/
def LinearAllocator.allocAll (a : LinearAllocator) : List Int → List (Int × Int) × LinearAllocator
  | [] => ([], a)
  | size :: rest =>
    match a.alloc size with
    | (some mem, a') => ((mem, size) :: (allocAll a' rest).1, (allocAll a' rest).2)
    | (none, a') => allocAll a' rest

/-- A call on a `LinearAllocator`: `alloc(size)`, `free(ptr)` or `reset()`. -/
inductive AllocOp where
  | alloc (size : Int)
  | free (ptr : Option Int)
  | reset
deriving DecidableEq

/-- The allocator after one call. -/
def LinearAllocator.step (a : LinearAllocator) : AllocOp → LinearAllocator
  | AllocOp.alloc size => (a.alloc size).2
  | AllocOp.free ptr => a.free ptr
  | AllocOp.reset => a.reset

/-- The allocator after a sequence of calls, together with every value `top` has had:
the initial one and the one after each call, oldest first. -/
def LinearAllocator.trace (a : LinearAllocator) (ops : List AllocOp) : LinearAllocator × List Int :=
  ops.foldl (fun st op => (st.1.step op, st.2 ++ [(st.1.step op).top])) (a, [a.top])

/-! ## MeshProcess (include/OgreDetourTileCache.h) -/

/-- The polygon area and flag constants used by `MeshProcess::process`; their values
are defined outside src/. -/
structure PolyConsts where
  DT_TILECACHE_WALKABLE_AREA : Nat
  POLYAREA_GRASS : Nat
  POLYAREA_SAND : Nat
  POLYAREA_ROAD : Nat
  POLYAREA_WATER : Nat
  POLYAREA_GATE : Nat
  POLYFLAGS_WALK : Nat
  POLYFLAGS_FLOAT : Nat
  POLYFLAGS_ALL_PLAYERS : Nat

/-- The body of the loop of `MeshProcess::process` for one polygon: `area` is
`polyAreas[i]` (an `unsigned char`), `flag` is `polyFlags[i]` (an `unsigned short`);
the result is the pair of new values. -/
def MeshProcess.processPoly (k : PolyConsts) (area flag : Nat) : Nat × Nat :=
  let area := if area = k.DT_TILECACHE_WALKABLE_AREA then k.POLYAREA_GRASS % 256 else area
  if area = k.POLYAREA_GRASS ∨ area = k.POLYAREA_SAND ∨ area = k.POLYAREA_ROAD then
    (area, (flag ||| k.POLYFLAGS_WALK) % 65536)
  else if area = k.POLYAREA_WATER then
    (area, (flag ||| k.POLYFLAGS_FLOAT) % 65536)
  else if area = k.POLYAREA_GATE then
    (area, (((flag ||| k.POLYFLAGS_WALK) % 65536) ||| k.POLYFLAGS_ALL_PLAYERS) % 65536)
  else (area, flag)

/-- The loop `for (int i = ..; i < params->polyCount; ++i)` of `MeshProcess::process`
with `n` iterations left from index `i`; `none` is an access past the end of an
array. -/
def MeshProcess.processLoop (k : PolyConsts) :
    Nat → Nat → List Nat → List Nat → Option (List Nat × List Nat)
  | 0, _, polyAreas, polyFlags => some (polyAreas, polyFlags)
  | n + 1, i, polyAreas, polyFlags =>
    match polyAreas[i]?, polyFlags[i]? with
    | some area, some flag =>
      MeshProcess.processLoop k n (i + 1)
        (polyAreas.set i (MeshProcess.processPoly k area flag).1)
        (polyFlags.set i (MeshProcess.processPoly k area flag).2)
    | _, _ => none

/-- `MeshProcess::process(params, polyAreas, polyFlags)`, with `polyCount` the member
`params->polyCount`: the two arrays after the call. -/
def MeshProcess.process (k : PolyConsts) (polyCount : Int) (polyAreas polyFlags : List Nat) :
    Option (List Nat × List Nat) :=
  MeshProcess.processLoop k polyCount.toNat 0 polyAreas polyFlags

/-- Sample values of the polygon constants. -/
def sampleConsts : PolyConsts :=
  { DT_TILECACHE_WALKABLE_AREA := 63
    POLYAREA_GRASS := 0
    POLYAREA_WATER := 1
    POLYAREA_ROAD := 2
    POLYAREA_SAND := 3
    POLYAREA_GATE := 4
    POLYFLAGS_WALK := 1
    POLYFLAGS_FLOAT := 2
    POLYFLAGS_ALL_PLAYERS := 256 }

/-- A sample heightfield layer of the given width. -/
def sampleLayer (width : Int) : rcHeightfieldLayer :=
  { bmin := ⟨0, 0, 0⟩, bmax := ⟨1, 1, 1⟩, width := width, height := 4, minx := 0, maxx := 3,
    miny := 0, maxy := 3, hmin := 0, hmax := 1 }

/-- Sample answers under which a tile has two layers and every layer serialises to a
one-byte block holding the layer's width. -/
def layerCollab : Collab :=
  { okCollab with
    rcGetChunksOverlappingRect := fun _ _ _ => 1
    rcBuildHeightfieldLayers := fun _ _ => some [sampleLayer 7, sampleLayer 9]
    dtBuildTileCacheLayer := fun header _ => some { data := [header.width], dataSize := 1 } }

/-! ## Obstacles and the update cycle (source/OgreDetourTileCache.cpp, lines 549-821) -/

/-- The number of obstacle slots of a tile cache, `maxObstacles` of its parameters. -/
def dtTileCache.maxObstacles (tc : dtTileCache) : Nat :=
  match tc.params with
  | none => 0
  | some p => p.maxObstacles.toNat

/-- Index of the first slot in state `empty` among the slots used so far. -/
def firstEmpty : List dtTileCacheObstacle → Option Nat
  | [] => none
  | ob :: rest =>
    if ob.state = ObstacleState.empty then some 0 else (firstEmpty rest).map Nat.succ

/-- The slot a new obstacle goes to: an emptied slot, else the next slot never used while
the table has one left; `none` when the obstacle table is full. -/
def dtTileCache.freeObstacle (tc : dtTileCache) : Option Nat :=
  match firstEmpty tc.m_obstacles with
  | some i => some i
  | none => if tc.m_obstacles.length < tc.maxObstacles then some tc.m_obstacles.length else none

/-- Writes an obstacle into slot `i`, which is a used slot or the next one. -/
def putObstacle (obs : List dtTileCacheObstacle) (i : Nat) (ob : dtTileCacheObstacle) :
    List dtTileCacheObstacle :=
  if i < obs.length then obs.set i ob else obs ++ [ob]

/-- Modelled from the spec: `dtTileCache::addBoxObstacle` of Detour (not under src/),
"addObstacle(shape, areaTag, flags) → pending reference, queued", failing "if the
request queue is full or the obstacle table is full". On failure nothing is written
through the result pointer and the cache is unchanged. On success the obstacle takes a
free slot in state requested-add, an add request joins the queue and the reference of
the slot, its index plus one, is written. The result is whether the status is
`DT_SUCCESS`, the reference written (if any) and the cache. -/
def dtTileCache.addBoxObstacle (env : Collab) (tc : dtTileCache) (shape : ObstacleShape)
    (area_id flags : Nat) : Bool × Option Nat × dtTileCache :=
  if env.MAX_REQUESTS ≤ tc.m_reqs.length then (false, none, tc) else
  match tc.freeObstacle with
  | none => (false, none, tc)
  | some i =>
    let ob : dtTileCacheObstacle :=
      { shape := shape, areaId := area_id, flags := flags, state := ObstacleState.requestedAdd,
        touched := [], pending := [] }
    (true, some (i + 1),
      { tc with
        m_obstacles := putObstacle tc.m_obstacles i ob
        m_reqs := tc.m_reqs ++ [ObstacleRequest.add (i + 1)] })

/-- Modelled from the spec: `dtTileCache::removeObstacle` of Detour (not under src/),
"removeObstacle(reference) → queued removal", failing "if the request queue is full".
The result is whether the status is `DT_SUCCESS` and the cache. -/
def dtTileCache.removeObstacle (env : Collab) (tc : dtTileCache) (ref : Nat) :
    Bool × dtTileCache :=
  if env.MAX_REQUESTS ≤ tc.m_reqs.length then (false, tc) else
  (true, { tc with m_reqs := tc.m_reqs ++ [ObstacleRequest.remove ref] })

/-- Modelled from the spec: `dtTileCache::getObstacleByRef` of Detour (not under src/):
the obstacle a reference stands for, null for the null reference and for a slot that is
empty ("reference invalidated"). -/
def dtTileCache.getObstacleByRef (tc : dtTileCache) (ref : Nat) : Option dtTileCacheObstacle :=
  if ref = 0 then none else
  match tc.m_obstacles[ref - 1]? with
  | none => none
  | some ob => if ob.state = ObstacleState.empty then none else some ob

/-- Modelled from the spec: `dtTileCache::getTileByRef` of Detour (not under src/): the
present tile with the given reference, or null. -/
def dtTileCache.getTileByRef (tc : dtTileCache) (ref : Nat) : Option dtCompressedTile :=
  tc.tiles.find? fun t => t.header.isSome && decide (t.ref = ref)

/-- Adds tile references to the list of tiles waiting for a rebuild, each at most once. -/
def addDirty (dirty : List Nat) : List Nat → List Nat
  | [] => dirty
  | ref :: rest => if ref ∈ dirty then addDirty dirty rest else addDirty (dirty ++ [ref]) rest

/-- The state of an obstacle whose request has been processed and that still waits for
the tiles in `pending`: with none left an added obstacle is committed and a removed one
leaves its slot empty. -/
def settledState (state : ObstacleState) (pending : List Nat) : ObstacleState :=
  match pending, state with
  | [], ObstacleState.requestedAdd => ObstacleState.committed
  | [], ObstacleState.requestedRemove => ObstacleState.empty
  | _, st => st

/-- Modelled from the spec: one queued request processed by `dtTileCache::update`,
"processes pending obstacle requests (computing touched tiles via queryTiles), marks
touched tiles dirty". A request whose reference names no obstacle is dropped. -/
def dtTileCache.processRequest (env : Collab) (tc : dtTileCache) : ObstacleRequest → dtTileCache
  | ObstacleRequest.add ref =>
    match tc.getObstacleByRef ref with
    | none => tc
    | some ob =>
      let touched := env.queryTiles tc.tiles ob.shape
      { tc with
        m_obstacles := tc.m_obstacles.set (ref - 1)
          { ob with touched := touched, pending := touched,
                    state := settledState ObstacleState.requestedAdd touched }
        m_update := addDirty tc.m_update touched }
  | ObstacleRequest.remove ref =>
    match tc.getObstacleByRef ref with
    | none => tc
    | some ob =>
      { tc with
        m_obstacles := tc.m_obstacles.set (ref - 1)
          { ob with pending := ob.touched,
                    state := settledState ObstacleState.requestedRemove ob.touched }
        m_update := addDirty tc.m_update ob.touched }

/-- The first phase of `dtTileCache::update`: the queue, which holds at most
`MAX_REQUESTS` entries, is processed in submission order and emptied. -/
def dtTileCache.processRequests (env : Collab) (tc : dtTileCache) : dtTileCache :=
  { tc.m_reqs.foldl (dtTileCache.processRequest env) tc with m_reqs := [] }

/-- An obstacle after the tile `ref` has been rebuilt. -/
def dtTileCacheObstacle.rebuilt (ref : Nat) (ob : dtTileCacheObstacle) : dtTileCacheObstacle :=
  { ob with pending := ob.pending.erase ref,
            state := if ref ∈ ob.pending then settledState ob.state (ob.pending.erase ref)
                     else ob.state }

/-- The mesh build of the second phase of `dtTileCache::update` for the tile `ref`:
`buildNavMeshTilesAt` at the coordinates of the tile, when the tile exists. -/
def rebuildMesh (tc : dtTileCache) (ref : Nat) (nav : dtNavMesh) : dtNavMesh :=
  match tc.getTileByRef ref with
  | none => nav
  | some tile =>
    match tile.header with
    | none => nav
    | some h => { nav with builds := nav.builds ++ [MeshBuild.tilesAt h.tx h.ty] }

/-- The second phase of `dtTileCache::update`: one waiting tile, the oldest, is
rebuilt. -/
def dtTileCache.rebuildOne (tc : dtTileCache) (nav : dtNavMesh) : dtTileCache × dtNavMesh :=
  match tc.m_update with
  | [] => (tc, nav)
  | ref :: rest =>
    ({ tc with
       m_update := rest
       m_obstacles := tc.m_obstacles.map (dtTileCacheObstacle.rebuilt ref) },
     rebuildMesh tc ref nav)

/-- Modelled from the spec: `dtTileCache::update(dt, navmesh, upToDate)` of Detour (not
under src/): it "drains a bounded amount of queued work per call: processes pending
obstacle requests ..., marks touched tiles dirty, and rebuilds a bounded number of dirty
tiles via buildNavMeshTilesAt", here one tile; `upToDate` "is set true only once the
queue is empty and no tile remains dirty". The result is the cache, the nav mesh and the
value reported through `upToDate`. -/
def dtTileCache.update (env : Collab) (tc : dtTileCache) (_dt : ℚ) (nav : dtNavMesh) :
    dtTileCache × dtNavMesh × Bool :=
  let r := (tc.processRequests env).rebuildOne nav
  (r.1, r.2, r.1.m_update.isEmpty && r.1.m_reqs.isEmpty)

/-- The loop `while ( ! up_to_date ) m_tileCache->update ( dt, navMesh, &up_to_date )`
of `handleUpdate`: the cache and the nav mesh when the loop ends, and the values the
calls of `update` reported, in call order. Every call either empties a queue that was
not empty or shortens the list of waiting tiles, so the loop ends. -/
def updateUntilUpToDate (env : Collab) (dt : ℚ) (tc : dtTileCache) (nav : dtNavMesh) :
    dtTileCache × dtNavMesh × List Bool :=
  if _h : (tc.update env dt nav).2.2 = true then
    ((tc.update env dt nav).1, (tc.update env dt nav).2.1, [true])
  else
    let r := updateUntilUpToDate env dt (tc.update env dt nav).1 (tc.update env dt nav).2.1
    (r.1, r.2.1, false :: r.2.2)
termination_by (tc.m_reqs.length, tc.m_update.length)
decreasing_by
  rw [Prod.lex_def]
  simp only [dtTileCache.update, dtTileCache.processRequests, dtTileCache.rebuildOne] at _h ⊢
  rcases hr : tc.m_reqs with _ | ⟨q, qs⟩
  · rcases hu : tc.m_update with _ | ⟨u, us⟩
    · simp [hu, hr] at _h
    · right
      simp [hu, hr]
  · left
    split <;> simp

/-- `OgreDetourTileCache::SetDebugger(debug_instance)`. -/
def SetDebugger (s : OgreDetourTileCache) (debug_instance : Option Nat) : OgreDetourTileCache :=
  { s with NavMeshDebugInstance := debug_instance }

/-- `OgreDetourTileCache::AddObstacle(min, max, area_id, flags)`: the returned reference
and the state after the call. -/
def AddObstacle (env : Collab) (s : OgreDetourTileCache) (min max : Vec3) (area_id flags : Nat) :
    Nat × OgreDetourTileCache :=
  let result : Nat := 0
  match s.m_tileCache with
  | none => (result, s)
  | some tc =>
    let r := tc.addBoxObstacle env (ObstacleShape.box min max) area_id flags
    let result := r.2.1.getD result
    if r.1 then (result, { s with m_tileCache := some r.2.2, TempObstacleAdded := true })
    else (result, { s with m_tileCache := some r.2.2 })

/-- `OgreDetourTileCache::AddObstacle(centre, width, depth, height, y_rotation, area_id,
flags)`, the second overload: the returned reference and the state after the call. -/
def AddObstacleRotated (env : Collab) (s : OgreDetourTileCache) (centre : Vec3)
    (width depth height y_rotation : ℚ) (area_id flags : Nat) : Nat × OgreDetourTileCache :=
  let result : Nat := 0
  match s.m_tileCache with
  | none => (result, s)
  | some tc =>
    let half_extents : Vec3 := ⟨f32 (width / 2), f32 (height / 2), f32 (depth / 2)⟩
    let r := tc.addBoxObstacle env (ObstacleShape.orientedBox centre half_extents y_rotation)
      area_id flags
    let result := r.2.1.getD result
    if r.1 then (result, { s with m_tileCache := some r.2.2, TempObstacleAdded := true })
    else (result, { s with m_tileCache := some r.2.2 })

/-- `OgreDetourTileCache::getObstacleByRef(ref)`: the obstacle pointer returned (`none`
inside is the null pointer); the outer `none` is the dereference of a null
`m_tileCache`. -/
def getObstacleByRef (s : OgreDetourTileCache) (ref : Nat) : Option (Option dtTileCacheObstacle) :=
  match s.m_tileCache with
  | none => none
  | some tc => some (tc.getObstacleByRef ref)

/-- `OgreDetourTileCache::RemoveObstacle(obstacleRef)`: the returned bool and the state
after the call; `none` is the dereference of a null `m_tileCache`. -/
def RemoveObstacle (env : Collab) (s : OgreDetourTileCache) (obstacleRef : Nat) :
    Option (Bool × OgreDetourTileCache) :=
  match s.m_tileCache with
  | none => none
  | some tc =>
    let r := tc.removeObstacle env obstacleRef
    if r.1 then some (true, { s with m_tileCache := some r.2 })
    else some (false, { s with m_tileCache := some r.2 })

/-- The calls `NavMeshDebugInstance->RedrawTile(tx, ty)` made by the redraw loops of
`handleUpdate`: for every obstacle slot, in order, the coordinates of each touched tile
that `getTileByRef` finds. -/
def redrawCalls (tc : dtTileCache) : List (Int × Int) :=
  tc.m_obstacles.flatMap fun obstacle =>
    obstacle.touched.filterMap fun ref =>
      match tc.getTileByRef ref with
      | none => none
      | some tile => tile.header.map fun h => (h.tx, h.ty)

/-- What a call of `handleUpdate` does: the state after it, the values reported by the
calls of `dtTileCache::update` it made (one entry per call, in order) and the calls of
`RedrawTile` it made. -/
structure HandleUpdateRun where
  state : OgreDetourTileCache
  updates : List Bool
  redraws : List (Int × Int)
deriving DecidableEq

/-- `OgreDetourTileCache::handleUpdate(dt, until_up_to_date)`. -/
def handleUpdate (env : Collab) (s : OgreDetourTileCache) (dt : ℚ) (until_up_to_date : Bool) :
    HandleUpdateRun :=
  match s.m_recast.m_navMesh with
  | none => { state := s, updates := [], redraws := [] }
  | some navMesh =>
    match s.m_tileCache with
    | none => { state := s, updates := [], redraws := [] }
    | some tc =>
      let r : dtTileCache × dtNavMesh × List Bool :=
        if !until_up_to_date then
          ((tc.update env dt navMesh).1, (tc.update env dt navMesh).2.1,
            [(tc.update env dt navMesh).2.2])
        else updateUntilUpToDate env dt tc navMesh
      let s1 : OgreDetourTileCache :=
        { s with m_tileCache := some r.1, m_recast := { s.m_recast with m_navMesh := some r.2.1 } }
      if s1.TempObstacleAdded && s1.NavMeshDebugInstance.isSome then
        { state := { s1 with TempObstacleAdded := false }, updates := r.2.2,
          redraws := redrawCalls r.1 }
      else { state := s1, updates := r.2.2, redraws := [] }

/-- The cache and the nav mesh after `n` successive calls of `dtTileCache::update`. -/
def updateTimes (env : Collab) (dt : ℚ) : Nat → dtTileCache × dtNavMesh → dtTileCache × dtNavMesh
  | 0, p => p
  | n + 1, p => updateTimes env dt n ((p.1.update env dt p.2).1, (p.1.update env dt p.2).2.1)

/-- A sample tile cache with room for two obstacles. -/
def obstacleCache : dtTileCache :=
  { params := some { dtTileCacheParams.zero with maxTiles := 3, maxObstacles := 2 }
    tiles := [storedTile okCollab [1, 2, 3] 3 65537, dtCompressedTile.free,
      storedTile okCollab [9, 8] 2 65538] }

/-- Sample answers in which every shape touches the tiles with references 65537 and
65538. -/
def touchCollab : Collab :=
  { okCollab with queryTiles := fun _ _ => [65537, 65538] }

/-- A sample wrapper state holding `obstacleCache` and a nav mesh. -/
def obstacleState : OgreDetourTileCache :=
  { construct okCollab (recastWithMesh 1) 8 48 with m_tileCache := some obstacleCache }

/-- The sample state after one accepted `AddObstacle`: a request is queued and the flag
is set. -/
def queuedState : OgreDetourTileCache :=
  (AddObstacle touchCollab obstacleState ⟨0, 0, 0⟩ ⟨1, 1, 1⟩ 5 1).2

/-- The sample state after the obstacle of `queuedState` has been settled by
`handleUpdate(0, true)` and a debugger has been attached afterwards. -/
def redrawPending : OgreDetourTileCache :=
  SetDebugger (handleUpdate touchCollab queuedState 0 true).state (some 1)

/-- A file that passes the format checks, announces no tile and stores a recast
configuration whose tile size is 50. -/
def oddTileSizeFile : TileCacheFile :=
  { header :=
      { magic := 1414743380, version := 1, numTiles := 0,
        meshParams := dtNavMesh.fresh.getParams,
        cacheParams := { dtTileCacheParams.zero with maxTiles := 3 },
        recastConfig := { rcConfig.zero with cs := 1, tileSize := 50 } },
    body := [] }

/-- The sample world: usable geometry with the bounds (0,0,0)-(100,0,100). -/
def sampleWorld : InputGeom := sampleGeom ⟨0, 0, 0⟩ ⟨100, 0, 100⟩

/-- A newly constructed object with tile size 48 on a recast module with cell size 0.3. -/
def sampleConstructed : OgreDetourTileCache := construct okCollab (sampleRecast (3 / 10)) 8 48

/-- The sample object after `configure` on the sample world. -/
def sampleConfigured : OgreDetourTileCache :=
  (configure okCollab (some sampleWorld) sampleConstructed).2

/-- The grid size and the identifier limits as a function of the world bounds, the cell
size and the tile size alone: tile counts along x and z, `maxTiles` and
`maxPolysPerTile`. -/
def gridValues (bmin bmax : Vec3) (cs : ℚ) (ts : Int) : Int × Int × Int × Int :=
  let tw := tileCount (rcCalcGridSize bmin bmax cs).1 ts
  let th := tileCount (rcCalcGridSize bmin bmax cs).2 ts
  (tw, th, shl1 (tileBitsOf tw th), shl1 (polyBitsOf tw th))

/-- A file without tiles whose recast configuration holds the bounds of the sample
world, cell size 0.3 and tile size 48. -/
def gridFile : TileCacheFile :=
  { header :=
      { magic := 1414743380, version := 1, numTiles := 0,
        meshParams := dtNavMesh.fresh.getParams,
        cacheParams := { dtTileCacheParams.zero with maxTiles := 49 },
        recastConfig :=
          { rcConfig.zero with
            cs := 3 / 10, tileSize := 48, bmin := ⟨0, 0, 0⟩, bmax := ⟨100, 0, 100⟩ } },
    body := [] }

/-! ## Tile selection (source/OgreDetourTileCache.cpp, lines 1212-1287) -/

/-- An `OgreRecast` module whose walkable radius is 16777218 cells, with cell size 1 and
no nav mesh. -/
def wideRadiusRecast : OgreRecast :=
  { m_cfg := { rcConfig.zero with cs := 1, ch := 1, walkableRadius := 16777218 },
    m_navMesh := none, m_navQuery := none, m_ctx := some 1 }

/-- The rectangle of a tile in the words of the specification, for the rounding `fl`
applied to each arithmetic result (`f32` for the `float` operations of the machine, `id`
for exact arithmetic): `x` from `bmin.x + tx*T - b*cs` to `bmin.x + (tx+1)*T + b*cs` and
`z` from `bmin.z + ty*T - b*cs` to `bmin.z + (ty+1)*T + b*cs`, where `T = tileSize *
cellSize` and `b = borderSize`, with the vertical range `[bmin.y, bmax.y]` of the world.
The result is the minimum and the maximum corner. -/
def tileRect (fl : ℚ → ℚ) (bmin bmax : Vec3) (tileSize borderSize : Int) (cellSize : ℚ)
    (tx ty : Int) : Vec3 × Vec3 :=
  let T := fl (fl (tileSize : ℚ) * cellSize)
  let pad := fl (fl (borderSize : ℚ) * cellSize)
  (⟨fl (fl (bmin.x + fl (fl (tx : ℚ) * T)) - pad), bmin.y,
      fl (fl (bmin.z + fl (fl (ty : ℚ) * T)) - pad)⟩,
    ⟨fl (fl (bmin.x + fl (fl ((tx + 1 : Int) : ℚ) * T)) + pad), bmax.y,
      fl (fl (bmin.z + fl (fl ((ty + 1 : Int) : ℚ) * T)) + pad)⟩)

/-- The `float` results on the way to the rectangle of a tile: the tile width, the
padding, and for each of the four edges the product, the sum and the edge. -/
def tileRectSteps (bmin : Vec3) (tileSize borderSize : Int) (cellSize : ℚ) (tx ty : Int) :
    List ℚ :=
  let T := f32 (f32 (tileSize : ℚ) * cellSize)
  let pad := f32 (f32 (borderSize : ℚ) * cellSize)
  [T, pad,
    f32 (f32 (tx : ℚ) * T), f32 (bmin.x + f32 (f32 (tx : ℚ) * T)),
    f32 (f32 (bmin.x + f32 (f32 (tx : ℚ) * T)) - pad),
    f32 (f32 (ty : ℚ) * T), f32 (bmin.z + f32 (f32 (ty : ℚ) * T)),
    f32 (f32 (bmin.z + f32 (f32 (ty : ℚ) * T)) - pad),
    f32 (f32 ((tx + 1 : Int) : ℚ) * T), f32 (bmin.x + f32 (f32 ((tx + 1 : Int) : ℚ) * T)),
    f32 (f32 (bmin.x + f32 (f32 ((tx + 1 : Int) : ℚ) * T)) + pad),
    f32 (f32 ((ty + 1 : Int) : ℚ) * T), f32 (bmin.z + f32 (f32 ((ty + 1 : Int) : ℚ) * T)),
    f32 (f32 (bmin.z + f32 (f32 ((ty + 1 : Int) : ℚ) * T)) + pad)]

/-- A world of two tiles along each axis and height 2: bounds (0,0,0)-(96,2,96). -/
def rectWorld : InputGeom := sampleGeom ⟨0, 0, 0⟩ ⟨96, 2, 96⟩

/-- Sample answers of Recast that know one rectangle only, `x` and `z` from 43 to 101
with the vertical range from 0 to 2: the heightfield is created for these bounds alone and
a chunk overlaps this rectangle alone; the layers are those of `layerCollab`. -/
def rectCollab : Collab :=
  { layerCollab with
    rcCreateHeightfield := fun c =>
      decide (c.bmin = ⟨43, 0, 43⟩ ∧ c.bmax = ⟨101, 2, 101⟩ ∧ c.width = 58 ∧ c.height = 58)
    rcGetChunksOverlappingRect := fun _ lo hi =>
      if lo = (43, 43) ∧ hi = (101, 101) then 1 else 0 }

/-- The object after `configure` on `rectWorld` with cell size 1, walkable radius 2 and
tile size 48. -/
def rectConfigured : OgreDetourTileCache :=
  (configure rectCollab (some rectWorld) (construct rectCollab (sampleRecast 1) 8 48)).2

/-- The statuses of the calls `m_tileCache->addTile(...)` that the loop of `loadAll`
makes, in order, with `n` rounds to go; the loop itself discards them. A round that
leaves the loop makes no call. -/
def loadAdds (env : Collab) : Nat → List Byte → dtTileCache → List Bool
  | 0, _, _ => []
  | n + 1, file, tc =>
    match readTileHeader file with
    | none => []
    | some (tileHeader, file) =>
      if tileHeader.tileRef = 0 ∨ tileHeader.dataSize = 0 then [] else
      if !env.dtAlloc tileHeader.dataSize then [] else
      let (data, file) := readData tileHeader.dataSize.toNat file
      let (status, _, tc) := tc.addTile env data tileHeader.dataSize
      status :: loadAdds env n file tc

/-- Sample answers under which the tile cache rejects a block it already holds, and block
allocations of more than 1000 bytes fail; everything else is as in `okCollab`. -/
def dedupCollab : Collab :=
  { okCollab with
    dtAlloc := fun n => decide (n ≤ 1000)
    addTile := fun c data _ =>
      if c.tiles.any (fun t => t.header.isSome && decide (t.data = data)) then none else some 1 }

/-! ## Theorems -/

/-- Truncating division of a non-negative dividend is floor division. -/
theorem tdiv_of_nonneg {a b : Int} (ha : 0 ≤ a) (hb : 0 ≤ b) : a.tdiv b = a / b :=
  Int.tdiv_eq_ediv ha hb

/-- Truncating division of a non-positive dividend rounds toward zero. -/
theorem tdiv_of_nonpos {a b : Int} (ha : a ≤ 0) (hb : 0 ≤ b) : a.tdiv b = -((-a) / b) := by
  have h : a.tdiv b = -((-a).tdiv b) := by rw [Int.neg_tdiv, Int.neg_neg]
  rw [h, Int.tdiv_eq_ediv (by omega) hb]

/-! ### Rounding to `float` -/

/-- An integer is its own rounding. -/
theorem roundHalfEven_intCast (n : Int) : roundHalfEven (n : ℚ) = n := by
  unfold roundHalfEven
  simp

/-- Powers of two are positive. -/
theorem two_zpow_pos (e : Int) : (0 : ℚ) < 2 ^ e := zpow_pos (by norm_num) e

/-- Zero is a `float`. -/
theorem f32_zero : f32 0 = 0 := by
  unfold f32
  simp [roundHalfEven]

/-- A rational that is an integer multiple of `2 ^ j`, with `j` at least -149 and the
multiple below `2 ^ 24` in magnitude, is a `float`. -/
theorem f32_exact (m j : Int) (hm : |m| < 2 ^ 24) (hj : -149 ≤ j) :
    f32 ((m : ℚ) * 2 ^ j) = (m : ℚ) * 2 ^ j := by
  by_cases hm0 : m = 0
  · subst hm0
    simp [f32_zero]
  have hpos : (0 : ℚ) < |(m : ℚ) * 2 ^ j| := by
    rw [abs_pos]
    exact mul_ne_zero (by exact_mod_cast hm0) (two_zpow_pos j).ne'
  have hlt : |(m : ℚ) * 2 ^ j| < (2 : ℚ) ^ (24 + j) := by
    rw [abs_mul, abs_of_pos (two_zpow_pos j), zpow_add₀ (by norm_num : (2 : ℚ) ≠ 0)]
    have : |(m : ℚ)| < (2 : ℚ) ^ (24 : Int) := by
      have h : ((|m| : Int) : ℚ) < ((2 ^ 24 : Int) : ℚ) := by exact_mod_cast hm
      rw [Int.cast_abs] at h
      convert h using 1
      norm_num
    exact mul_lt_mul_of_pos_right this (two_zpow_pos j)
  have hlog : Int.log 2 |(m : ℚ) * 2 ^ j| < 24 + j := by
    have := (Int.lt_zpow_iff_log_lt (b := 2) (by norm_num) hpos).mp (by exact_mod_cast hlt)
    exact this
  have he : ulpExp ((m : ℚ) * 2 ^ j) ≤ j := by
    unfold ulpExp
    omega
  obtain ⟨d, hd⟩ : ∃ d : Nat, j = ulpExp ((m : ℚ) * 2 ^ j) + d :=
    ⟨(j - ulpExp ((m : ℚ) * 2 ^ j)).toNat, by omega⟩
  unfold f32
  generalize ulpExp ((m : ℚ) * 2 ^ j) = e at hd
  subst hd
  have hq : (m : ℚ) * 2 ^ (e + (d : Int)) / 2 ^ e = ((m * 2 ^ d : Int) : ℚ) := by
    rw [zpow_add₀ (by norm_num : (2 : ℚ) ≠ 0)]
    field_simp
    ring
  rw [hq, roundHalfEven_intCast, zpow_add₀ (by norm_num : (2 : ℚ) ≠ 0), zpow_natCast]
  push_cast
  ring

/-- An integer of magnitude at most `2 ^ 24` is a `float`. -/
theorem f32_intCast (n : Int) (h : |n| ≤ 2 ^ 24) : f32 (n : ℚ) = n := by
  rcases h.lt_or_eq with hlt | heq
  · have := f32_exact n 0 hlt (by decide)
    simpa using this
  · have h2 : n = 2 ^ 24 ∨ n = - 2 ^ 24 := by
      rcases abs_cases n with ⟨h1, _⟩ | ⟨h1, _⟩ <;> omega
    rcases h2 with rfl | rfl
    · have := f32_exact (2 ^ 23) 1 (by decide) (by decide)
      norm_num at this ⊢
      exact this
    · have := f32_exact (-2 ^ 23) 1 (by decide) (by decide)
      norm_num at this ⊢
      exact this


/-- The exponent of the unit in the last place from a bracket of `|q|` by powers of 2. -/
theorem ulpExp_eq (q : ℚ) (k : Int) (hk : -126 ≤ k) (hlo : (2 : ℚ) ^ k ≤ |q|)
    (hhi : |q| < (2 : ℚ) ^ (k + 1)) : ulpExp q = k - 23 := by
  have hpos : (0 : ℚ) < |q| := lt_of_lt_of_le (two_zpow_pos k) hlo
  have h1 : k ≤ Int.log 2 |q| :=
    (Int.zpow_le_iff_le_log (b := 2) (by norm_num) hpos).mp (by exact_mod_cast hlo)
  have h2 : Int.log 2 |q| < k + 1 :=
    (Int.lt_zpow_iff_log_lt (b := 2) (by norm_num) hpos).mp (by exact_mod_cast hhi)
  unfold ulpExp
  omega

/-- The `float` nearest to `q` from a bracket of `|q|` by powers of 2. -/
theorem f32_eq (q : ℚ) (k : Int) (hk : -126 ≤ k) (hlo : (2 : ℚ) ^ k ≤ |q|)
    (hhi : |q| < (2 : ℚ) ^ (k + 1)) :
    f32 q = (roundHalfEven (q / 2 ^ (k - 23)) : ℚ) * 2 ^ (k - 23) := by
  unfold f32
  rw [ulpExp_eq q k hk hlo hhi]

/-- The `float` nearest to a positive `q` from a bracket of `q` by powers of 2. -/
theorem f32_eq_pos (q : ℚ) (k : Int) (hk : -126 ≤ k) (hlo : (2 : ℚ) ^ k ≤ q)
    (hhi : q < (2 : ℚ) ^ (k + 1)) :
    f32 q = (roundHalfEven (q / 2 ^ (k - 23)) : ℚ) * 2 ^ (k - 23) := by
  have hpos : 0 < q := lt_of_lt_of_le (two_zpow_pos k) hlo
  exact f32_eq q k hk (by rwa [abs_of_pos hpos]) (by rwa [abs_of_pos hpos])

/-! ### The constructor's tile size -/

/-- The member initialiser and the sanity check of the constructor, for a 32-bit `int`
argument: the snapped size `tileSize - (tileSize % 8)` (no wrap-around occurs) when it
lies in [16,128], and 48 otherwise. -/
theorem ctorTileSize_eq (tileSize : Int) (hlo : INT_MIN ≤ tileSize) (hhi : tileSize ≤ INT_MAX) :
    ctorTileSize tileSize =
      (if 16 ≤ tileSize - Int.tmod tileSize 8 ∧ tileSize - Int.tmod tileSize 8 ≤ 128
        then tileSize - Int.tmod tileSize 8 else 48) := by
  have hsnap : snapTileSize tileSize = tileSize - Int.tmod tileSize 8 := by
    unfold snapTileSize wrap32
    unfold INT_MIN at hlo
    unfold INT_MAX at hhi
    rw [Int.tmod_def]
    rcases Int.le_total 0 tileSize with h0 | h0
    · rw [tdiv_of_nonneg h0 (by decide)]
      omega
    · rw [tdiv_of_nonpos h0 (by decide)]
      omega
  unfold ctorTileSize
  simp only [hsnap]
  by_cases h : 16 ≤ tileSize - Int.tmod tileSize 8 ∧ tileSize - Int.tmod tileSize 8 ≤ 128
  · rw [if_pos h, if_neg (by omega)]
  · rw [if_neg h, if_pos (by omega)]

/-- C1: for every 32-bit `int` tileSize passed to the `OgreDetourTileCache` constructor,
the tile size stored in the constructed object is `s = tileSize - (tileSize % 8)`
(truncating remainder) when `16 ≤ s ≤ 128`, and 48 otherwise. -/
theorem construct_tileSize (env : Collab) (recast : OgreRecast) (max_num_obstacles : Nat)
    (tileSize : Int) (hlo : INT_MIN ≤ tileSize) (hhi : tileSize ≤ INT_MAX) :
    (construct env recast max_num_obstacles tileSize).m_tileSize =
      (if 16 ≤ tileSize - Int.tmod tileSize 8 ∧ tileSize - Int.tmod tileSize 8 ≤ 128
        then tileSize - Int.tmod tileSize 8 else 48) :=
  ctorTileSize_eq tileSize hlo hhi

/-- Witness for C1: the constructor stores 48 for the argument 50 (snapped to 48), 48
for the argument 200 (snapped to 200, out of range) and 128 for the argument 135. -/
theorem construct_tileSize_witness :
    (construct okCollab (sampleRecast 1) 8 50).m_tileSize = 48 ∧
    (construct okCollab (sampleRecast 1) 8 200).m_tileSize = 48 ∧
    (construct okCollab (sampleRecast 1) 8 135).m_tileSize = 128 :=
  ⟨(construct_tileSize okCollab (sampleRecast 1) 8 50 (by decide) (by decide)).trans
      (by decide),
    (construct_tileSize okCollab (sampleRecast 1) 8 200 (by decide) (by decide)).trans
      (by decide),
    (construct_tileSize okCollab (sampleRecast 1) 8 135 (by decide) (by decide)).trans
      (by decide)⟩


/-! ### Powers of two -/

/-- One smearing step doubles the window of bits of `v` gathered into each bit of `w`. -/
theorem smear_step (v w k : Nat)
    (h : ∀ i, w.testBit i = true ↔ ∃ d, d < k ∧ v.testBit (i + d) = true) (i : Nat) :
    (w ||| (w >>> k)).testBit i = true ↔ ∃ d, d < 2 * k ∧ v.testBit (i + d) = true := by
  rw [Nat.testBit_or, Nat.testBit_shiftRight, Bool.or_eq_true, h i, h (k + i)]
  constructor
  · rintro (⟨d, hd, hb⟩ | ⟨d, hd, hb⟩)
    · exact ⟨d, by omega, hb⟩
    · refine ⟨k + d, by omega, ?_⟩
      have e : i + (k + d) = k + i + d := by omega
      rw [e]
      exact hb
  · rintro ⟨d, hd, hb⟩
    by_cases hk : d < k
    · exact Or.inl ⟨d, hk, hb⟩
    · refine Or.inr ⟨d - k, by omega, ?_⟩
      have e : k + i + (d - k) = i + d := by omega
      rw [e]
      exact hb

/-- The five smearing steps of `dtNextPow2` set every bit below the highest set bit. -/
theorem smear_eq (v : Nat) (hv : v < 4294967296) :
    (let v := v ||| (v >>> 1)
     let v := v ||| (v >>> 2)
     let v := v ||| (v >>> 4)
     let v := v ||| (v >>> 8)
     v ||| (v >>> 16)) = 2 ^ v.size - 1 := by
  have h0 : ∀ i, v.testBit i = true ↔ ∃ d, d < 1 ∧ v.testBit (i + d) = true := by
    intro i
    constructor
    · intro h
      exact ⟨0, by omega, by simpa using h⟩
    · rintro ⟨d, hd, hb⟩
      have e : d = 0 := by omega
      subst e
      simpa using hb
  have h1 := smear_step v _ 1 h0
  have h2 := smear_step v _ 2 h1
  have h4 := smear_step v _ 4 h2
  have h8 := smear_step v _ 8 h4
  have h16 := smear_step v _ 16 h8
  have hsz : v.size ≤ 32 := Nat.size_le.mpr (by simpa using hv)
  apply Nat.eq_of_testBit_eq
  intro i
  rw [Nat.testBit_two_pow_sub_one]
  by_cases hi : i < v.size
  · rw [decide_eq_true hi]
    apply (h16 i).mpr
    have hpow : 2 ^ (v.size - 1) ≤ v := Nat.lt_size.mp (by omega)
    obtain ⟨j, hj, hb⟩ := Nat.ge_two_pow_implies_high_bit_true hpow
    have hj2 : j < v.size := Nat.lt_size.mpr (Nat.testBit_implies_ge hb)
    refine ⟨j - i, by omega, ?_⟩
    have e : i + (j - i) = j := by omega
    rw [e]
    exact hb
  · rw [decide_eq_false hi]
    rw [Bool.eq_false_iff]
    intro hb
    obtain ⟨d, _, hd⟩ := (h16 i).mp hb
    have := Nat.lt_size.mpr (Nat.testBit_implies_ge hd)
    omega

/-- The value of `dtNextPow2` in terms of the bit length of its decremented argument. -/
theorem dtNextPow2_eq (u : Nat) :
    dtNextPow2 u = 2 ^ ((u + 4294967295) % 4294967296).size % 4294967296 := by
  have hv : (u + 4294967295) % 4294967296 < 4294967296 := Nat.mod_lt _ (by decide)
  have h := smear_eq _ hv
  unfold dtNextPow2
  simp only at h ⊢
  rw [h]
  have hpos : 0 < 2 ^ ((u + 4294967295) % 4294967296).size := Nat.pow_pos (by decide)
  congr 1
  omega

/-- On a power of two `dtIlog2` returns the exponent. -/
theorem dtIlog2_two_pow (k : Nat) (hk : k ≤ 31) : dtIlog2 (2 ^ k) = k := by
  interval_cases k <;> decide

/-- For `1 ≤ n ≤ 2^31`, `dtNextPow2 n` is the least power of two that is at least `n`. -/
theorem dtNextPow2_spec (n : Nat) (h1 : 1 ≤ n) (h2 : n ≤ 2147483648) :
    ∃ k, k ≤ 31 ∧ dtNextPow2 n = 2 ^ k ∧ n ≤ 2 ^ k ∧ (k = 0 ∨ 2 ^ (k - 1) < n) := by
  have hv : (n + 4294967295) % 4294967296 = n - 1 := by omega
  have hsz : (n - 1).size ≤ 31 := Nat.size_le.mpr (by norm_num; omega)
  refine ⟨(n - 1).size, hsz, ?_, ?_, ?_⟩
  · rw [dtNextPow2_eq, hv]
    apply Nat.mod_eq_of_lt
    calc 2 ^ (n - 1).size ≤ 2 ^ 31 := Nat.pow_le_pow_right (by decide) hsz
      _ < 4294967296 := by norm_num
  · have := Nat.lt_size_self (n - 1)
    omega
  · by_cases h0 : (n - 1).size = 0
    · exact Or.inl h0
    · right
      have : 2 ^ ((n - 1).size - 1) ≤ n - 1 := Nat.lt_size.mp (by omega)
      omega

/-- The tile bit count before the cap is at most 31 for every `unsigned int` argument. -/
theorem dtIlog2_dtNextPow2_le (u : Nat) : dtIlog2 (dtNextPow2 u) ≤ 31 := by
  rw [dtNextPow2_eq]
  have hv : (u + 4294967295) % 4294967296 < 4294967296 := Nat.mod_lt _ (by decide)
  have hsz : ((u + 4294967295) % 4294967296).size ≤ 32 := Nat.size_le.mpr (by simpa using hv)
  generalize ((u + 4294967295) % 4294967296).size = k at hsz
  interval_cases k <;> decide

/-! ### Frame of `initTileCache` and the shape of `configure` -/

/-- The members `initTileCache` never assigns keep their values. -/
theorem initTileCache_frame (env : Collab) (s : OgreDetourTileCache) :
    (initTileCache env s).2.m_tw = s.m_tw ∧ (initTileCache env s).2.m_th = s.m_th ∧
    (initTileCache env s).2.m_maxTiles = s.m_maxTiles ∧
    (initTileCache env s).2.m_maxPolysPerTile = s.m_maxPolysPerTile ∧
    (initTileCache env s).2.m_tcparams = s.m_tcparams ∧
    (initTileCache env s).2.m_cfg = s.m_cfg ∧
    (initTileCache env s).2.m_tileSize = s.m_tileSize ∧
    (initTileCache env s).2.m_geom = s.m_geom ∧
    (initTileCache env s).2.m_ctx = s.m_ctx ∧
    (initTileCache env s).2.m_recast.m_cfg = s.m_recast.m_cfg := by
  unfold initTileCache
  dsimp only
  repeat' split
  all_goals simp

/-- With usable geometry `configure` is `initTileCache` on the configured state. -/
theorem configure_usable (env : Collab) (g : InputGeom) (s : OgreDetourTileCache)
    (h1 : g.isEmpty = false) (h2 : g.chunkyMesh = true) :
    configure env (some g) s =
      initTileCache env (configureGrid g { s with m_geom := some g, m_ctx := s.m_recast.m_ctx }) := by
  simp [configure, h1, h2]

/-- The tile bit count lies between 0 and 14. -/
theorem tileBitsOf_range (tw th : Int) : 0 ≤ tileBitsOf tw th ∧ tileBitsOf tw th ≤ 14 := by
  have h := dtIlog2_dtNextPow2_le (toU32 (tileTotal tw th))
  unfold tileBitsOf rcMin ofU32 wrap32
  simp only
  split_ifs <;> omega

/-- The shift `1 << n` is `2^n` for `0 ≤ n ≤ 30`. -/
theorem shl1_eq (n : Int) (h0 : 0 ≤ n) (h1 : n ≤ 30) : shl1 n = 2 ^ n.toNat := by
  unfold shl1 wrap32
  have hle : (2 : Int) ^ n.toNat ≤ 2 ^ 30 := pow_le_pow_right₀ (by norm_num) (by omega)
  have hpos : (0 : Int) < 2 ^ n.toNat := by positivity
  omega

/-- The grid members of the state `configure` leaves behind for usable geometry, in
terms of the grid size `rcCalcGridSize` computes from the mesh bounds. -/
theorem configure_grid (env : Collab) (g : InputGeom) (s : OgreDetourTileCache)
    (h1 : g.isEmpty = false) (h2 : g.chunkyMesh = true) :
    (configure env (some g) s).2.m_tw
        = tileCount (rcCalcGridSize g.bmin g.bmax s.m_recast.m_cfg.cs).1 s.m_tileSize ∧
    (configure env (some g) s).2.m_th
        = tileCount (rcCalcGridSize g.bmin g.bmax s.m_recast.m_cfg.cs).2 s.m_tileSize ∧
    (configure env (some g) s).2.m_maxTiles
        = shl1 (tileBitsOf (configure env (some g) s).2.m_tw (configure env (some g) s).2.m_th) ∧
    (configure env (some g) s).2.m_maxPolysPerTile
        = shl1 (polyBitsOf (configure env (some g) s).2.m_tw (configure env (some g) s).2.m_th) ∧
    (configure env (some g) s).2.m_tcparams.maxTiles
        = tileTotal (configure env (some g) s).2.m_tw (configure env (some g) s).2.m_th := by
  rw [configure_usable env g s h1 h2]
  obtain ⟨e1, e2, e3, e4, e5, -⟩ := initTileCache_frame env
    (configureGrid g { s with m_geom := some g, m_ctx := s.m_recast.m_ctx })
  rw [e1, e2, e3, e4, e5]
  exact ⟨rfl, rfl, rfl, rfl, rfl⟩

/-- C2: for every tile grid computed by `configure` (usable geometry), the tile-index
bit count `t` and the polygon-index bit count `p` satisfy `t + p = 22` and
`0 ≤ t ≤ 14`, with `m_maxTiles = 2^t` and `m_maxPolysPerTile = 2^p`, so that their
product is `2^22` and both are positive. -/
theorem configure_bit_split (env : Collab) (g : InputGeom) (s : OgreDetourTileCache)
    (h1 : g.isEmpty = false) (h2 : g.chunkyMesh = true) :
    tileBitsOf (configure env (some g) s).2.m_tw (configure env (some g) s).2.m_th
        + polyBitsOf (configure env (some g) s).2.m_tw (configure env (some g) s).2.m_th = 22 ∧
    0 ≤ tileBitsOf (configure env (some g) s).2.m_tw (configure env (some g) s).2.m_th ∧
    tileBitsOf (configure env (some g) s).2.m_tw (configure env (some g) s).2.m_th ≤ 14 ∧
    (configure env (some g) s).2.m_maxTiles
        = 2 ^ (tileBitsOf (configure env (some g) s).2.m_tw (configure env (some g) s).2.m_th).toNat ∧
    (configure env (some g) s).2.m_maxPolysPerTile
        = 2 ^ (polyBitsOf (configure env (some g) s).2.m_tw (configure env (some g) s).2.m_th).toNat ∧
    (configure env (some g) s).2.m_maxTiles * (configure env (some g) s).2.m_maxPolysPerTile = 2 ^ 22 ∧
    0 < (configure env (some g) s).2.m_maxTiles ∧
    0 < (configure env (some g) s).2.m_maxPolysPerTile := by
  obtain ⟨-, -, e3, e4, -⟩ := configure_grid env g s h1 h2
  generalize (configure env (some g) s).2 = s' at e3 e4 ⊢
  obtain ⟨t0, t14⟩ := tileBitsOf_range s'.m_tw s'.m_th
  have hp : polyBitsOf s'.m_tw s'.m_th = 22 - tileBitsOf s'.m_tw s'.m_th := rfl
  have ht : s'.m_maxTiles = 2 ^ (tileBitsOf s'.m_tw s'.m_th).toNat := by
    rw [e3]
    exact shl1_eq _ t0 (by omega)
  have hq : s'.m_maxPolysPerTile = 2 ^ (polyBitsOf s'.m_tw s'.m_th).toNat := by
    rw [e4]
    exact shl1_eq _ (by omega) (by omega)
  refine ⟨by omega, t0, t14, ht, hq, ?_, ?_, ?_⟩
  · have hsum : (tileBitsOf s'.m_tw s'.m_th).toNat + (polyBitsOf s'.m_tw s'.m_th).toNat = 22 := by
      omega
    rw [ht, hq, ← pow_add, hsum]
  · rw [ht]
    positivity
  · rw [hq]
    positivity

/-- Witness for C2: a 100 x 100 world with cell size 0.3 and tile size 48. -/
theorem configure_bit_split_witness :
    (sampleGeom ⟨0, 0, 0⟩ ⟨100, 0, 100⟩).isEmpty = false ∧
    (sampleGeom ⟨0, 0, 0⟩ ⟨100, 0, 100⟩).chunkyMesh = true ∧
    (configure okCollab (some (sampleGeom ⟨0, 0, 0⟩ ⟨100, 0, 100⟩))
        (construct okCollab (sampleRecast (3 / 10)) 8 48)).2.m_maxTiles *
      (configure okCollab (some (sampleGeom ⟨0, 0, 0⟩ ⟨100, 0, 100⟩))
        (construct okCollab (sampleRecast (3 / 10)) 8 48)).2.m_maxPolysPerTile = 2 ^ 22 :=
  ⟨by decide, rfl,
    (configure_bit_split okCollab (sampleGeom ⟨0, 0, 0⟩ ⟨100, 0, 100⟩)
      (construct okCollab (sampleRecast (3 / 10)) 8 48) (by decide) rfl).2.2.2.2.2.1⟩

/-- The tile bit count of a tile total between 1 and 2^14 gives room for the total. -/
theorem tileTotal_le_shl1 (tw th : Int) (h0 : 1 ≤ tw * th * EXPECTED_LAYERS_PER_TILE)
    (h1 : tw * th * EXPECTED_LAYERS_PER_TILE ≤ 16384) :
    tw * th * EXPECTED_LAYERS_PER_TILE ≤ shl1 (tileBitsOf tw th) := by
  have hE : EXPECTED_LAYERS_PER_TILE = 1 := rfl
  rw [hE] at h0 h1 ⊢
  have hT : tileTotal tw th = tw * th := by
    unfold tileTotal wrap32
    rw [hE]
    omega
  have hU : toU32 (tileTotal tw th) = (tw * th).toNat := by
    unfold toU32
    rw [hT]
    congr 1
    omega
  obtain ⟨k, hk, e, hle, hlow⟩ := dtNextPow2_spec (tw * th).toNat (by omega) (by omega)
  have hk14 : k ≤ 14 := by
    rcases hlow with h | h
    · omega
    · by_contra hc
      have h15 : 2 ^ 14 ≤ 2 ^ (k - 1) := Nat.pow_le_pow_right (by decide) (by omega)
      have : (2 : Nat) ^ 14 = 16384 := by norm_num
      omega
  have hbits : tileBitsOf tw th = (k : Int) := by
    unfold tileBitsOf rcMin ofU32 wrap32
    rw [hU, e, dtIlog2_two_pow k hk]
    simp only
    split_ifs <;> omega
  rw [hbits, shl1_eq _ (by omega) (by omega)]
  have : (((tw * th).toNat : Nat) : Int) ≤ ((2 ^ k : Nat) : Int) := by exact_mod_cast hle
  simp only [Int.toNat_ofNat]
  push_cast at this
  omega

/-- C3 (amended): for every tile grid computed by `configure` whose tile total
`tileCountX * tileCountY * EXPECTED_LAYERS_PER_TILE` is at most 2^14 = 16384,
`m_maxTiles = 2^tileIndexBits` is at least that total, and at least the tile cache's
`m_tcparams.maxTiles`. -/
theorem configure_maxTiles_covers (env : Collab) (g : InputGeom) (s : OgreDetourTileCache)
    (h1 : g.isEmpty = false) (h2 : g.chunkyMesh = true)
    (hcap : (configure env (some g) s).2.m_tw * (configure env (some g) s).2.m_th
        * EXPECTED_LAYERS_PER_TILE ≤ 16384) :
    (configure env (some g) s).2.m_tw * (configure env (some g) s).2.m_th
        * EXPECTED_LAYERS_PER_TILE ≤ (configure env (some g) s).2.m_maxTiles ∧
    (INT_MIN ≤ (configure env (some g) s).2.m_tw * (configure env (some g) s).2.m_th
        * EXPECTED_LAYERS_PER_TILE →
      (configure env (some g) s).2.m_tcparams.maxTiles ≤ (configure env (some g) s).2.m_maxTiles) := by
  obtain ⟨-, -, e3, -, e5⟩ := configure_grid env g s h1 h2
  generalize (configure env (some g) s).2 = s' at e3 e5 hcap ⊢
  obtain ⟨t0, t14⟩ := tileBitsOf_range s'.m_tw s'.m_th
  have hpos : 0 < s'.m_maxTiles := by
    rw [e3, shl1_eq _ t0 (by omega)]
    positivity
  have hmain : s'.m_tw * s'.m_th * EXPECTED_LAYERS_PER_TILE ≤ s'.m_maxTiles := by
    by_cases hp : 1 ≤ s'.m_tw * s'.m_th * EXPECTED_LAYERS_PER_TILE
    · rw [e3]
      exact tileTotal_le_shl1 _ _ hp hcap
    · omega
  refine ⟨hmain, fun hmin => ?_⟩
  have hE : EXPECTED_LAYERS_PER_TILE = 1 := rfl
  have hT : tileTotal s'.m_tw s'.m_th = s'.m_tw * s'.m_th * EXPECTED_LAYERS_PER_TILE := by
    unfold tileTotal wrap32
    unfold INT_MIN at hmin
    rw [hE] at hmin hcap ⊢
    omega
  rw [e5, hT]
  exact hmain

/-- Witness for C3 (amended): the 7 x 7 grid of a 100 x 100 world with cell size 0.3 and
tile size 48. -/
theorem configure_maxTiles_covers_witness :
    (sampleGeom ⟨0, 0, 0⟩ ⟨100, 0, 100⟩).isEmpty = false ∧
    (sampleGeom ⟨0, 0, 0⟩ ⟨100, 0, 100⟩).chunkyMesh = true ∧
    (configure okCollab (some (sampleGeom ⟨0, 0, 0⟩ ⟨100, 0, 100⟩))
        (construct okCollab (sampleRecast (3 / 10)) 8 48)).2.m_tw *
      (configure okCollab (some (sampleGeom ⟨0, 0, 0⟩ ⟨100, 0, 100⟩))
        (construct okCollab (sampleRecast (3 / 10)) 8 48)).2.m_th * EXPECTED_LAYERS_PER_TILE
      ≤ (configure okCollab (some (sampleGeom ⟨0, 0, 0⟩ ⟨100, 0, 100⟩))
        (construct okCollab (sampleRecast (3 / 10)) 8 48)).2.m_maxTiles := by
  have hg := configure_grid okCollab (sampleGeom ⟨0, 0, 0⟩ ⟨100, 0, 100⟩)
    (construct okCollab (sampleRecast (3 / 10)) 8 48) (by decide) rfl
  have hw : tileCount (rcCalcGridSize (sampleGeom ⟨0, 0, 0⟩ ⟨100, 0, 100⟩).bmin
      (sampleGeom ⟨0, 0, 0⟩ ⟨100, 0, 100⟩).bmax
      (construct okCollab (sampleRecast (3 / 10)) 8 48).m_recast.m_cfg.cs).1
      (construct okCollab (sampleRecast (3 / 10)) 8 48).m_tileSize = 7 := by
    have e : (rcCalcGridSize (sampleGeom ⟨0, 0, 0⟩ ⟨100, 0, 100⟩).bmin
      (sampleGeom ⟨0, 0, 0⟩ ⟨100, 0, 100⟩).bmax
      (construct okCollab (sampleRecast (3 / 10)) 8 48).m_recast.m_cfg.cs).1 = 333 := by
      norm_num [rcCalcGridSize, truncToInt, sampleGeom, construct, sampleRecast]
    rw [e]
    decide
  have hh : tileCount (rcCalcGridSize (sampleGeom ⟨0, 0, 0⟩ ⟨100, 0, 100⟩).bmin
      (sampleGeom ⟨0, 0, 0⟩ ⟨100, 0, 100⟩).bmax
      (construct okCollab (sampleRecast (3 / 10)) 8 48).m_recast.m_cfg.cs).2
      (construct okCollab (sampleRecast (3 / 10)) 8 48).m_tileSize = 7 := by
    have e : (rcCalcGridSize (sampleGeom ⟨0, 0, 0⟩ ⟨100, 0, 100⟩).bmin
      (sampleGeom ⟨0, 0, 0⟩ ⟨100, 0, 100⟩).bmax
      (construct okCollab (sampleRecast (3 / 10)) 8 48).m_recast.m_cfg.cs).2 = 333 := by
      norm_num [rcCalcGridSize, truncToInt, sampleGeom, construct, sampleRecast]
    rw [e]
    decide
  refine ⟨by decide, rfl, ?_⟩
  refine (configure_maxTiles_covers okCollab (sampleGeom ⟨0, 0, 0⟩ ⟨100, 0, 100⟩)
    (construct okCollab (sampleRecast (3 / 10)) 8 48) (by decide) rfl ?_).1
  rw [hg.1, hg.2.1, hw, hh]
  decide

/-- C3 (counterexample): for a 2064 x 2064 world with cell size 1 and tile size 16,
`configure` computes a 129 x 129 grid; `m_maxTiles` is capped at 2^14 = 16384 although the
tile cache is sized for 16641 tiles. -/
theorem configure_maxTiles_counterexample :
    (configure okCollab (some (sampleGeom ⟨0, 0, 0⟩ ⟨2064, 0, 2064⟩))
        (construct okCollab (sampleRecast 1) 8 16)).2.m_maxTiles = 16384 ∧
    (configure okCollab (some (sampleGeom ⟨0, 0, 0⟩ ⟨2064, 0, 2064⟩))
        (construct okCollab (sampleRecast 1) 8 16)).2.m_tcparams.maxTiles = 16641 ∧
    ¬ ((configure okCollab (some (sampleGeom ⟨0, 0, 0⟩ ⟨2064, 0, 2064⟩))
          (construct okCollab (sampleRecast 1) 8 16)).2.m_tw *
        (configure okCollab (some (sampleGeom ⟨0, 0, 0⟩ ⟨2064, 0, 2064⟩))
          (construct okCollab (sampleRecast 1) 8 16)).2.m_th * EXPECTED_LAYERS_PER_TILE
        ≤ (configure okCollab (some (sampleGeom ⟨0, 0, 0⟩ ⟨2064, 0, 2064⟩))
          (construct okCollab (sampleRecast 1) 8 16)).2.m_maxTiles) := by
  obtain ⟨e1, e2, e3, -, e5⟩ := configure_grid okCollab (sampleGeom ⟨0, 0, 0⟩ ⟨2064, 0, 2064⟩)
    (construct okCollab (sampleRecast 1) 8 16) (by decide) rfl
  have hw : tileCount (rcCalcGridSize (sampleGeom ⟨0, 0, 0⟩ ⟨2064, 0, 2064⟩).bmin
      (sampleGeom ⟨0, 0, 0⟩ ⟨2064, 0, 2064⟩).bmax
      (construct okCollab (sampleRecast 1) 8 16).m_recast.m_cfg.cs).1
      (construct okCollab (sampleRecast 1) 8 16).m_tileSize = 129 := by
    have e : (rcCalcGridSize (sampleGeom ⟨0, 0, 0⟩ ⟨2064, 0, 2064⟩).bmin
      (sampleGeom ⟨0, 0, 0⟩ ⟨2064, 0, 2064⟩).bmax
      (construct okCollab (sampleRecast 1) 8 16).m_recast.m_cfg.cs).1 = 2064 := by
      norm_num [rcCalcGridSize, truncToInt, sampleGeom, construct, sampleRecast]
    rw [e]
    decide
  have hh : tileCount (rcCalcGridSize (sampleGeom ⟨0, 0, 0⟩ ⟨2064, 0, 2064⟩).bmin
      (sampleGeom ⟨0, 0, 0⟩ ⟨2064, 0, 2064⟩).bmax
      (construct okCollab (sampleRecast 1) 8 16).m_recast.m_cfg.cs).2
      (construct okCollab (sampleRecast 1) 8 16).m_tileSize = 129 := by
    have e : (rcCalcGridSize (sampleGeom ⟨0, 0, 0⟩ ⟨2064, 0, 2064⟩).bmin
      (sampleGeom ⟨0, 0, 0⟩ ⟨2064, 0, 2064⟩).bmax
      (construct okCollab (sampleRecast 1) 8 16).m_recast.m_cfg.cs).2 = 2064 := by
      norm_num [rcCalcGridSize, truncToInt, sampleGeom, construct, sampleRecast]
    rw [e]
    decide
  rw [hw] at e1
  rw [hh] at e2
  rw [e1, e2] at e3 e5
  rw [e3, e5, e1, e2]
  decide

/-- The tile count `(gw + ts - 1) / ts` is the ceiling of `gw / ts`: the least count
whose cells cover `gw`, whenever the `int` sum does not overflow. -/
theorem tileCount_spec (gw ts : Int) (hgw : 0 ≤ gw) (hts : 0 < ts) (hmax : gw + ts - 1 ≤ INT_MAX) :
    gw ≤ tileCount gw ts * ts ∧ (∀ m : Int, gw ≤ m * ts → tileCount gw ts ≤ m) ∧
    tileCount gw ts = ⌈(gw : ℚ) / (ts : ℚ)⌉ := by
  have hx : wrap32 (wrap32 (gw + ts) - 1) = gw + ts - 1 := by
    unfold wrap32
    unfold INT_MAX at hmax
    omega
  have hq : tileCount gw ts = (gw + ts - 1) / ts := by
    unfold tileCount
    rw [hx, tdiv_of_nonneg (by omega) (by omega)]
  have hlo : (gw + ts - 1) / ts * ts ≤ gw + ts - 1 := Int.ediv_mul_le _ (by omega)
  have hhi : gw + ts - 1 < ((gw + ts - 1) / ts + 1) * ts := Int.lt_ediv_add_one_mul_self _ hts
  rw [hq]
  generalize (gw + ts - 1) / ts = q at hlo hhi
  have hcover : gw ≤ q * ts := by
    have : (q + 1) * ts = q * ts + ts := by ring
    omega
  refine ⟨hcover, ?_, ?_⟩
  · intro m hm
    by_contra hc
    have h1 : m + 1 ≤ q := by omega
    have h2 : (m + 1) * ts ≤ q * ts := Int.mul_le_mul_of_nonneg_right h1 (by omega)
    have : (m + 1) * ts = m * ts + ts := by ring
    omega
  · symm
    rw [Int.ceil_eq_iff]
    have htsq : (0 : ℚ) < (ts : ℚ) := by exact_mod_cast hts
    constructor
    · rw [lt_div_iff₀ htsq]
      have h3 : (q - 1) * ts < gw := by
        have : (q - 1) * ts = q * ts - ts := by ring
        omega
      exact_mod_cast h3
    · rw [div_le_iff₀ htsq]
      exact_mod_cast hcover

/-- C4: for every voxel grid of `gw` x `gh` cells (`gw, gh ≥ 0`, the `int` sums
`gw + ts - 1` and `gh + ts - 1` representable) and tile size `ts` in [16,128],
`configure` sets `m_tw = ceil(gw/ts)` and `m_th = ceil(gh/ts)`, the least tile counts
whose cells cover the grid; for world bounds (0,0,0)-(100,0,100), cell size 0.3 and tile
size 48 both counts are 7, which is also `ceil(ceil(100/0.3)/48)`. -/
theorem configure_tileCounts :
    (∀ (env : Collab) (g : InputGeom) (s : OgreDetourTileCache),
      g.isEmpty = false → g.chunkyMesh = true →
      0 ≤ (rcCalcGridSize g.bmin g.bmax s.m_recast.m_cfg.cs).1 →
      0 ≤ (rcCalcGridSize g.bmin g.bmax s.m_recast.m_cfg.cs).2 →
      16 ≤ s.m_tileSize → s.m_tileSize ≤ 128 →
      (rcCalcGridSize g.bmin g.bmax s.m_recast.m_cfg.cs).1 + s.m_tileSize - 1 ≤ INT_MAX →
      (rcCalcGridSize g.bmin g.bmax s.m_recast.m_cfg.cs).2 + s.m_tileSize - 1 ≤ INT_MAX →
      ((configure env (some g) s).2.m_tw
          = ⌈((rcCalcGridSize g.bmin g.bmax s.m_recast.m_cfg.cs).1 : ℚ) / (s.m_tileSize : ℚ)⌉ ∧
        (rcCalcGridSize g.bmin g.bmax s.m_recast.m_cfg.cs).1
          ≤ (configure env (some g) s).2.m_tw * s.m_tileSize ∧
        (∀ m : Int, (rcCalcGridSize g.bmin g.bmax s.m_recast.m_cfg.cs).1 ≤ m * s.m_tileSize →
          (configure env (some g) s).2.m_tw ≤ m)) ∧
      ((configure env (some g) s).2.m_th
          = ⌈((rcCalcGridSize g.bmin g.bmax s.m_recast.m_cfg.cs).2 : ℚ) / (s.m_tileSize : ℚ)⌉ ∧
        (rcCalcGridSize g.bmin g.bmax s.m_recast.m_cfg.cs).2
          ≤ (configure env (some g) s).2.m_th * s.m_tileSize ∧
        (∀ m : Int, (rcCalcGridSize g.bmin g.bmax s.m_recast.m_cfg.cs).2 ≤ m * s.m_tileSize →
          (configure env (some g) s).2.m_th ≤ m))) ∧
    ((configure okCollab (some (sampleGeom ⟨0, 0, 0⟩ ⟨100, 0, 100⟩))
        (construct okCollab (sampleRecast (3 / 10)) 8 48)).2.m_tw = 7 ∧
      (configure okCollab (some (sampleGeom ⟨0, 0, 0⟩ ⟨100, 0, 100⟩))
        (construct okCollab (sampleRecast (3 / 10)) 8 48)).2.m_th = 7 ∧
      ⌈((⌈(100 : ℚ) / (3 / 10)⌉ : Int) : ℚ) / 48⌉ = 7) := by
  refine ⟨?_, ?_, ?_, ?_⟩
  · intro env g s h1 h2 hgw hgh hlo hhi hmw hmh
    obtain ⟨e1, e2, -⟩ := configure_grid env g s h1 h2
    rw [e1, e2]
    obtain ⟨a1, a2, a3⟩ := tileCount_spec _ s.m_tileSize hgw (by omega) hmw
    obtain ⟨b1, b2, b3⟩ := tileCount_spec _ s.m_tileSize hgh (by omega) hmh
    exact ⟨⟨a3, a1, a2⟩, ⟨b3, b1, b2⟩⟩
  · rw [(configure_grid okCollab (sampleGeom ⟨0, 0, 0⟩ ⟨100, 0, 100⟩)
      (construct okCollab (sampleRecast (3 / 10)) 8 48) (by decide) rfl).1]
    have e : (rcCalcGridSize (sampleGeom ⟨0, 0, 0⟩ ⟨100, 0, 100⟩).bmin
      (sampleGeom ⟨0, 0, 0⟩ ⟨100, 0, 100⟩).bmax
      (construct okCollab (sampleRecast (3 / 10)) 8 48).m_recast.m_cfg.cs).1 = 333 := by
      norm_num [rcCalcGridSize, truncToInt, sampleGeom, construct, sampleRecast]
    rw [e]
    decide
  · rw [(configure_grid okCollab (sampleGeom ⟨0, 0, 0⟩ ⟨100, 0, 100⟩)
      (construct okCollab (sampleRecast (3 / 10)) 8 48) (by decide) rfl).2.1]
    have e : (rcCalcGridSize (sampleGeom ⟨0, 0, 0⟩ ⟨100, 0, 100⟩).bmin
      (sampleGeom ⟨0, 0, 0⟩ ⟨100, 0, 100⟩).bmax
      (construct okCollab (sampleRecast (3 / 10)) 8 48).m_recast.m_cfg.cs).2 = 333 := by
      norm_num [rcCalcGridSize, truncToInt, sampleGeom, construct, sampleRecast]
    rw [e]
    decide
  · have h : ⌈(100 : ℚ) / (3 / 10)⌉ = 334 := by
      rw [Int.ceil_eq_iff]
      norm_num
    rw [h, Int.ceil_eq_iff]
    norm_num

/-- Witness for C4: the general part at the 100 x 100 world with cell size 0.3 and tile
size 48, whose voxel grid is 333 x 333. -/
theorem configure_tileCounts_witness :
    (configure okCollab (some (sampleGeom ⟨0, 0, 0⟩ ⟨100, 0, 100⟩))
        (construct okCollab (sampleRecast (3 / 10)) 8 48)).2.m_tw
      = ⌈((rcCalcGridSize (sampleGeom ⟨0, 0, 0⟩ ⟨100, 0, 100⟩).bmin
            (sampleGeom ⟨0, 0, 0⟩ ⟨100, 0, 100⟩).bmax
            (construct okCollab (sampleRecast (3 / 10)) 8 48).m_recast.m_cfg.cs).1 : ℚ)
          / ((construct okCollab (sampleRecast (3 / 10)) 8 48).m_tileSize : ℚ)⌉ := by
  have e1 : (rcCalcGridSize (sampleGeom ⟨0, 0, 0⟩ ⟨100, 0, 100⟩).bmin
      (sampleGeom ⟨0, 0, 0⟩ ⟨100, 0, 100⟩).bmax
      (construct okCollab (sampleRecast (3 / 10)) 8 48).m_recast.m_cfg.cs).1 = 333 := by
    norm_num [rcCalcGridSize, truncToInt, sampleGeom, construct, sampleRecast]
  have e2 : (rcCalcGridSize (sampleGeom ⟨0, 0, 0⟩ ⟨100, 0, 100⟩).bmin
      (sampleGeom ⟨0, 0, 0⟩ ⟨100, 0, 100⟩).bmax
      (construct okCollab (sampleRecast (3 / 10)) 8 48).m_recast.m_cfg.cs).2 = 333 := by
    norm_num [rcCalcGridSize, truncToInt, sampleGeom, construct, sampleRecast]
  have ets : (construct okCollab (sampleRecast (3 / 10)) 8 48).m_tileSize = 48 := by decide
  exact (configure_tileCounts.1 okCollab (sampleGeom ⟨0, 0, 0⟩ ⟨100, 0, 100⟩)
    (construct okCollab (sampleRecast (3 / 10)) 8 48) (by decide) rfl
    (by rw [e1]; decide) (by rw [e2]; decide) (by rw [ets]; decide) (by rw [ets]; decide)
    (by rw [e1, ets]; decide) (by rw [e2, ets]; decide)).1.1

/-! ### `configure` on unusable geometry -/

/-- With unusable geometry `configure` returns `false` after storing the geometry pointer
and the build context, and does nothing else. -/
theorem configure_unusable (env : Collab) (inputGeom : Option InputGeom) (s : OgreDetourTileCache)
    (h : unusable inputGeom = true) :
    configure env inputGeom s = (false, { s with m_geom := inputGeom, m_ctx := s.m_recast.m_ctx }) := by
  cases inputGeom with
  | none => rfl
  | some g =>
    cases he : g.isEmpty <;> cases hc : g.chunkyMesh <;> simp [configure, unusable, he, hc] at h ⊢

/-- C6: `configure` returns failure, leaving the tile cache, the nav mesh and the nav
mesh query as they were, whenever the input geometry is missing, is empty (no
vertices/triangles) or has no chunky-triangle mesh; otherwise its result, return value
and state, is exactly the result of `initTileCache` on the configured state. -/
theorem configure_result (env : Collab) (inputGeom : Option InputGeom) (s : OgreDetourTileCache) :
    (unusable inputGeom = true →
      (configure env inputGeom s).1 = false ∧
      (configure env inputGeom s).2.m_tileCache = s.m_tileCache ∧
      (configure env inputGeom s).2.m_recast.m_navMesh = s.m_recast.m_navMesh ∧
      (configure env inputGeom s).2.m_recast.m_navQuery = s.m_recast.m_navQuery) ∧
    (∀ g, inputGeom = some g → g.isEmpty = false → g.chunkyMesh = true →
      configure env inputGeom s =
        initTileCache env
          (configureGrid g { s with m_geom := some g, m_ctx := s.m_recast.m_ctx })) := by
  constructor
  · intro h
    rw [configure_unusable env inputGeom s h]
    exact ⟨rfl, rfl, rfl, rfl⟩
  · intro g hg h1 h2
    subst hg
    simp [configure, h1, h2]

/-- Witness for C6: an empty geometry is rejected, a sample geometry reaches
`initTileCache`. -/
theorem configure_result_witness :
    unusable (some emptyGeom) = true ∧
    (configure okCollab (some emptyGeom) (construct okCollab (sampleRecast 1) 8 48)).1 = false ∧
    configure okCollab (some (sampleGeom ⟨0, 0, 0⟩ ⟨100, 0, 100⟩))
        (construct okCollab (sampleRecast 1) 8 48) =
      initTileCache okCollab
        (configureGrid (sampleGeom ⟨0, 0, 0⟩ ⟨100, 0, 100⟩)
          { construct okCollab (sampleRecast 1) 8 48 with
            m_geom := some (sampleGeom ⟨0, 0, 0⟩ ⟨100, 0, 100⟩),
            m_ctx := (construct okCollab (sampleRecast 1) 8 48).m_recast.m_ctx }) :=
  have hu : unusable (some emptyGeom) = true := by decide
  ⟨hu,
    ((configure_result okCollab (some emptyGeom) (construct okCollab (sampleRecast 1) 8 48)).1 hu).1,
    (configure_result okCollab (some (sampleGeom ⟨0, 0, 0⟩ ⟨100, 0, 100⟩))
      (construct okCollab (sampleRecast 1) 8 48)).2 _ rfl (by decide) rfl⟩

/-- C8 (amended): when `configure` fails because the geometry is unusable, the stored
geometry pointer has become the argument and the build context the recast module's
context; every other member (recast module, recast config, grid dimensions, cache
parameters, tile size, tile cache) is exactly as it was before the call. -/
theorem configure_failure_state (env : Collab) (inputGeom : Option InputGeom)
    (s : OgreDetourTileCache) (h : unusable inputGeom = true) :
    (configure env inputGeom s).1 = false ∧
    (configure env inputGeom s).2 = { s with m_geom := inputGeom, m_ctx := s.m_recast.m_ctx } ∧
    (configure env inputGeom s).2.m_geom = inputGeom ∧
    (configure env inputGeom s).2.m_ctx = s.m_recast.m_ctx ∧
    (configure env inputGeom s).2.m_recast = s.m_recast ∧
    (configure env inputGeom s).2.m_cfg = s.m_cfg ∧
    (configure env inputGeom s).2.m_tw = s.m_tw ∧
    (configure env inputGeom s).2.m_th = s.m_th ∧
    (configure env inputGeom s).2.m_tcparams = s.m_tcparams ∧
    (configure env inputGeom s).2.m_tileCache = s.m_tileCache := by
  rw [configure_unusable env inputGeom s h]
  exact ⟨rfl, rfl, rfl, rfl, rfl, rfl, rfl, rfl, rfl, rfl⟩

/-- Witness for C8 (amended): an empty geometry given to a newly constructed cache. -/
theorem configure_failure_state_witness :
    unusable (some emptyGeom) = true ∧
    (configure okCollab (some emptyGeom) (construct okCollab (sampleRecast 1) 8 48)).2.m_cfg
      = (construct okCollab (sampleRecast 1) 8 48).m_cfg :=
  ⟨by decide,
    (configure_failure_state okCollab (some emptyGeom) (construct okCollab (sampleRecast 1) 8 48)
      (by decide)).2.2.2.2.2.1⟩

/-- C8 (counterexample): a newly constructed cache holds no geometry and no build
context; after `configure` has rejected an empty geometry it holds both. -/
theorem configure_failure_state_counterexample :
    (configure okCollab (some emptyGeom) (construct okCollab (sampleRecast 1) 8 48)).1 = false ∧
    (construct okCollab (sampleRecast 1) 8 48).m_geom = none ∧
    (configure okCollab (some emptyGeom) (construct okCollab (sampleRecast 1) 8 48)).2.m_geom
      = some emptyGeom ∧
    (construct okCollab (sampleRecast 1) 8 48).m_ctx = none ∧
    (configure okCollab (some emptyGeom) (construct okCollab (sampleRecast 1) 8 48)).2.m_ctx
      = some 1 ∧
    (configure okCollab (some emptyGeom) (construct okCollab (sampleRecast 1) 8 48)).2
      ≠ construct okCollab (sampleRecast 1) 8 48 := by
  rw [configure_unusable okCollab (some emptyGeom) _ (by decide)]
  refine ⟨rfl, rfl, rfl, rfl, rfl, ?_⟩
  intro h
  have h2 := congrArg OgreDetourTileCache.m_ctx h
  simp [construct, sampleRecast] at h2

/-! ### `configure` on degenerate bounds -/

/-- With the all-succeeding collaborator `initTileCache` returns `true`. -/
theorem initTileCache_okCollab (s : OgreDetourTileCache) : (initTileCache okCollab s).1 = true := by
  simp [initTileCache, okCollab]

/-- The `int` conversion of a value below 1 is at most 0. -/
theorem truncToInt_nonpos (q : ℚ) (h : q < 1) : truncToInt q ≤ 0 := by
  unfold truncToInt
  split_ifs with h0
  · have : ⌊q⌋ < 1 := Int.floor_lt.mpr (by exact_mod_cast h)
    omega
  · exact Int.ceil_le.mpr (by push_cast; linarith)

/-- A grid size that is not positive gives a tile count that is not positive. -/
theorem tileCount_nonpos (gw ts : Int) (hlo : INT_MIN ≤ gw) (h0 : gw ≤ 0) (h16 : 16 ≤ ts)
    (h128 : ts ≤ 128) : tileCount gw ts ≤ 0 := by
  have hx : wrap32 (wrap32 (gw + ts) - 1) = gw + ts - 1 := by
    unfold wrap32
    unfold INT_MIN at hlo
    omega
  unfold tileCount
  rw [hx]
  rcases Int.le_total 0 (gw + ts - 1) with hp | hn
  · rw [tdiv_of_nonneg hp (by omega), Int.ediv_eq_zero_of_lt hp (by omega)]
  · rw [tdiv_of_nonpos hn (by omega)]
    have : 0 ≤ (-(gw + ts - 1)) / ts := Int.ediv_nonneg (by omega) (by omega)
    omega

/-- A grid without columns or without rows has no tile coordinates. -/
theorem tileCoords_empty (tw th : Int) (h : tw ≤ 0 ∨ th ≤ 0) : tileCoords tw th = [] := by
  unfold tileCoords
  rcases h with h | h
  · have : tw.toNat = 0 := by omega
    simp [this]
  · have : th.toNat = 0 := by omega
    simp [this]

/-- C7 (amended): `configure` does not check the world bounds. For usable geometry
whose bounds are degenerate on a horizontal axis (`bmax ≤ bmin` on x or z, positive
cell size, representable grid size) it derives a tile count that is not positive on that
axis, hence a grid without tiles, and returns exactly the result of `initTileCache`. -/
theorem configure_degenerate (env : Collab) (g : InputGeom) (s : OgreDetourTileCache)
    (h1 : g.isEmpty = false) (h2 : g.chunkyMesh = true) (hcs : 0 < s.m_recast.m_cfg.cs)
    (h16 : 16 ≤ s.m_tileSize) (h128 : s.m_tileSize ≤ 128) :
    configure env (some g) s =
        initTileCache env
          (configureGrid g { s with m_geom := some g, m_ctx := s.m_recast.m_ctx }) ∧
    (g.bmax.x ≤ g.bmin.x → INT_MIN ≤ (rcCalcGridSize g.bmin g.bmax s.m_recast.m_cfg.cs).1 →
      (configure env (some g) s).2.m_tw ≤ 0 ∧
      tileCoords (configure env (some g) s).2.m_tw (configure env (some g) s).2.m_th = []) ∧
    (g.bmax.z ≤ g.bmin.z → INT_MIN ≤ (rcCalcGridSize g.bmin g.bmax s.m_recast.m_cfg.cs).2 →
      (configure env (some g) s).2.m_th ≤ 0 ∧
      tileCoords (configure env (some g) s).2.m_tw (configure env (some g) s).2.m_th = []) := by
  obtain ⟨e1, e2, -⟩ := configure_grid env g s h1 h2
  refine ⟨configure_usable env g s h1 h2, ?_, ?_⟩
  · intro hx hlo
    have hq : (g.bmax.x - g.bmin.x) / s.m_recast.m_cfg.cs + 1 / 2 < 1 := by
      have : (g.bmax.x - g.bmin.x) / s.m_recast.m_cfg.cs ≤ 0 :=
        div_nonpos_of_nonpos_of_nonneg (by linarith) (le_of_lt hcs)
      linarith
    have hw : (configure env (some g) s).2.m_tw ≤ 0 := by
      rw [e1]
      exact tileCount_nonpos _ _ hlo (truncToInt_nonpos _ hq) h16 h128
    exact ⟨hw, tileCoords_empty _ _ (Or.inl hw)⟩
  · intro hz hlo
    have hq : (g.bmax.z - g.bmin.z) / s.m_recast.m_cfg.cs + 1 / 2 < 1 := by
      have : (g.bmax.z - g.bmin.z) / s.m_recast.m_cfg.cs ≤ 0 :=
        div_nonpos_of_nonpos_of_nonneg (by linarith) (le_of_lt hcs)
      linarith
    have hh : (configure env (some g) s).2.m_th ≤ 0 := by
      rw [e2]
      exact tileCount_nonpos _ _ hlo (truncToInt_nonpos _ hq) h16 h128
    exact ⟨hh, tileCoords_empty _ _ (Or.inr hh)⟩

/-- Witness for C7 (amended): a geometry lying in the plane `x = 5`, with cell size 1 and
tile size 48. -/
theorem configure_degenerate_witness :
    (sampleGeom ⟨5, 0, 0⟩ ⟨5, 0, 100⟩).isEmpty = false ∧
    (sampleGeom ⟨5, 0, 0⟩ ⟨5, 0, 100⟩).chunkyMesh = true ∧
    0 < (construct okCollab (sampleRecast 1) 8 48).m_recast.m_cfg.cs ∧
    16 ≤ (construct okCollab (sampleRecast 1) 8 48).m_tileSize ∧
    (construct okCollab (sampleRecast 1) 8 48).m_tileSize ≤ 128 ∧
    (sampleGeom ⟨5, 0, 0⟩ ⟨5, 0, 100⟩).bmax.x ≤ (sampleGeom ⟨5, 0, 0⟩ ⟨5, 0, 100⟩).bmin.x ∧
    (configure okCollab (some (sampleGeom ⟨5, 0, 0⟩ ⟨5, 0, 100⟩))
      (construct okCollab (sampleRecast 1) 8 48)).2.m_tw ≤ 0 := by
  have hcs : 0 < (construct okCollab (sampleRecast 1) 8 48).m_recast.m_cfg.cs := by
    norm_num [construct, sampleRecast]
  have hx : (sampleGeom ⟨5, 0, 0⟩ ⟨5, 0, 100⟩).bmax.x ≤ (sampleGeom ⟨5, 0, 0⟩ ⟨5, 0, 100⟩).bmin.x := by
    norm_num [sampleGeom]
  have hgw : (rcCalcGridSize (sampleGeom ⟨5, 0, 0⟩ ⟨5, 0, 100⟩).bmin
      (sampleGeom ⟨5, 0, 0⟩ ⟨5, 0, 100⟩).bmax
      (construct okCollab (sampleRecast 1) 8 48).m_recast.m_cfg.cs).1 = 0 := by
    norm_num [rcCalcGridSize, truncToInt, sampleGeom, construct, sampleRecast]
  exact ⟨by decide, rfl, hcs, by decide, by decide, hx,
    ((configure_degenerate okCollab (sampleGeom ⟨5, 0, 0⟩ ⟨5, 0, 100⟩)
      (construct okCollab (sampleRecast 1) 8 48) (by decide) rfl hcs (by decide) (by decide)).2.1
      hx (by rw [hgw]; decide)).1⟩

/-- C7 (counterexample): for a geometry lying in the plane `x = 5` (`bmin.x = bmax.x`),
with every collaborator step succeeding, `configure` returns `true` and leaves a grid
of zero tiles in x and a tile cache sized for zero tiles. -/
theorem configure_degenerate_counterexample :
    (sampleGeom ⟨5, 0, 0⟩ ⟨5, 0, 100⟩).bmin.x = (sampleGeom ⟨5, 0, 0⟩ ⟨5, 0, 100⟩).bmax.x ∧
    (configure okCollab (some (sampleGeom ⟨5, 0, 0⟩ ⟨5, 0, 100⟩))
      (construct okCollab (sampleRecast 1) 8 48)).1 = true ∧
    (configure okCollab (some (sampleGeom ⟨5, 0, 0⟩ ⟨5, 0, 100⟩))
      (construct okCollab (sampleRecast 1) 8 48)).2.m_tw = 0 ∧
    (configure okCollab (some (sampleGeom ⟨5, 0, 0⟩ ⟨5, 0, 100⟩))
      (construct okCollab (sampleRecast 1) 8 48)).2.m_tcparams.maxTiles = 0 := by
  obtain ⟨e1, -, -, -, e5⟩ := configure_grid okCollab (sampleGeom ⟨5, 0, 0⟩ ⟨5, 0, 100⟩)
    (construct okCollab (sampleRecast 1) 8 48) (by decide) rfl
  have hgw : (rcCalcGridSize (sampleGeom ⟨5, 0, 0⟩ ⟨5, 0, 100⟩).bmin
      (sampleGeom ⟨5, 0, 0⟩ ⟨5, 0, 100⟩).bmax
      (construct okCollab (sampleRecast 1) 8 48).m_recast.m_cfg.cs).1 = 0 := by
    norm_num [rcCalcGridSize, truncToInt, sampleGeom, construct, sampleRecast]
  have hw : (configure okCollab (some (sampleGeom ⟨5, 0, 0⟩ ⟨5, 0, 100⟩))
      (construct okCollab (sampleRecast 1) 8 48)).2.m_tw = 0 := by
    rw [e1, hgw]
    decide
  refine ⟨rfl, ?_, hw, ?_⟩
  · rw [configure_usable okCollab _ _ (by decide) rfl]
    exact initTileCache_okCollab _
  · rw [e5, hw]
    simp [tileTotal, wrap32]

/-! ### `TileCacheBuild` and the result of `configure` -/

/-- On unusable geometry `rasterizeTileLayers` returns no tiles. -/
theorem rasterizeTileLayers_unusable (env : Collab) (s : OgreDetourTileCache)
    (geom : Option InputGeom) (tx ty maxTiles : Int) (h : unusable geom = true) :
    rasterizeTileLayers env s geom tx ty maxTiles = [] := by
  cases geom with
  | none => rfl
  | some g =>
    cases he : g.isEmpty <;> cases hc : g.chunkyMesh <;>
      simp [rasterizeTileLayers, unusable, he, hc] at h ⊢

/-- With unusable stored geometry the tile loop of `TileCacheBuild` changes nothing. -/
theorem buildAllTiles_unusable (env : Collab) (coords : List (Int × Int)) (s : OgreDetourTileCache)
    (h : unusable s.m_geom = true) : buildAllTiles env coords s = some s := by
  induction coords with
  | nil => rfl
  | cons c rest ih =>
    obtain ⟨x, y⟩ := c
    simp only [buildAllTiles, rasterizeTileLayers_unusable env s s.m_geom x y MAX_LAYERS h,
      addBuiltTiles]
    exact ih

/-- The mesh loop of `TileCacheBuild` completes when there is a tile cache or nothing to
visit, and keeps the nav mesh pointer null or non-null as it was. -/
theorem buildAllMeshes_some (coords : List (Int × Int)) (s : OgreDetourTileCache)
    (h : s.m_tileCache.isSome = true ∨ coords = []) :
    ∃ s', buildAllMeshes coords s = some s' ∧
      s'.m_recast.m_navMesh.isSome = s.m_recast.m_navMesh.isSome := by
  induction coords generalizing s with
  | nil => exact ⟨s, rfl, rfl⟩
  | cons c rest ih =>
    obtain ⟨x, y⟩ := c
    rcases h with h | h
    · obtain ⟨tc, htc⟩ := Option.isSome_iff_exists.mp h
      simp only [buildAllMeshes, htc]
      obtain ⟨s', hs', hn⟩ := ih (recordMeshBuild (MeshBuild.tilesAt x y) s) (Or.inl h)
      refine ⟨s', hs', ?_⟩
      rw [hn]
      simp [recordMeshBuild]
    · simp at h

/-- `TileCacheBuild` never returns `false`. -/
theorem TileCacheBuild_ne_false (env : Collab) (g : InputGeom) (s s' : OgreDetourTileCache) :
    TileCacheBuild env g s ≠ some (false, s') := by
  unfold TileCacheBuild
  simp only
  split
  · simp
  · split
    · simp
    · split <;> simp

/-- On unusable geometry, with a nav mesh present and a tile cache present or an empty
grid, `TileCacheBuild` returns `true` although `configure` returned `false`. -/
theorem TileCacheBuild_unusable (env : Collab) (g : InputGeom) (s : OgreDetourTileCache)
    (hg : unusable (some g) = true) (hnav : s.m_recast.m_navMesh.isSome = true)
    (htc : s.m_tileCache.isSome = true ∨ tileCoords s.m_tw s.m_th = []) :
    (configure env (some g) s).1 = false ∧ ∃ s', TileCacheBuild env g s = some (true, s') := by
  refine ⟨by rw [configure_unusable env (some g) s hg], ?_⟩
  unfold TileCacheBuild
  simp only [configure_unusable env (some g) s hg]
  rw [buildAllTiles_unusable env _ _ hg]
  simp only
  obtain ⟨s', hs', hn⟩ := buildAllMeshes_some (tileCoords s.m_tw s.m_th)
    { s with
      m_geom := some g, m_ctx := s.m_recast.m_ctx, m_cacheLayerCount := 0,
      m_cacheCompressedSize := 0, m_cacheRawSize := 0 } htc
  rw [hs']
  simp only
  obtain ⟨nm, hnm⟩ := Option.isSome_iff_exists.mp (hn.trans hnav)
  rw [hnm]
  exact ⟨_, rfl⟩

/-- C5 (failing input): `TileCacheBuild` with an empty mesh list, on a newly
constructed tile cache whose recast module already holds a nav mesh: `configure` fails
(returns `false`), yet `TileCacheBuild` returns `true`. -/
theorem TileCacheBuild_ignores_configure :
    (configure okCollab (some emptyGeom) (construct okCollab (recastWithMesh 1) 8 48)).1 = false ∧
    ∃ s', TileCacheBuild okCollab emptyGeom (construct okCollab (recastWithMesh 1) 8 48)
      = some (true, s') :=
  TileCacheBuild_unusable okCollab emptyGeom (construct okCollab (recastWithMesh 1) 8 48)
    (by decide) rfl (Or.inr (by decide))

/-! ### Loading: the format check -/

/-- C10: for every stream whose header magic differs from `TILECACHESET_MAGIC` or whose
version differs from `TILECACHESET_VERSION`, `loadAll` returns `false` and leaves the
whole object as it was: tile cache, nav mesh, recast config, grid dimensions and every
other member. -/
theorem loadAll_bad_format (ids : FormatIds) (env : Collab) (fp : TileCacheFile)
    (srcGeom : InputGeom) (s : OgreDetourTileCache)
    (h : fp.header.magic ≠ ids.TILECACHESET_MAGIC ∨ fp.header.version ≠ ids.TILECACHESET_VERSION) :
    loadAll ids env (some fp) srcGeom s = some (false, s) := by
  unfold loadAll
  simp only
  by_cases hm : fp.header.magic ≠ ids.TILECACHESET_MAGIC
  · rw [if_pos hm]
  · rw [if_neg hm]
    rcases h with h | h
    · exact absurd h hm
    · rw [if_pos h]

/-! ### Saving and loading: the tile records -/

/-- Four bytes written least significant first read back as the same `unsigned int`. -/
theorem unle32_le32 (u : Nat) (h : u < 4294967296) :
    unle32 (u % 256) (u / 256 % 256) (u / 65536 % 256) (u / 16777216 % 256) = u := by
  unfold unle32
  omega

/-- An `int` survives the conversion to `unsigned int` and back. -/
theorem ofU32_toU32 (d : Int) (hlo : INT_MIN ≤ d) (hhi : d ≤ INT_MAX) : ofU32 (toU32 d) = d := by
  unfold ofU32 toU32 wrap32
  unfold INT_MIN at hlo
  unfold INT_MAX at hhi
  rw [Int.toNat_of_nonneg (Int.emod_nonneg _ (by decide))]
  omega

/-- A tile header read from the bytes `saveAll` wrote for it is the header written. -/
theorem readTileHeader_write (h : TileCacheTileHeader) (rest : List Byte)
    (href : h.tileRef < 4294967296) (hlo : INT_MIN ≤ h.dataSize) (hhi : h.dataSize ≤ INT_MAX) :
    readTileHeader (writeTileHeader h ++ rest) = some (h, rest) := by
  have hu : toU32 h.dataSize < 4294967296 := by
    unfold toU32
    have := Int.emod_lt_of_pos h.dataSize (show (0 : Int) < 4294967296 by decide)
    have := Int.emod_nonneg h.dataSize (show (4294967296 : Int) ≠ 0 by decide)
    omega
  simp only [writeTileHeader, le32, List.cons_append, List.nil_append, readTileHeader,
    Nat.mod_eq_of_lt href]
  rw [unle32_le32 _ href, unle32_le32 _ hu, ofU32_toU32 _ hlo hhi]

/-- Reading `n` bytes from a file that starts with a block of `n` bytes gives the block. -/
theorem readData_append (a rest : List Byte) : readData a.length (a ++ rest) = (a, rest) := by
  simp [readData]

/-- The first free slot after a run of occupied slots. -/
theorem firstFree_append (occ more : List dtCompressedTile)
    (h : ∀ t ∈ occ, t.header.isSome = true) :
    firstFree (occ ++ dtCompressedTile.free :: more) = some occ.length := by
  induction occ with
  | nil => simp [firstFree, dtCompressedTile.free]
  | cons t occ ih =>
    have ht : t.header.isSome = true := h t (List.mem_cons_self _ _)
    have ht2 : t.header.isNone = false := by
      cases hh : t.header <;> simp [hh] at ht ⊢
    have e := ih (fun t' ht' => h t' (List.mem_cons_of_mem _ ht'))
    simp [firstFree, ht2, e]

/-- Filling the slot after a run of occupied slots. -/
theorem set_append_free (occ more : List dtCompressedTile) (x : dtCompressedTile) :
    (occ ++ dtCompressedTile.free :: more).set occ.length x = occ ++ x :: more := by
  induction occ with
  | nil => rfl
  | cons t occ ih => simp [ih]

/-- One round of the tile loop of `loadAll` on a record written by `saveAll`. -/
theorem loadTiles_step (env : Collab) (n : Nat)
    (t : dtCompressedTile) (halloc : env.dtAlloc t.dataSize = true) (rest : List Byte)
    (tc : dtTileCache) (nav : dtNavMesh)
    (h0 : t.ref ≠ 0) (href : t.ref < 4294967296) (hlen : t.dataSize = (t.data.length : Int))
    (hne : t.dataSize ≠ 0) (hhi : t.dataSize ≤ INT_MAX) :
    loadTiles env (n + 1) (writeTile t ++ rest) tc nav =
      loadTiles env n rest (tc.addTile env t.data t.dataSize).2.2
        (if (tc.addTile env t.data t.dataSize).2.1 ≠ 0
          then { nav with builds := nav.builds ++ [MeshBuild.byRef (tc.addTile env t.data t.dataSize).2.1] }
          else nav) := by
  have hlo : INT_MIN ≤ t.dataSize := by
    unfold INT_MIN
    omega
  have htake : t.data.take t.dataSize.toNat = t.data := by
    rw [hlen]
    simp
  have hread : readTileHeader (writeTile t ++ rest)
      = some ({ tileRef := t.ref, dataSize := t.dataSize }, t.data ++ rest) := by
    unfold writeTile
    rw [htake, List.append_assoc]
    exact readTileHeader_write { tileRef := t.ref, dataSize := t.dataSize } _ href hlo hhi
  have hdata : readData t.dataSize.toNat (t.data ++ rest) = (t.data, rest) := by
    have : t.dataSize.toNat = t.data.length := by omega
    rw [this]
    exact readData_append _ _
  rw [loadTiles, hread]
  simp only [h0, hne, or_self, if_false, halloc, Bool.not_true, Bool.false_eq_true, hdata]

/-- One round of the tile loop of `loadAll` on a record written by `saveAll`: the status
of its add is the first of the statuses of the loop. -/
theorem loadAdds_step (env : Collab) (n : Nat)
    (t : dtCompressedTile) (halloc : env.dtAlloc t.dataSize = true) (rest : List Byte)
    (tc : dtTileCache)
    (h0 : t.ref ≠ 0) (href : t.ref < 4294967296) (hlen : t.dataSize = (t.data.length : Int))
    (hne : t.dataSize ≠ 0) (hhi : t.dataSize ≤ INT_MAX) :
    loadAdds env (n + 1) (writeTile t ++ rest) tc =
      (tc.addTile env t.data t.dataSize).1
        :: loadAdds env n rest (tc.addTile env t.data t.dataSize).2.2 := by
  have hlo : INT_MIN ≤ t.dataSize := by
    unfold INT_MIN
    omega
  have htake : t.data.take t.dataSize.toNat = t.data := by
    rw [hlen]
    simp
  have hread : readTileHeader (writeTile t ++ rest)
      = some ({ tileRef := t.ref, dataSize := t.dataSize }, t.data ++ rest) := by
    unfold writeTile
    rw [htake, List.append_assoc]
    exact readTileHeader_write { tileRef := t.ref, dataSize := t.dataSize } _ href hlo hhi
  have hdata : readData t.dataSize.toNat (t.data ++ rest) = (t.data, rest) := by
    have : t.dataSize.toNat = t.data.length := by omega
    rw [this]
    exact readData_append _ _
  rw [loadAdds, hread]
  simp only [h0, hne, or_self, if_false, halloc, Bool.not_true, Bool.false_eq_true, hdata]

/-- A slot list whose slots are all occupied has no free slot. -/
theorem firstFree_occupied (occ : List dtCompressedTile)
    (h : ∀ t ∈ occ, t.header.isSome = true) : firstFree occ = none := by
  induction occ with
  | nil => rfl
  | cons t occ ih =>
    have ht : t.header.isSome = true := h t (List.mem_cons_self _ _)
    have ht2 : t.header.isNone = false := by
      cases hh : t.header <;> simp [hh] at ht ⊢
    simp [firstFree, ht2, ih (fun t' ht' => h t' (List.mem_cons_of_mem _ ht'))]

/-- An accepted add to a cache whose free slots follow a run of occupied slots: there
was a free slot, and the block is stored in the first of them. -/
theorem addTile_append (env : Collab)
    (P : Option dtTileCacheParams) (occ : List dtCompressedTile) (k : Nat)
    (hocc : ∀ t ∈ occ, t.header.isSome = true) (data : List Byte) (n : Int)
    (hacc : (dtTileCache.addTile env
        { params := P, tiles := occ ++ List.replicate k dtCompressedTile.free } data n).1
      = true) :
    ∃ r k', k = k' + 1 ∧ dtTileCache.addTile env
        { params := P, tiles := occ ++ List.replicate k dtCompressedTile.free } data n
      = (true, r, { params := P, tiles := occ ++
          storedTile env data n r :: List.replicate k' dtCompressedTile.free }) := by
  cases k with
  | zero =>
    exfalso
    unfold dtTileCache.addTile at hacc
    simp only [List.replicate_zero, List.append_nil, firstFree_occupied occ hocc] at hacc
    split at hacc <;> simp_all
  | succ k' =>
    unfold dtTileCache.addTile at hacc ⊢
    generalize env.addTile
      { params := P, tiles := occ ++ List.replicate (k' + 1) dtCompressedTile.free } data n
      = a at hacc ⊢
    cases a with
    | none => simp at hacc
    | some r =>
      refine ⟨r, k', rfl, ?_⟩
      simp only [List.replicate_succ, firstFree_append occ _ hocc, set_append_free]

/-- The tile loop of `loadAll` on the records `saveAll` wrote for the tiles `ts`: every
tile is added, in order, after the occupied slots. -/
theorem loadTiles_written (env : Collab) (P : Option dtTileCacheParams)
    (ts : List dtCompressedTile)
    (hwf : ∀ t ∈ ts, t.ref ≠ 0 ∧ t.ref < 4294967296 ∧ t.dataSize = (t.data.length : Int) ∧
      t.dataSize ≠ 0 ∧ t.dataSize ≤ INT_MAX)
    (halloc : ∀ t ∈ ts, env.dtAlloc t.dataSize = true)
    (occ : List dtCompressedTile) (hocc : ∀ t ∈ occ, t.header.isSome = true)
    (k : Nat) (nav : dtNavMesh) (rest : List Byte)
    (hadd : ∀ b ∈ loadAdds env ts.length (ts.flatMap writeTile ++ rest)
      { params := P, tiles := occ ++ List.replicate k dtCompressedTile.free }, b = true) :
    ∃ added nav',
      ts.length ≤ k ∧
      loadTiles env ts.length (ts.flatMap writeTile ++ rest)
          { params := P, tiles := occ ++ List.replicate k dtCompressedTile.free } nav
        = some ({ params := P,
                  tiles := occ ++ added ++ List.replicate (k - ts.length) dtCompressedTile.free },
                nav') ∧
      added.map tileView = ts.map (fun t => (some (env.layerHeader t.data), t.data, t.dataSize)) ∧
      ∀ a ∈ added, a.present = true := by
  induction ts generalizing occ k nav with
  | nil => exact ⟨[], nav, by simp, by simp [loadTiles], rfl, by simp⟩
  | cons t ts ih =>
    obtain ⟨h0, href, hlen, hne, hhi⟩ := hwf t (List.mem_cons_self _ _)
    have ha := halloc t (List.mem_cons_self _ _)
    simp only [List.flatMap_cons, List.length_cons, List.append_assoc] at hadd
    rw [loadAdds_step env _ t ha _ _ h0 href hlen hne hhi] at hadd
    obtain ⟨r, k', rfl, hr⟩ := addTile_append env P occ k hocc t.data t.dataSize
      (hadd _ (List.mem_cons_self _ _))
    rw [hr] at hadd
    have hocc' : ∀ t' ∈ occ ++ [storedTile env t.data t.dataSize r], t'.header.isSome = true := by
      intro t' ht'
      rcases List.mem_append.mp ht' with h | h
      · exact hocc t' h
      · simp at h
        subst h
        rfl
    obtain ⟨added, nav', hle, hload, hview, hpres⟩ :=
      ih (fun t' ht' => hwf t' (List.mem_cons_of_mem _ ht'))
        (fun t' ht' => halloc t' (List.mem_cons_of_mem _ ht'))
        (occ ++ [storedTile env t.data t.dataSize r]) hocc' k'
        (if r ≠ 0 then { nav with builds := nav.builds ++ [MeshBuild.byRef r] } else nav)
        (by
          intro b hb
          refine hadd b (List.mem_cons_of_mem _ ?_)
          simpa only [List.append_assoc, List.singleton_append] using hb)
    refine ⟨storedTile env t.data t.dataSize r :: added, nav',
      by simp only [List.length_cons]; omega, ?_, ?_, ?_⟩
    · simp only [List.flatMap_cons, List.length_cons, List.append_assoc]
      rw [loadTiles_step env _ t ha _ _ nav h0 href hlen hne hhi, hr]
      simp only [List.append_assoc, List.singleton_append] at hload
      simp only [Nat.add_sub_add_right, List.cons_append]
      exact hload
    · simp only [List.map_cons, hview]
      rfl
    · intro a ha
      rcases List.mem_cons.mp ha with h | h
      · subst h
        simp [storedTile, dtCompressedTile.present, hne]
      · exact hpres a h

/-- The first loop of `saveAll` adds, to the count so far, the number of tiles kept by
the filter of `savedTiles`. -/
theorem countTiles_eq (tc : dtTileCache) (idxs : List Nat) (n : Int) :
    countTiles tc idxs n = n + ((idxs.filterMap fun i =>
      match tc.tiles[i]? with
      | none => none
      | some t => if t.present then some t else none).length : Int) := by
  induction idxs generalizing n with
  | nil => simp [countTiles]
  | cons i rest ih =>
    cases h : tc.tiles[i]? with
    | none => simp [countTiles, h, ih]
    | some t =>
      cases hh : t.header <;> by_cases hd : t.dataSize = 0 <;>
        simp [countTiles, h, ih, dtCompressedTile.present, hh, hd]
      omega

/-- The second loop of `saveAll` writes the records of the tiles kept by the filter of
`savedTiles`, in order. -/
theorem storeTiles_eq (tc : dtTileCache) (idxs : List Nat) :
    storeTiles tc idxs = (idxs.filterMap fun i =>
      match tc.tiles[i]? with
      | none => none
      | some t => if t.present then some t else none).flatMap writeTile := by
  induction idxs with
  | nil => simp [storeTiles]
  | cons i rest ih =>
    cases h : tc.tiles[i]? with
    | none => simp [storeTiles, h, ih]
    | some t =>
      cases hh : t.header <;> by_cases hd : t.dataSize = 0 <;>
        simp [storeTiles, h, ih, dtCompressedTile.present, hh, hd]

/-- The tile count in the header written by `saveAll` is the number of saved tiles. -/
theorem countTiles_savedTiles (tc : dtTileCache) :
    countTiles tc (List.range tc.getTileCount.toNat) 0 = ((savedTiles tc).length : Int) := by
  rw [countTiles_eq]
  simp [savedTiles]

/-- The body written by `saveAll` is the sequence of the records of the saved tiles. -/
theorem storeTiles_savedTiles (tc : dtTileCache) :
    storeTiles tc (List.range tc.getTileCount.toNat) = (savedTiles tc).flatMap writeTile := by
  rw [storeTiles_eq]
  rfl

/-- The tiles `saveAll` writes are the present tiles among the first `getTileCount()`
slots. -/
theorem savedTiles_eq (tc : dtTileCache) :
    savedTiles tc = (tc.tiles.take tc.getTileCount.toNat).filter dtCompressedTile.present := by
  unfold savedTiles
  generalize tc.getTileCount.toNat = K
  induction K with
  | zero => simp
  | succ K ih =>
    rw [List.range_succ, List.filterMap_append, ih, List.take_succ, List.filter_append]
    congr 1
    cases h : tc.tiles[K]? with
    | none => simp [h]
    | some t => cases hp : t.present <;> simp [h, hp]

/-- The tile count of a cache is the tile capacity of its parameters. -/
theorem getTileCount_eq (tc : dtTileCache) : tc.getTileCount = tc.getParams.maxTiles := by
  unfold dtTileCache.getTileCount dtTileCache.getParams
  cases tc.params <;> rfl

/-- The number of tiles `saveAll` writes is at most the tile capacity. -/
theorem savedTiles_length_le (tc : dtTileCache) :
    (savedTiles tc).length ≤ tc.getTileCount.toNat := by
  unfold savedTiles
  exact (List.length_filterMap_le _ _).trans (by simp)

/-- The mesh loop keeps the tile cache, the geometry pointer, the build context, the
allocator and the grid members. -/
theorem buildAllMeshes_frame (coords : List (Int × Int)) (s s' : OgreDetourTileCache)
    (h : buildAllMeshes coords s = some s') :
    s'.m_tileCache = s.m_tileCache ∧ s'.m_geom = s.m_geom ∧ s'.m_ctx = s.m_ctx := by
  induction coords generalizing s with
  | nil =>
    simp only [buildAllMeshes, Option.some.injEq] at h
    subst h
    exact ⟨rfl, rfl, rfl⟩
  | cons c rest ih =>
    obtain ⟨x, y⟩ := c
    cases htc : s.m_tileCache with
    | none => simp [buildAllMeshes, htc] at h
    | some tc =>
      simp only [buildAllMeshes, htc] at h
      obtain ⟨a, b, c⟩ := ih _ h
      exact ⟨a.trans (by rw [← htc]; rfl), b, c⟩

/-- The mesh loop completes when there is a tile cache. -/
theorem buildAllMeshes_ne_none (coords : List (Int × Int)) (s : OgreDetourTileCache)
    (h : s.m_tileCache.isSome = true) : buildAllMeshes coords s ≠ none := by
  obtain ⟨s1, h1, -⟩ := buildAllMeshes_some coords s (Or.inl h)
  rw [h1]
  simp

/-- A division by a positive `int` is defined. -/
theorem divUndefined_pos (a b : Int) (h : 0 < b) : divUndefined a b = false := by
  unfold divUndefined
  have h1 : b ≠ 0 := by omega
  have h2 : b ≠ -1 := by omega
  simp [h1, h2]

/-- The part of `loadAll` after the tile loop succeeds on an object that holds a tile
cache and a configuration with a positive tile size, but no geometry and no build
context, and keeps the tile cache. -/
theorem loadConfig_ok (env : Collab) (header : TileCacheSetHeader) (srcGeom : InputGeom)
    (s : OgreDetourTileCache) (htc : s.m_tileCache.isSome = true) (hg : s.m_geom = none)
    (hc : s.m_ctx = none) (hts : 0 < s.m_cfg.tileSize) :
    ∃ s', loadConfig env header srcGeom s = some (true, s') ∧ s'.m_tileCache = s.m_tileCache := by
  unfold loadConfig
  simp only [divUndefined_pos _ _ hts, Bool.false_eq_true, if_false]
  split
  · rename_i heq
    exact absurd heq (buildAllMeshes_ne_none _ _ htc)
  · rename_i s1 heq
    obtain ⟨f1, f2, f3⟩ := buildAllMeshes_frame _ _ _ heq
    have g1 : s1.m_geom = none := f2.trans hg
    have g2 : s1.m_ctx = none := f3.trans hc
    simp only [g1, g2, Option.isSome_none, Bool.false_eq_true, or_self, if_false]
    exact ⟨_, rfl, f1⟩

/-- The present tiles of a cache whose slots are `n` present tiles followed by free
slots, `n` not above the capacity, are those `n` tiles. -/
theorem savedTiles_afterLoad (P : dtTileCacheParams) (added : List dtCompressedTile) (n : Nat)
    (hlen : added.length = n) (hn : n ≤ P.maxTiles.toNat)
    (hpres : ∀ a ∈ added, a.present = true) : savedTiles (afterLoad P added n) = added := by
  rw [savedTiles_eq]
  have hcount : (afterLoad P added n).getTileCount = P.maxTiles := rfl
  rw [hcount]
  unfold afterLoad
  simp only
  rw [List.take_of_length_le (by simp; omega), List.filter_append,
    List.filter_eq_self.mpr hpres, List.filter_replicate]
  simp [dtCompressedTile.present, dtCompressedTile.free]

/-- C9: round trip. For every object that `saveAll` saves (its configured tile size
positive, its tiles well formed: non-null 32-bit reference, `dataSize` the length of the
block, header pointer at the start of the block), `loadAll` of the written stream into
an object without geometry and build context, when the nav mesh and the tile cache are
allocated and initialised, the block of each saved tile is allocated and the tile cache
accepts each add of this load, returns `true` and leaves a tile cache whose present
tiles are the saved ones: the same number, in the same order, each with the same
compressed block and layer header. -/
theorem saveAll_loadAll_roundtrip (ids : FormatIds) (env : Collab) (s s0 : OgreDetourTileCache)
    (tc : dtTileCache) (fp : TileCacheFile) (srcGeom : InputGeom)
    (hsave : saveAll ids true s = some (true, some fp)) (htc : s.m_tileCache = some tc)
    (hts : 0 < s.m_cfg.tileSize)
    (hwf : ∀ t ∈ savedTiles tc, t.ref ≠ 0 ∧ t.ref < 4294967296 ∧
      t.dataSize = (t.data.length : Int) ∧ t.dataSize ≤ INT_MAX ∧
      t.header = some (env.layerHeader t.data))
    (hgeom : s0.m_geom = none) (hctx : s0.m_ctx = none)
    (hnav : env.dtAllocNavMesh = true) (hnavInit : env.navMeshInit fp.header.meshParams = true)
    (hcache : env.dtAllocTileCache = true)
    (hcacheInit : env.tileCacheInit fp.header.cacheParams = true)
    (halloc : ∀ t ∈ savedTiles tc, env.dtAlloc t.dataSize = true)
    (hadd : ∀ b ∈ loadAdds env fp.header.numTiles.toNat fp.body
      (dtTileCache.inited fp.header.cacheParams), b = true) :
    ∃ s' tc', loadAll ids env (some fp) srcGeom s0 = some (true, s') ∧
      s'.m_tileCache = some tc' ∧
      (savedTiles tc').map tileView = (savedTiles tc).map tileView ∧
      ((savedTiles tc').length : Int) = fp.header.numTiles := by
  -- the file written by `saveAll`
  unfold saveAll at hsave
  rw [htc] at hsave
  cases hnm : s.m_recast.m_navMesh with
  | none => simp [hnm] at hsave
  | some nm =>
  simp only [hnm, Bool.not_true, Bool.false_eq_true, if_false, Option.some.injEq, Prod.mk.injEq,
    true_and, countTiles_savedTiles, storeTiles_savedTiles] at hsave
  subst hsave
  simp only at hnavInit hcacheInit hadd
  -- the tile loop
  have hpresent : ∀ t ∈ savedTiles tc, t.present = true := by
    intro t ht
    rw [savedTiles_eq] at ht
    exact List.of_mem_filter ht
  have hwf' : ∀ t ∈ savedTiles tc, t.ref ≠ 0 ∧ t.ref < 4294967296 ∧
      t.dataSize = (t.data.length : Int) ∧ t.dataSize ≠ 0 ∧ t.dataSize ≤ INT_MAX := by
    intro t ht
    obtain ⟨a, b, c, d, -⟩ := hwf t ht
    have hp := hpresent t ht
    simp only [dtCompressedTile.present, Bool.and_eq_true, decide_eq_true_eq] at hp
    exact ⟨a, b, c, hp.2, d⟩
  obtain ⟨added, nav', hk, hload, hview, hpres⟩ := loadTiles_written env
    (some tc.getParams) (savedTiles tc) hwf' halloc [] (by simp) tc.getParams.maxTiles.toNat
    { params := some nm.getParams, builds := [] } [] (by
      intro b hb
      refine hadd b ?_
      simpa only [Int.toNat_ofNat, dtTileCache.inited, List.append_nil, List.nil_append]
        using hb)
  simp only [List.append_nil, List.nil_append] at hload
  change loadTiles _ _ _ _ _ = some (afterLoad tc.getParams added (savedTiles tc).length, nav')
    at hload
  -- the configuration part
  obtain ⟨s', hs', htc'⟩ := loadConfig_ok env
    { magic := ids.TILECACHESET_MAGIC, version := ids.TILECACHESET_VERSION,
      numTiles := ((savedTiles tc).length : Int), cacheParams := tc.getParams,
      meshParams := nm.getParams, recastConfig := s.m_cfg } srcGeom
    { s0 with
      m_cfg := s.m_cfg
      m_tileCache := some (afterLoad tc.getParams added (savedTiles tc).length)
      m_recast := { s0.m_recast with m_navMesh := some nav' } }
    rfl hgeom hctx hts
  refine ⟨s', _, ?_, htc', ?_, ?_⟩
  · unfold loadAll
    simp only [ne_eq, not_true_eq_false, if_false, hnav, hnavInit, hcache, hcacheInit,
      Bool.not_true, Bool.false_eq_true, Int.toNat_ofNat, dtTileCache.inited, hload]
    exact hs'
  · have hlen : added.length = (savedTiles tc).length := by
      have := congrArg List.length hview
      simpa using this
    rw [savedTiles_afterLoad _ _ _ hlen hk hpres, hview]
    apply List.map_congr_left
    intro t ht
    obtain ⟨-, -, -, -, hh⟩ := hwf t ht
    simp only [tileView, hh]
  · have hlen : added.length = (savedTiles tc).length := by
      have := congrArg List.length hview
      simpa using this
    rw [savedTiles_afterLoad _ _ _ hlen hk hpres, hlen]

/-- Witness for C10: a file with magic number 0 is refused and the object is unchanged. -/
theorem loadAll_bad_format_witness :
    (badMagicFile.header.magic ≠ sampleIds.TILECACHESET_MAGIC ∨
      badMagicFile.header.version ≠ sampleIds.TILECACHESET_VERSION) ∧
    loadAll sampleIds okCollab (some badMagicFile) emptyGeom
        (construct okCollab (sampleRecast 1) 8 48)
      = some (false, construct okCollab (sampleRecast 1) 8 48) :=
  ⟨Or.inl (by decide),
    loadAll_bad_format sampleIds okCollab badMagicFile emptyGeom
      (construct okCollab (sampleRecast 1) 8 48) (Or.inl (by decide))⟩

/-- The tiles `saveAll` writes for `sampleCache`. -/
theorem savedTiles_sampleCache :
    savedTiles sampleCache
      = [storedTile okCollab [1, 2, 3] 3 65537, storedTile okCollab [9, 8] 2 65538] := by
  simp [savedTiles_eq, sampleCache, dtTileCache.getTileCount, dtCompressedTile.present,
    storedTile, dtCompressedTile.free, List.filter]

/-- Witness for C9: a cache with two tiles in slots 0 and 2 is saved and loaded into a
newly constructed object whose tile cache rejects a block it already holds; the two
blocks differ, each add is accepted and the loaded cache holds the two tiles. -/
theorem saveAll_loadAll_roundtrip_witness :
    saveAll sampleIds true sampleSaved = some (true, some sampleFile) ∧
    dedupCollab.addTile sampleCache [1, 2, 3] 3 = none ∧
    ∃ s' tc', loadAll sampleIds dedupCollab (some sampleFile) emptyGeom
        (construct okCollab (sampleRecast 1) 8 48) = some (true, s') ∧
      s'.m_tileCache = some tc' ∧
      (savedTiles tc').map tileView = (savedTiles sampleCache).map tileView ∧
      ((savedTiles tc').length : Int) = sampleFile.header.numTiles := by
  have hsave : saveAll sampleIds true sampleSaved = some (true, some sampleFile) := by
    have h1 : sampleSaved.m_tileCache = some sampleCache := rfl
    have h2 : sampleSaved.m_recast.m_navMesh = some dtNavMesh.fresh := rfl
    have h3 : sampleSaved.m_cfg = sampleConfig := rfl
    simp only [saveAll, h1, h2, h3, countTiles_savedTiles, storeTiles_savedTiles,
      savedTiles_sampleCache]
    simp [sampleFile, sampleIds, writeTile, writeTileHeader, le32, toU32, storedTile,
      dtTileCache.getParams, sampleCache]
  refine ⟨hsave, by decide, ?_⟩
  refine saveAll_loadAll_roundtrip sampleIds dedupCollab sampleSaved
    (construct okCollab (sampleRecast 1) 8 48) sampleCache sampleFile emptyGeom hsave rfl
    (by decide) ?_ rfl rfl rfl rfl rfl rfl ?_ (by decide)
  · intro t ht
    rw [savedTiles_sampleCache] at ht
    simp only [List.mem_cons, List.mem_singleton, List.not_mem_nil, or_false] at ht
    rcases ht with rfl | rfl
    · refine ⟨by decide, by decide, by decide, by decide, rfl⟩
    · refine ⟨by decide, by decide, by decide, by decide, rfl⟩
  · intro t ht
    rw [savedTiles_sampleCache] at ht
    simp only [List.mem_cons, List.mem_singleton, List.not_mem_nil, or_false] at ht
    rcases ht with rfl | rfl
    · decide
    · decide

/-! ### Saving: the header count and the records -/

/-- The records `saveAll` writes for well-formed tiles read back as those tiles. -/
theorem readRecords_written (ts : List dtCompressedTile) (rest : List Byte)
    (hwf : ∀ t ∈ ts, t.ref < 4294967296 ∧ t.dataSize = (t.data.length : Int) ∧
      t.dataSize ≤ INT_MAX) :
    readRecords ts.length (ts.flatMap writeTile ++ rest) = some (ts.map recordOf, rest) := by
  induction ts with
  | nil => simp [readRecords]
  | cons t ts ih =>
    obtain ⟨href, hlen, hhi⟩ := hwf t (List.mem_cons_self _ _)
    have hlo : INT_MIN ≤ t.dataSize := by
      unfold INT_MIN
      omega
    have htake : t.data.take t.dataSize.toNat = t.data := by
      rw [hlen]
      simp
    have hn : t.dataSize.toNat = t.data.length := by omega
    have hread : readTileHeader ((t :: ts).flatMap writeTile ++ rest)
        = some ({ tileRef := t.ref, dataSize := t.dataSize },
            t.data ++ (ts.flatMap writeTile ++ rest)) := by
      simp only [List.flatMap_cons, writeTile, htake, List.append_assoc]
      exact readTileHeader_write { tileRef := t.ref, dataSize := t.dataSize } _ href hlo hhi
    rw [List.length_cons, readRecords, hread]
    simp only [hn, List.length_append, List.drop_left, List.take_left,
      ih (fun t' ht' => hwf t' (List.mem_cons_of_mem _ ht'))]
    rw [if_neg (by omega)]
    simp [recordOf]

/-- C11: for every object that `saveAll` saves (tiles well formed: 32-bit reference,
`dataSize` the length of the block), the tile count written in the header is the number
of tile records written after it; the stream after the header consists of exactly
these records and nothing else; the records are those of the present tiles (non-null
header, non-zero data size) among the slots, in slot order; and each record's
`dataSize` is the length of the block that follows it. -/
theorem saveAll_records (ids : FormatIds) (s : OgreDetourTileCache) (tc : dtTileCache)
    (fp : TileCacheFile) (htc : s.m_tileCache = some tc)
    (hsave : saveAll ids true s = some (true, some fp))
    (hwf : ∀ t ∈ savedTiles tc, t.ref < 4294967296 ∧ t.dataSize = (t.data.length : Int) ∧
      t.dataSize ≤ INT_MAX) :
    ∃ records,
      readRecords fp.header.numTiles.toNat fp.body = some (records, []) ∧
      fp.header.numTiles = (records.length : Int) ∧
      records = ((tc.tiles.take tc.getTileCount.toNat).filter
        (fun t => t.header.isSome && decide (t.dataSize ≠ 0))).map recordOf ∧
      ∀ r ∈ records, r.1.dataSize = (r.2.length : Int) := by
  unfold saveAll at hsave
  rw [htc] at hsave
  cases hnm : s.m_recast.m_navMesh with
  | none => simp [hnm] at hsave
  | some nm =>
  simp only [hnm, Bool.not_true, Bool.false_eq_true, if_false, Option.some.injEq, Prod.mk.injEq,
    true_and, countTiles_savedTiles, storeTiles_savedTiles] at hsave
  subst hsave
  refine ⟨(savedTiles tc).map recordOf, ?_, by simp, ?_, ?_⟩
  · have h := readRecords_written (savedTiles tc) [] hwf
    simpa using h
  · rw [savedTiles_eq]
    rfl
  · intro r hr
    obtain ⟨t, ht, rfl⟩ := List.mem_map.mp hr
    exact (hwf t ht).2.1

/-- Witness for C11: the sample cache with two tiles in slots 0 and 2. -/
theorem saveAll_records_witness :
    sampleSaved.m_tileCache = some sampleCache ∧
    saveAll sampleIds true sampleSaved = some (true, some sampleFile) ∧
    ∃ records,
      readRecords sampleFile.header.numTiles.toNat sampleFile.body = some (records, []) ∧
      sampleFile.header.numTiles = (records.length : Int) ∧
      records = ((sampleCache.tiles.take sampleCache.getTileCount.toNat).filter
        (fun t => t.header.isSome && decide (t.dataSize ≠ 0))).map recordOf ∧
      ∀ r ∈ records, r.1.dataSize = (r.2.length : Int) := by
  have hsave : saveAll sampleIds true sampleSaved = some (true, some sampleFile) := by
    have h1 : sampleSaved.m_tileCache = some sampleCache := rfl
    have h2 : sampleSaved.m_recast.m_navMesh = some dtNavMesh.fresh := rfl
    have h3 : sampleSaved.m_cfg = sampleConfig := rfl
    simp only [saveAll, h1, h2, h3, countTiles_savedTiles, storeTiles_savedTiles,
      savedTiles_sampleCache]
    simp [sampleFile, sampleIds, writeTile, writeTileHeader, le32, toU32, storedTile,
      dtTileCache.getParams, sampleCache]
  refine ⟨rfl, hsave, saveAll_records sampleIds sampleSaved sampleCache sampleFile rfl hsave ?_⟩
  intro t ht
  rw [savedTiles_sampleCache] at ht
  simp only [List.mem_cons, List.mem_singleton, List.not_mem_nil, or_false] at ht
  rcases ht with rfl | rfl
  · exact ⟨by decide, by decide, by decide⟩
  · exact ⟨by decide, by decide, by decide⟩

/-! ### Loading: which records are added -/

/-- What a successful `loadAll` went through: the format check and the four
allocation and initialisation steps passed, the tile loop ended, and the rest of the
function ran on the object left by the loop. -/
theorem loadAll_success_inv (ids : FormatIds) (env : Collab) (fp : TileCacheFile)
    (srcGeom : InputGeom) (s s' : OgreDetourTileCache)
    (h : loadAll ids env (some fp) srcGeom s = some (true, s')) :
    ∃ tc nav,
      loadTiles env fp.header.numTiles.toNat fp.body (dtTileCache.inited fp.header.cacheParams)
          { params := some fp.header.meshParams, builds := [] } = some (tc, nav) ∧
      loadConfig env fp.header srcGeom (loadedState fp s tc nav) = some (true, s') := by
  unfold loadAll at h
  simp only at h
  split_ifs at h with c1 c2 c3 c4 c5 c6
  all_goals try (exact absurd h (by simp))
  split at h
  · simp at h
  · rename_i tc nav heq
    exact ⟨tc, nav, heq, h⟩

/-- The mesh loop appends one build per grid position to the nav mesh and keeps the
tile cache and the grid members. -/
theorem buildAllMeshes_builds (coords : List (Int × Int)) (s s' : OgreDetourTileCache)
    (h : buildAllMeshes coords s = some s') :
    s'.m_tileCache = s.m_tileCache ∧ s'.m_tw = s.m_tw ∧ s'.m_th = s.m_th ∧
    ∀ nav, s.m_recast.m_navMesh = some nav →
      ∃ nav', s'.m_recast.m_navMesh = some nav' ∧
        nav'.builds = nav.builds ++ coords.map (fun c => MeshBuild.tilesAt c.1 c.2) := by
  induction coords generalizing s with
  | nil =>
    simp only [buildAllMeshes, Option.some.injEq] at h
    subst h
    exact ⟨rfl, rfl, rfl, fun nav hn => ⟨nav, hn, by simp⟩⟩
  | cons c rest ih =>
    obtain ⟨x, y⟩ := c
    cases htc : s.m_tileCache with
    | none => simp [buildAllMeshes, htc] at h
    | some tc =>
      simp only [buildAllMeshes, htc] at h
      obtain ⟨a, b, c, d⟩ := ih _ h
      refine ⟨a.trans (by rw [← htc]; rfl), b, c, ?_⟩
      intro nav hn
      obtain ⟨nav', h1, h2⟩ := d { nav with builds := nav.builds ++ [MeshBuild.tilesAt x y] }
        (by simp [recordMeshBuild, hn])
      exact ⟨nav', h1, by simp [h2]⟩

/-- What a successful run of the part of `loadAll` after the tile loop leaves behind: the
tile cache of the loop, and a nav mesh whose builds are those of the loop followed
by one build per grid position. -/
theorem loadConfig_inv (env : Collab) (header : TileCacheSetHeader) (srcGeom : InputGeom)
    (s s' : OgreDetourTileCache) (b : Bool) (nav : dtNavMesh)
    (h : loadConfig env header srcGeom s = some (b, s')) (hn : s.m_recast.m_navMesh = some nav) :
    s'.m_tileCache = s.m_tileCache ∧
    ∃ nav', s'.m_recast.m_navMesh = some nav' ∧
      nav'.builds = nav.builds ++
        (tileCoords s'.m_tw s'.m_th).map (fun c => MeshBuild.tilesAt c.1 c.2) := by
  unfold loadConfig at h
  simp only at h
  split at h
  · simp at h
  split at h
  · simp at h
  split at h
  · simp at h
  · rename_i s1 heq
    obtain ⟨f1, f2, f3, f4⟩ := buildAllMeshes_builds _ _ _ heq
    obtain ⟨nav', h1, h2⟩ := f4 nav hn
    split_ifs at h
    simp only [Option.some.injEq, Prod.mk.injEq] at h
    obtain ⟨-, rfl⟩ := h
    refine ⟨f1, nav', h1, ?_⟩
    rw [h2]
    simp only [f2, f3]

/-- The tile loop of `loadAll` on a stream that holds `n` complete records, none with a
null reference or a zero size, when the block of each record is allocated and the cache
accepts each add of the loop: every record is added, in order, after the occupied slots,
and the nav mesh receives only builds by reference. -/
theorem loadTiles_records (env : Collab) (P : Option dtTileCacheParams)
    (n : Nat) (file : List Byte) (records : List (TileCacheTileHeader × List Byte))
    (rest : List Byte) (hrecs : readRecords n file = some (records, rest))
    (hvalid : ∀ r ∈ records, r.1.tileRef ≠ 0 ∧ r.1.dataSize ≠ 0)
    (halloc : ∀ r ∈ records, env.dtAlloc r.1.dataSize = true)
    (occ : List dtCompressedTile) (hocc : ∀ t ∈ occ, t.header.isSome = true)
    (k : Nat) (nav : dtNavMesh)
    (hadd : ∀ b ∈ loadAdds env n file
      { params := P, tiles := occ ++ List.replicate k dtCompressedTile.free }, b = true) :
    ∃ (added : List dtCompressedTile) (nav' : dtNavMesh) (refs : List Nat),
      records.length ≤ k ∧
      loadTiles env n file
          { params := P, tiles := occ ++ List.replicate k dtCompressedTile.free } nav
        = some ({ params := P,
                  tiles := occ ++ added ++ List.replicate (k - records.length) dtCompressedTile.free },
                nav') ∧
      added.map (fun t => (t.data, t.dataSize)) = records.map (fun r => (r.2, r.1.dataSize)) ∧
      (∀ a ∈ added, a.present = true) ∧
      nav'.builds = nav.builds ++ refs.map MeshBuild.byRef := by
  induction n generalizing file records occ k nav with
  | zero =>
    simp only [readRecords, Option.some.injEq, Prod.mk.injEq] at hrecs
    obtain ⟨rfl, -⟩ := hrecs
    exact ⟨[], nav, [], by simp, by simp [loadTiles], rfl, by simp, by simp⟩
  | succ n ih =>
    rw [readRecords] at hrecs
    cases hh : readTileHeader file with
    | none => simp [hh] at hrecs
    | some p =>
      obtain ⟨th, file'⟩ := p
      simp only [hh] at hrecs
      split_ifs at hrecs with hshort
      cases hr : readRecords n (file'.drop th.dataSize.toNat) with
      | none => simp [hr] at hrecs
      | some q =>
        obtain ⟨recs', rest'⟩ := q
        simp only [hr, Option.some.injEq, Prod.mk.injEq] at hrecs
        obtain ⟨rfl, rfl⟩ := hrecs
        obtain ⟨h0, hne⟩ := hvalid _ (List.mem_cons_self _ _)
        have ha := halloc _ (List.mem_cons_self _ _)
        simp only at h0 hne ha
        have hdata : readData th.dataSize.toNat file'
            = (file'.take th.dataSize.toNat, file'.drop th.dataSize.toNat) := by
          have : th.dataSize.toNat - file'.length = 0 := by omega
          simp [readData, this]
        rw [loadAdds, hh] at hadd
        simp only [h0, hne, or_self, if_false, ha, Bool.not_true, Bool.false_eq_true,
          hdata] at hadd
        obtain ⟨r, k', rfl, hadd'⟩ := addTile_append env P occ k hocc
          (file'.take th.dataSize.toNat) th.dataSize (hadd _ (List.mem_cons_self _ _))
        rw [hadd'] at hadd
        have hocc' : ∀ t' ∈ occ ++ [storedTile env (file'.take th.dataSize.toNat) th.dataSize r],
            t'.header.isSome = true := by
          intro t' ht'
          rcases List.mem_append.mp ht' with h | h
          · exact hocc t' h
          · simp at h
            subst h
            rfl
        obtain ⟨added, nav', refs, hle, hload, hview, hpres, hbuilds⟩ :=
          ih (file'.drop th.dataSize.toNat) recs' hr
            (fun r' hr' => hvalid r' (List.mem_cons_of_mem _ hr'))
            (fun r' hr' => halloc r' (List.mem_cons_of_mem _ hr'))
            (occ ++ [storedTile env (file'.take th.dataSize.toNat) th.dataSize r]) hocc' k'
            (if r ≠ 0 then { nav with builds := nav.builds ++ [MeshBuild.byRef r] } else nav)
            (by
              intro b hb
              refine hadd b (List.mem_cons_of_mem _ ?_)
              simpa only [List.append_assoc, List.singleton_append] using hb)
        refine ⟨storedTile env (file'.take th.dataSize.toNat) th.dataSize r :: added, nav',
          (if r ≠ 0 then [r] else []) ++ refs, by simp only [List.length_cons]; omega,
          ?_, ?_, ?_, ?_⟩
        · rw [loadTiles, hh]
          simp only [h0, hne, or_self, if_false, ha, Bool.not_true, Bool.false_eq_true,
            hdata, hadd']
          simp only [List.append_assoc, List.singleton_append] at hload
          simp only [List.length_cons, Nat.add_sub_add_right, List.cons_append, List.append_assoc]
          exact hload
        · simp only [List.map_cons, hview]
          rfl
        · intro a ha
          rcases List.mem_cons.mp ha with h | h
          · subst h
            simp [storedTile, dtCompressedTile.present, hne]
          · exact hpres a h
        · rw [hbuilds]
          by_cases hr0 : r = 0 <;> simp [hr0]

/-- The number of records read is the number asked for. -/
theorem readRecords_length (n : Nat) (file : List Byte)
    (records : List (TileCacheTileHeader × List Byte)) (rest : List Byte)
    (h : readRecords n file = some (records, rest)) : records.length = n := by
  induction n generalizing file records rest with
  | zero =>
    simp only [readRecords, Option.some.injEq, Prod.mk.injEq] at h
    obtain ⟨rfl, -⟩ := h
    rfl
  | succ n ih =>
    rw [readRecords] at h
    cases hh : readTileHeader file with
    | none => simp [hh] at h
    | some p =>
      obtain ⟨th, file'⟩ := p
      simp only [hh] at h
      split_ifs at h
      cases hr : readRecords n (file'.drop th.dataSize.toNat) with
      | none => simp [hr] at h
      | some q =>
        obtain ⟨recs', rest'⟩ := q
        simp only [hr, Option.some.injEq, Prod.mk.injEq] at h
        obtain ⟨rfl, -⟩ := h
        simp [ih _ _ _ hr]

/-- When the format check and the allocation and initialisation steps pass and the tile
loop ends, `loadAll` on an object without geometry and build context returns `true` and
keeps the tile cache of the loop. -/
theorem loadAll_ok (ids : FormatIds) (env : Collab) (fp : TileCacheFile) (srcGeom : InputGeom)
    (s : OgreDetourTileCache) (tc : dtTileCache) (nav : dtNavMesh)
    (hm : fp.header.magic = ids.TILECACHESET_MAGIC)
    (hv : fp.header.version = ids.TILECACHESET_VERSION)
    (h1 : env.dtAllocNavMesh = true) (h2 : env.navMeshInit fp.header.meshParams = true)
    (h3 : env.dtAllocTileCache = true) (h4 : env.tileCacheInit fp.header.cacheParams = true)
    (hl : loadTiles env fp.header.numTiles.toNat fp.body (dtTileCache.inited fp.header.cacheParams)
      { params := some fp.header.meshParams, builds := [] } = some (tc, nav))
    (hg : s.m_geom = none) (hc : s.m_ctx = none) (hts : 0 < fp.header.recastConfig.tileSize) :
    ∃ s', loadAll ids env (some fp) srcGeom s = some (true, s') ∧ s'.m_tileCache = some tc := by
  obtain ⟨s', hs', htc'⟩ :=
    loadConfig_ok env fp.header srcGeom (loadedState fp s tc nav) rfl hg hc hts
  refine ⟨s', ?_, htc'⟩
  unfold loadAll
  simp only [hm, hv, ne_eq, not_true_eq_false, if_false, h1, h2, h3, h4, Bool.not_true,
    Bool.false_eq_true, hl]
  exact hs'

/-- C12 (amended): whenever `loadAll` returns success on a stream that holds the
`numTiles` announced records, none of them with a null reference or a zero size, the
block of each record was allocated and the tile cache accepted each add of this load,
every one of the `numTiles` records has been read and re-added to the tile cache, in
order, and the builds of the nav mesh by tile reference all precede the per-position
builds. -/
theorem loadAll_success_records (ids : FormatIds) (env : Collab) (fp : TileCacheFile)
    (srcGeom : InputGeom) (s s' : OgreDetourTileCache)
    (records : List (TileCacheTileHeader × List Byte)) (rest : List Byte)
    (hload : loadAll ids env (some fp) srcGeom s = some (true, s'))
    (hrecs : readRecords fp.header.numTiles.toNat fp.body = some (records, rest))
    (hvalid : ∀ r ∈ records, r.1.tileRef ≠ 0 ∧ r.1.dataSize ≠ 0)
    (halloc : ∀ r ∈ records, env.dtAlloc r.1.dataSize = true)
    (hadd : ∀ b ∈ loadAdds env fp.header.numTiles.toNat fp.body
      (dtTileCache.inited fp.header.cacheParams), b = true) :
    ∃ (tc' : dtTileCache) (nav' : dtNavMesh) (refs : List Nat),
      s'.m_tileCache = some tc' ∧
      (savedTiles tc').map (fun t => (t.data, t.dataSize))
        = records.map (fun r => (r.2, r.1.dataSize)) ∧
      (savedTiles tc').length = fp.header.numTiles.toNat ∧
      s'.m_recast.m_navMesh = some nav' ∧
      nav'.builds = refs.map MeshBuild.byRef ++
        (tileCoords s'.m_tw s'.m_th).map (fun c => MeshBuild.tilesAt c.1 c.2) := by
  obtain ⟨tc, nav, hl, hc⟩ := loadAll_success_inv ids env fp srcGeom s s' hload
  obtain ⟨added, nav1, refs, hcap, hl', hview, hpres, hbuilds⟩ := loadTiles_records env
    (some fp.header.cacheParams) _ _ records rest hrecs hvalid halloc [] (by simp)
    fp.header.cacheParams.maxTiles.toNat { params := some fp.header.meshParams, builds := [] }
    (by
      intro b hb
      refine hadd b ?_
      simpa only [dtTileCache.inited, List.nil_append] using hb)
  simp only [List.nil_append] at hl' hbuilds
  have hinit : dtTileCache.inited fp.header.cacheParams
      = { params := some fp.header.cacheParams,
          tiles := List.replicate fp.header.cacheParams.maxTiles.toNat dtCompressedTile.free } := rfl
  rw [hinit, hl'] at hl
  simp only [Option.some.injEq, Prod.mk.injEq] at hl
  obtain ⟨htc, hnav⟩ := hl
  have hlen : added.length = records.length := by
    have := congrArg List.length hview
    simpa using this
  have hafter : tc = afterLoad fp.header.cacheParams added records.length := htc.symm
  obtain ⟨g1, nav', g2, g3⟩ := loadConfig_inv env fp.header srcGeom _ s' true nav hc rfl
  refine ⟨tc, nav', refs, g1, ?_, ?_, g2, ?_⟩
  · rw [hafter, savedTiles_afterLoad _ _ _ hlen hcap hpres, hview]
  · rw [hafter, savedTiles_afterLoad _ _ _ hlen hcap hpres, hlen]
    exact readRecords_length _ _ _ _ hrecs
  · rw [g3, ← hnav, hbuilds]

/-- The records of the sample file. -/
theorem readRecords_sampleFile :
    readRecords sampleFile.header.numTiles.toNat sampleFile.body
      = some ([({ tileRef := 65537, dataSize := 3 }, [1, 2, 3]),
               ({ tileRef := 65538, dataSize := 2 }, [9, 8])], []) := by
  decide

/-- The statuses of the adds of the sample file under `dedupCollab`: both accepted. -/
theorem loadAdds_sampleFile :
    loadAdds dedupCollab sampleFile.header.numTiles.toNat sampleFile.body
      (dtTileCache.inited sampleFile.header.cacheParams) = [true, true] := by
  decide

/-- Witness for C12 (amended): the sample file loads into a newly constructed object
whose tile cache rejects a block it already holds, and both of its records are
re-added. -/
theorem loadAll_success_records_witness :
    ∃ s', loadAll sampleIds dedupCollab (some sampleFile) emptyGeom
        (construct okCollab (sampleRecast 1) 8 48) = some (true, s') ∧
      ∃ (tc' : dtTileCache) (nav' : dtNavMesh) (refs : List Nat),
        s'.m_tileCache = some tc' ∧
        (savedTiles tc').map (fun t => (t.data, t.dataSize))
          = [([1, 2, 3], 3), ([9, 8], 2)] ∧
        (savedTiles tc').length = sampleFile.header.numTiles.toNat ∧
        s'.m_recast.m_navMesh = some nav' ∧
        nav'.builds = refs.map MeshBuild.byRef ++
          (tileCoords s'.m_tw s'.m_th).map (fun c => MeshBuild.tilesAt c.1 c.2) := by
  have hvalid : ∀ r ∈ [(({ tileRef := 65537, dataSize := 3 } : TileCacheTileHeader), [1, 2, 3]),
      (({ tileRef := 65538, dataSize := 2 } : TileCacheTileHeader), ([9, 8] : List Byte))],
      r.1.tileRef ≠ 0 ∧ r.1.dataSize ≠ 0 := by
    decide
  have halloc : ∀ r ∈ [(({ tileRef := 65537, dataSize := 3 } : TileCacheTileHeader),
      ([1, 2, 3] : List Byte)),
      (({ tileRef := 65538, dataSize := 2 } : TileCacheTileHeader), ([9, 8] : List Byte))],
      dedupCollab.dtAlloc r.1.dataSize = true := by
    decide
  have hadd : ∀ b ∈ loadAdds dedupCollab sampleFile.header.numTiles.toNat sampleFile.body
      (dtTileCache.inited sampleFile.header.cacheParams), b = true := by
    rw [loadAdds_sampleFile]
    decide
  obtain ⟨added, nav1, refs, -, hl, -⟩ := loadTiles_records dedupCollab
    (some sampleFile.header.cacheParams) _ _ _ _ readRecords_sampleFile
    hvalid halloc [] (by simp) sampleFile.header.cacheParams.maxTiles.toNat
    { params := some sampleFile.header.meshParams, builds := [] } hadd
  obtain ⟨s', hs', -⟩ := loadAll_ok sampleIds dedupCollab sampleFile emptyGeom
    (construct okCollab (sampleRecast 1) 8 48) _ _ rfl rfl rfl rfl rfl rfl hl rfl rfl
    (by decide)
  exact ⟨s', hs', loadAll_success_records sampleIds dedupCollab sampleFile emptyGeom _ s' _ _ hs'
    readRecords_sampleFile hvalid halloc hadd⟩

/-- C12 (counterexample): a file announcing two tile records whose first record carries
a null reference. `loadAll` leaves the tile loop at that record, returns `true`, and
the tile cache holds none of the two records. -/
theorem loadAll_success_records_counterexample :
    nullRefFile.header.numTiles = 2 ∧
    ∃ s' tc', loadAll sampleIds okCollab (some nullRefFile) emptyGeom
        (construct okCollab (sampleRecast 1) 8 48) = some (true, s') ∧
      s'.m_tileCache = some tc' ∧ savedTiles tc' = [] := by
  have hl : loadTiles okCollab nullRefFile.header.numTiles.toNat nullRefFile.body
      (dtTileCache.inited nullRefFile.header.cacheParams)
      { params := some nullRefFile.header.meshParams, builds := [] }
      = some (dtTileCache.inited nullRefFile.header.cacheParams,
          { params := some nullRefFile.header.meshParams, builds := [] }) := by
    have h2 : nullRefFile.header.numTiles.toNat = 1 + 1 := rfl
    have hb : readTileHeader nullRefFile.body
        = some ({ tileRef := 0, dataSize := 3 }, [1, 2, 3, 2, 0, 1, 0, 2, 0, 0, 0, 9, 8]) := by
      decide
    rw [h2, loadTiles, hb]
    simp
  obtain ⟨s', hs', htc⟩ := loadAll_ok sampleIds okCollab nullRefFile emptyGeom
    (construct okCollab (sampleRecast 1) 8 48) _ _ rfl rfl rfl rfl rfl rfl hl rfl rfl
    (by decide)
  refine ⟨rfl, s', _, hs', htc, ?_⟩
  simp [savedTiles_eq, dtTileCache.inited, nullRefFile, dtTileCache.getTileCount,
    dtCompressedTile.present, dtCompressedTile.free, List.replicate]

/-! ### The linear allocator -/

/-- A single `alloc(size)` whose `int` sum `top + size` is representable. -/
theorem alloc_eq (a : LinearAllocator) (size : Int) (hlo : INT_MIN ≤ a.top + size)
    (hhi : a.top + size ≤ INT_MAX) :
    a.alloc size =
      if a.buffer = true ∧ a.top + size ≤ a.capacity
        then (some a.top, { a with top := a.top + size }) else (none, a) := by
  have hw : wrap32 (a.top + size) = a.top + size := by
    unfold wrap32
    unfold INT_MIN at hlo
    unfold INT_MAX at hhi
    omega
  unfold LinearAllocator.alloc
  rw [hw]
  cases hb : a.buffer
  · simp
  · by_cases hc : a.top + size ≤ a.capacity
    · simp [hc, not_lt.mpr hc]
    · simp [hc, not_le.mp hc]

/-- The blocks of a run of `alloc` calls lie between the old `top` and the capacity, in
increasing order without overlap. -/
theorem allocAll_blocks (sizes : List Int) (a : LinearAllocator) (h0 : 0 ≤ a.top)
    (hcap : a.top ≤ max a.capacity 0)
    (hs : ∀ size ∈ sizes, 0 ≤ size ∧ size ≤ INT_MAX ∧ a.capacity + size ≤ INT_MAX) :
    (∀ b ∈ (a.allocAll sizes).1, a.top ≤ b.1 ∧ 0 ≤ b.2 ∧ b.1 + b.2 ≤ a.capacity) ∧
    List.Pairwise (fun b1 b2 => b1.1 + b1.2 ≤ b2.1) (a.allocAll sizes).1 := by
  induction sizes generalizing a with
  | nil => simp [LinearAllocator.allocAll]
  | cons size rest ih =>
    obtain ⟨hs0, hs1, hs2⟩ := hs size (List.mem_cons_self _ _)
    have hrest : ∀ sz ∈ rest, 0 ≤ sz ∧ sz ≤ INT_MAX ∧ a.capacity + sz ≤ INT_MAX :=
      fun sz hsz => hs sz (List.mem_cons_of_mem _ hsz)
    have hsum : a.top + size ≤ INT_MAX := by
      rcases le_max_iff.mp hcap with h | h
      · omega
      · omega
    have hlo : INT_MIN ≤ a.top + size := by
      unfold INT_MIN
      omega
    have he := alloc_eq a size hlo hsum
    by_cases hok : a.buffer = true ∧ a.top + size ≤ a.capacity
    · rw [if_pos hok] at he
      obtain ⟨ih1, ih2⟩ := ih { a with top := a.top + size } (by simp; omega)
        (by simp; exact Or.inl hok.2) hrest
      simp only [LinearAllocator.allocAll, he]
      constructor
      · intro b hb
        rcases List.mem_cons.mp hb with h | h
        · subst h
          exact ⟨le_refl _, hs0, hok.2⟩
        · obtain ⟨g1, g2, g3⟩ := ih1 b h
          simp only at g1 g3
          exact ⟨by omega, g2, g3⟩
      · refine List.pairwise_cons.mpr ⟨?_, ih2⟩
        intro b hb
        exact (ih1 b hb).1
    · rw [if_neg hok] at he
      simp only [LinearAllocator.allocAll, he]
      exact ih a h0 hcap hrest

/-- C18: `alloc(size)` with `size ≥ 0` (and the `int` sum `top + size` representable)
succeeds exactly when a buffer exists and `top + size ≤ capacity`; on success it
returns the block starting at the old `top` and advances `top` by `size`; on failure it
returns null and leaves the allocator unchanged. Hence the blocks handed out by the
`alloc` calls after a reset (`top = 0`) are pairwise disjoint and lie inside
`[0, capacity)`. -/
theorem alloc_spec :
    (∀ (a : LinearAllocator) (size : Int), 0 ≤ size → INT_MIN ≤ a.top →
      a.top + size ≤ INT_MAX →
      (((a.alloc size).1.isSome = true ↔ a.buffer = true ∧ a.top + size ≤ a.capacity) ∧
        ((a.alloc size).1.isSome = true →
          (a.alloc size).1 = some a.top ∧ (a.alloc size).2 = { a with top := a.top + size }) ∧
        ((a.alloc size).1.isSome = false →
          (a.alloc size).1 = none ∧ (a.alloc size).2 = a))) ∧
    (∀ (a : LinearAllocator) (sizes : List Int), a.top = 0 →
      (∀ size ∈ sizes, 0 ≤ size ∧ size ≤ INT_MAX ∧ a.capacity + size ≤ INT_MAX) →
      ((∀ b ∈ (a.allocAll sizes).1, 0 ≤ b.1 ∧ 0 ≤ b.2 ∧ b.1 + b.2 ≤ a.capacity) ∧
        List.Pairwise (fun b1 b2 => b1.1 + b1.2 ≤ b2.1) (a.allocAll sizes).1)) := by
  constructor
  · intro a size h0 hlo hhi
    have hlo' : INT_MIN ≤ a.top + size := by omega
    rw [alloc_eq a size hlo' hhi]
    by_cases hok : a.buffer = true ∧ a.top + size ≤ a.capacity
    · simp [hok]
    · simp [hok]
  · intro a sizes htop hs
    obtain ⟨h1, h2⟩ := allocAll_blocks sizes a (by omega) (by rw [htop]; exact le_max_right _ _) hs
    refine ⟨fun b hb => ?_, h2⟩
    obtain ⟨g1, g2, g3⟩ := h1 b hb
    exact ⟨by omega, g2, g3⟩

/-- Witness for C18: the allocator of a new tile cache hands out 100 bytes at offset 0,
then 200 bytes at offset 100, and refuses 32000 more. -/
theorem alloc_spec_witness :
    ((LinearAllocator.new okCollab 32000).alloc 100).1 = some 0 ∧
    (((LinearAllocator.new okCollab 32000).alloc 100).2.alloc 200).1 = some 100 ∧
    ((((LinearAllocator.new okCollab 32000).alloc 100).2.alloc 200).2.alloc 32000).1 = none ∧
    List.Pairwise (fun b1 b2 => b1.1 + b1.2 ≤ b2.1)
      ((LinearAllocator.new okCollab 32000).allocAll [100, 200, 32000]).1 := by
  refine ⟨by decide, by decide, by decide, ?_⟩
  exact (alloc_spec.2 (LinearAllocator.new okCollab 32000) [100, 200, 32000] rfl (by decide)).2

/-- The trace after one more call. -/
theorem trace_snoc (a : LinearAllocator) (ops : List AllocOp) (op : AllocOp) :
    a.trace (ops ++ [op])
      = ((a.trace ops).1.step op, (a.trace ops).2 ++ [((a.trace ops).1.step op).top]) := by
  simp [LinearAllocator.trace, List.foldl_append]

/-- One call never lowers `high`. -/
theorem step_high_le (a : LinearAllocator) (op : AllocOp) : a.high ≤ (a.step op).high := by
  cases op with
  | alloc size =>
    simp only [LinearAllocator.step, LinearAllocator.alloc]
    split_ifs <;> simp
  | free ptr => simp [LinearAllocator.step, LinearAllocator.free]
  | reset =>
    simp only [LinearAllocator.step, LinearAllocator.reset, dtMax]
    split_ifs <;> omega

/-- Along every sequence of calls on a newly constructed allocator, `top` stays between
0 and the capacity, and the larger of `high` and `top` is the largest value `top` has
had. -/
theorem trace_inv (env : Collab) (cap : Int) (ops : List AllocOp)
    (hs : ∀ size, AllocOp.alloc size ∈ ops → 0 ≤ size ∧ size ≤ INT_MAX ∧ cap + size ≤ INT_MAX) :
    ((LinearAllocator.new env cap).trace ops).1.capacity = cap ∧
    0 ≤ ((LinearAllocator.new env cap).trace ops).1.top ∧
    ((LinearAllocator.new env cap).trace ops).1.top ≤ max cap 0 ∧
    (∀ t ∈ ((LinearAllocator.new env cap).trace ops).2,
      t ≤ max ((LinearAllocator.new env cap).trace ops).1.high
        ((LinearAllocator.new env cap).trace ops).1.top) ∧
    max ((LinearAllocator.new env cap).trace ops).1.high
        ((LinearAllocator.new env cap).trace ops).1.top
      ∈ ((LinearAllocator.new env cap).trace ops).2 := by
  induction ops using List.reverseRecOn with
  | nil => simp [LinearAllocator.trace, LinearAllocator.new]
  | append_singleton ops op ih =>
    obtain ⟨i1, i2, i3, i4, i5⟩ := ih (fun size h => hs size (List.mem_append_left _ h))
    rw [trace_snoc]
    generalize ((LinearAllocator.new env cap).trace ops).1 = a at i1 i2 i3 i4 i5 ⊢
    generalize ((LinearAllocator.new env cap).trace ops).2 = tops at i4 i5 ⊢
    cases op with
    | alloc size =>
      obtain ⟨s0, s1, s2⟩ := hs size (by simp)
      have hsum : a.top + size ≤ INT_MAX := by
        rcases le_max_iff.mp i3 with h | h <;> omega
      have hlo : INT_MIN ≤ a.top + size := by
        unfold INT_MIN
        omega
      simp only [LinearAllocator.step]
      rw [alloc_eq a size hlo hsum]
      by_cases hok : a.buffer = true ∧ a.top + size ≤ a.capacity
      · rw [if_pos hok]
        simp only
        refine ⟨i1, by omega, le_max_iff.mpr (Or.inl (by omega)), ?_, ?_⟩
        · intro t ht
          rcases List.mem_append.mp ht with h | h
          · have := i4 t h
            rcases le_max_iff.mp this with g | g
            · exact le_max_iff.mpr (Or.inl g)
            · exact le_max_iff.mpr (Or.inr (by omega))
          · simp at h
            subst h
            exact le_max_right _ _
        · rcases le_total a.high (a.top + size) with g | g
          · rw [max_eq_right g]
            simp
          · rw [max_eq_left g]
            have : max a.high a.top = a.high := max_eq_left (by omega)
            rw [this] at i5
            exact List.mem_append_left _ i5
      · rw [if_neg hok]
        simp only
        refine ⟨i1, i2, i3, ?_, List.mem_append_left _ i5⟩
        intro t ht
        rcases List.mem_append.mp ht with h | h
        · exact i4 t h
        · simp at h
          subst h
          exact le_max_right _ _
    | free ptr =>
      simp only [LinearAllocator.step, LinearAllocator.free]
      refine ⟨i1, i2, i3, ?_, List.mem_append_left _ i5⟩
      intro t ht
      rcases List.mem_append.mp ht with h | h
      · exact i4 t h
      · simp at h
        subst h
        exact le_max_right _ _
    | reset =>
      have hd : dtMax a.high a.top = max a.high a.top := by
        unfold dtMax
        split_ifs with h
        · exact (max_eq_left (by omega)).symm
        · exact (max_eq_right (by omega)).symm
      simp only [LinearAllocator.step, LinearAllocator.reset, hd]
      have hnn : 0 ≤ max a.high a.top := le_max_iff.mpr (Or.inr i2)
      refine ⟨i1, le_refl _, le_max_right _ _, ?_, ?_⟩
      · intro t ht
        rw [max_eq_left hnn]
        rcases List.mem_append.mp ht with h | h
        · exact i4 t h
        · simp at h
          subst h
          exact hnn
      · rw [max_eq_left hnn]
        exact List.mem_append_left _ i5

/-- C19: high-water mark. After any sequence of `alloc` (sizes non-negative, the `int`
sums representable), `free` and `reset` calls on a newly constructed `LinearAllocator`,
immediately after a further `reset` the member `top` is 0 and `high` is the largest
value `top` has had since construction; no call lowers `high`; and `free` changes
nothing. -/
theorem reset_high_water :
    (∀ (env : Collab) (cap : Int) (ops : List AllocOp),
      (∀ size, AllocOp.alloc size ∈ ops → 0 ≤ size ∧ size ≤ INT_MAX ∧ cap + size ≤ INT_MAX) →
      (((LinearAllocator.new env cap).trace ops).1.reset.top = 0 ∧
        ((LinearAllocator.new env cap).trace ops).1.reset.high
          ∈ ((LinearAllocator.new env cap).trace ops).2 ∧
        ∀ t ∈ ((LinearAllocator.new env cap).trace ops).2,
          t ≤ ((LinearAllocator.new env cap).trace ops).1.reset.high)) ∧
    (∀ (a : LinearAllocator) (op : AllocOp), a.high ≤ (a.step op).high) ∧
    (∀ (a : LinearAllocator) (ptr : Option Int), a.free ptr = a) := by
  refine ⟨?_, step_high_le, fun _ _ => rfl⟩
  intro env cap ops hs
  obtain ⟨-, -, -, i4, i5⟩ := trace_inv env cap ops hs
  have hd : ∀ a : LinearAllocator, a.reset.high = max a.high a.top := by
    intro a
    simp only [LinearAllocator.reset, dtMax]
    split_ifs with h
    · exact (max_eq_left (by omega)).symm
    · exact (max_eq_right (by omega)).symm
  rw [hd]
  exact ⟨rfl, i5, i4⟩

/-- Witness for C19: allocate 100 bytes, reset, allocate 40 bytes, free; after the next
reset `high` is 100. -/
theorem reset_high_water_witness :
    ((LinearAllocator.new okCollab 32000).trace
        [AllocOp.alloc 100, AllocOp.reset, AllocOp.alloc 40, AllocOp.free (some 0)]).2
      = [0, 100, 0, 40, 40] ∧
    ((LinearAllocator.new okCollab 32000).trace
        [AllocOp.alloc 100, AllocOp.reset, AllocOp.alloc 40, AllocOp.free (some 0)]).1.reset.high
      = 100 ∧
    ∀ t ∈ ((LinearAllocator.new okCollab 32000).trace
        [AllocOp.alloc 100, AllocOp.reset, AllocOp.alloc 40, AllocOp.free (some 0)]).2,
      t ≤ ((LinearAllocator.new okCollab 32000).trace
        [AllocOp.alloc 100, AllocOp.reset, AllocOp.alloc 40, AllocOp.free (some 0)]).1.reset.high :=
  ⟨by decide, by decide,
    (reset_high_water.1 okCollab 32000
      [AllocOp.alloc 100, AllocOp.reset, AllocOp.alloc 40, AllocOp.free (some 0)]
      (by
        intro size h
        simp only [List.mem_cons, AllocOp.alloc.injEq, List.mem_singleton, List.not_mem_nil,
          or_false, reduceCtorEq, false_or] at h
        rcases h with rfl | rfl <;> decide)).2.2⟩

/-- The loop of `MeshProcess::process` applies the loop body to the entries `i .. i+n-1`
and leaves every other entry as it was. -/
theorem processLoop_spec (k : PolyConsts) (n : Nat) :
    ∀ (i : Nat) (polyAreas polyFlags : List Nat),
      i + n ≤ polyAreas.length → i + n ≤ polyFlags.length →
      ∃ (as fs : List Nat),
        MeshProcess.processLoop k n i polyAreas polyFlags = some (as, fs) ∧
        as.length = polyAreas.length ∧ fs.length = polyFlags.length ∧
        (∀ j, i ≤ j → j < i + n → ∃ (a f : Nat),
          polyAreas[j]? = some a ∧ polyFlags[j]? = some f ∧
          as[j]? = some (MeshProcess.processPoly k a f).1 ∧
          fs[j]? = some (MeshProcess.processPoly k a f).2) ∧
        (∀ j, ¬ (i ≤ j ∧ j < i + n) → as[j]? = polyAreas[j]? ∧ fs[j]? = polyFlags[j]?) := by
  induction n with
  | zero =>
    intro i polyAreas polyFlags _ _
    refine ⟨polyAreas, polyFlags, rfl, rfl, rfl, ?_, fun _ _ => ⟨rfl, rfl⟩⟩
    intro j h1 h2
    omega
  | succ n ih =>
    intro i polyAreas polyFlags ha hf
    have hia : i < polyAreas.length := by omega
    have hif : i < polyFlags.length := by omega
    obtain ⟨as, fs, hrun, hla, hlf, hin, hout⟩ :=
      ih (i + 1) (polyAreas.set i (MeshProcess.processPoly k polyAreas[i] polyFlags[i]).1)
        (polyFlags.set i (MeshProcess.processPoly k polyAreas[i] polyFlags[i]).2)
        (by rw [List.length_set]; omega) (by rw [List.length_set]; omega)
    refine ⟨as, fs, ?_, ?_, ?_, ?_, ?_⟩
    · rw [MeshProcess.processLoop, List.getElem?_eq_getElem hia, List.getElem?_eq_getElem hif]
      exact hrun
    · rw [hla, List.length_set]
    · rw [hlf, List.length_set]
    · intro j h1 h2
      rcases Nat.eq_or_lt_of_le h1 with h | h
      · subst h
        obtain ⟨e1, e2⟩ := hout i (by omega)
        refine ⟨polyAreas[i], polyFlags[i], List.getElem?_eq_getElem hia,
          List.getElem?_eq_getElem hif, ?_, ?_⟩
        · rw [e1, List.getElem?_set_self hia]
        · rw [e2, List.getElem?_set_self hif]
      · obtain ⟨a, f, e1, e2, e3, e4⟩ := hin j (by omega) (by omega)
        rw [List.getElem?_set_ne (by omega)] at e1 e2
        exact ⟨a, f, e1, e2, e3, e4⟩
    · intro j hj
      obtain ⟨e1, e2⟩ := hout j (by omega)
      rw [List.getElem?_set_ne (by omega)] at e1 e2
      exact ⟨e1, e2⟩

/-- C17: `MeshProcess::process`, for arrays holding at least `polyCount` entries and
constants that fit their storage types with the five area constants told apart as in
the code's cascade: for every index below `polyCount` the area becomes `POLYAREA_GRASS`
when it was `DT_TILECACHE_WALKABLE_AREA` and is otherwise kept; the flags then get
`POLYFLAGS_WALK` ORed in when the resulting area is GRASS, SAND or ROAD,
`POLYFLAGS_FLOAT` when it is WATER, `POLYFLAGS_WALK | POLYFLAGS_ALL_PLAYERS` when it is
GATE, and are kept for any other area; entries from index `polyCount` on are
untouched. -/
theorem process_spec (k : PolyConsts) (polyCount : Int) (polyAreas polyFlags : List Nat)
    (hgrass : k.POLYAREA_GRASS < 256)
    (hwalk : k.POLYFLAGS_WALK < 65536) (hfloat : k.POLYFLAGS_FLOAT < 65536)
    (hall : k.POLYFLAGS_ALL_PLAYERS < 65536)
    (hwater : k.POLYAREA_WATER ≠ k.POLYAREA_GRASS ∧ k.POLYAREA_WATER ≠ k.POLYAREA_SAND ∧
      k.POLYAREA_WATER ≠ k.POLYAREA_ROAD)
    (hgate : k.POLYAREA_GATE ≠ k.POLYAREA_GRASS ∧ k.POLYAREA_GATE ≠ k.POLYAREA_SAND ∧
      k.POLYAREA_GATE ≠ k.POLYAREA_ROAD ∧ k.POLYAREA_GATE ≠ k.POLYAREA_WATER)
    (hflags : ∀ f ∈ polyFlags, f < 65536)
    (hna : polyCount ≤ polyAreas.length) (hnf : polyCount ≤ polyFlags.length) :
    ∃ (as fs : List Nat),
      MeshProcess.process k polyCount polyAreas polyFlags = some (as, fs) ∧
      as.length = polyAreas.length ∧ fs.length = polyFlags.length ∧
      (∀ i : Nat, (i : Int) < polyCount → ∃ (a f a' f' : Nat),
        polyAreas[i]? = some a ∧ polyFlags[i]? = some f ∧
        as[i]? = some a' ∧ fs[i]? = some f' ∧
        a' = (if a = k.DT_TILECACHE_WALKABLE_AREA then k.POLYAREA_GRASS else a) ∧
        (a' = k.POLYAREA_GRASS ∨ a' = k.POLYAREA_SAND ∨ a' = k.POLYAREA_ROAD →
          f' = f ||| k.POLYFLAGS_WALK) ∧
        (a' = k.POLYAREA_WATER → f' = f ||| k.POLYFLAGS_FLOAT) ∧
        (a' = k.POLYAREA_GATE → f' = f ||| (k.POLYFLAGS_WALK ||| k.POLYFLAGS_ALL_PLAYERS)) ∧
        (a' ≠ k.POLYAREA_GRASS → a' ≠ k.POLYAREA_SAND → a' ≠ k.POLYAREA_ROAD →
          a' ≠ k.POLYAREA_WATER → a' ≠ k.POLYAREA_GATE → f' = f)) ∧
      (∀ i : Nat, polyCount ≤ (i : Int) → as[i]? = polyAreas[i]? ∧ fs[i]? = polyFlags[i]?) := by
  obtain ⟨as, fs, hrun, hla, hlf, hin, hout⟩ :=
    processLoop_spec k polyCount.toNat 0 polyAreas polyFlags (by omega) (by omega)
  refine ⟨as, fs, hrun, hla, hlf, ?_, ?_⟩
  · intro i hi
    obtain ⟨a, f, e1, e2, e3, e4⟩ := hin i (by omega) (by omega)
    have hf : f < 2 ^ 16 := hflags f (List.mem_iff_getElem?.mpr ⟨i, e2⟩)
    have hw : k.POLYFLAGS_WALK < 2 ^ 16 := hwalk
    have hfl : k.POLYFLAGS_FLOAT < 2 ^ 16 := hfloat
    have hal : k.POLYFLAGS_ALL_PLAYERS < 2 ^ 16 := hall
    have m1 : (f ||| k.POLYFLAGS_WALK) % 65536 = f ||| k.POLYFLAGS_WALK :=
      Nat.mod_eq_of_lt (Nat.or_lt_two_pow hf hw)
    have m2 : (f ||| k.POLYFLAGS_FLOAT) % 65536 = f ||| k.POLYFLAGS_FLOAT :=
      Nat.mod_eq_of_lt (Nat.or_lt_two_pow hf hfl)
    have m3 : (f ||| k.POLYFLAGS_WALK ||| k.POLYFLAGS_ALL_PLAYERS) % 65536
        = f ||| (k.POLYFLAGS_WALK ||| k.POLYFLAGS_ALL_PLAYERS) := by
      rw [Nat.mod_eq_of_lt (Nat.or_lt_two_pow (Nat.or_lt_two_pow hf hw) hal), Nat.or_assoc]
    refine ⟨a, f, _, _, e1, e2, e3, e4, ?_⟩
    obtain ⟨w1, w2, w3⟩ := hwater
    obtain ⟨g1, g2, g3, g4⟩ := hgate
    have w1s := Ne.symm w1
    have w2s := Ne.symm w2
    have w3s := Ne.symm w3
    have g1s := Ne.symm g1
    have g2s := Ne.symm g2
    have g3s := Ne.symm g3
    have g4s := Ne.symm g4
    simp only [MeshProcess.processPoly, Nat.mod_eq_of_lt hgrass, m1, m2]
    generalize (if a = k.DT_TILECACHE_WALKABLE_AREA then k.POLYAREA_GRASS else a) = b
    by_cases c1 : b = k.POLYAREA_GRASS ∨ b = k.POLYAREA_SAND ∨ b = k.POLYAREA_ROAD
    · rw [if_pos c1]
      refine ⟨rfl, fun _ => rfl, ?_, ?_, ?_⟩
      · intro c
        rcases c1 with d | d | d <;> omega
      · intro c
        rcases c1 with d | d | d <;> omega
      · intro n1 n2 n3
        rcases c1 with d | d | d <;> omega
    · rw [if_neg c1]
      by_cases c2 : b = k.POLYAREA_WATER
      · rw [if_pos c2]
        exact ⟨rfl, fun c => absurd c c1, fun _ => rfl, fun c => absurd (c2.symm.trans c) g4s,
          fun _ _ _ n4 => absurd c2 n4⟩
      · rw [if_neg c2]
        by_cases c3 : b = k.POLYAREA_GATE
        · rw [if_pos c3]
          exact ⟨rfl, fun c => absurd c c1, fun c => absurd c c2, fun _ => m3,
            fun _ _ _ _ n5 => absurd c3 n5⟩
        · rw [if_neg c3]
          exact ⟨rfl, fun c => absurd c c1, fun c => absurd c c2, fun c => absurd c c3,
            fun _ _ _ _ _ => rfl⟩
  · intro i hi
    exact hout i (by omega)

/-- Witness for C17: three polygons processed out of four entries; the walkable area
becomes grass and may be walked, water may be floated on, the gate gets both flags and
the fourth entry is untouched. -/
theorem process_spec_witness :
    MeshProcess.process sampleConsts 3 [63, 1, 4, 63] [0, 0, 8, 5]
      = some ([0, 1, 4, 63], [1, 2, 265, 5]) ∧
    ∃ (as fs : List Nat),
      MeshProcess.process sampleConsts 3 [63, 1, 4, 63] [0, 0, 8, 5] = some (as, fs) ∧
      as.length = 4 ∧ fs.length = 4 ∧
      (∀ i : Nat, (3 : Int) ≤ (i : Int) →
        as[i]? = [63, 1, 4, 63][i]? ∧ fs[i]? = [0, 0, 8, 5][i]?) := by
  refine ⟨by decide, ?_⟩
  obtain ⟨as, fs, h1, h2, h3, -, h5⟩ :=
    process_spec sampleConsts 3 [63, 1, 4, 63] [0, 0, 8, 5] (by decide) (by decide) (by decide)
      (by decide) (by decide) (by decide) (by decide) (by decide) (by decide)
  exact ⟨as, fs, h1, h2, h3, h5⟩

/-- The `rcMin` of the Recast headers is the minimum. -/
theorem rcMin_eq_min (a b : Int) : rcMin a b = min a b := by
  unfold rcMin
  split_ifs with h
  · exact (min_eq_left (le_of_lt h)).symm
  · exact (min_eq_right (not_lt.mp h)).symm

/-- The serialisation loop yields one tile per layer. -/
theorem buildLayerTiles_length (env : Collab) (tx ty : Int) (ls : List rcHeightfieldLayer) :
    ∀ (i : Int) (tiles : List TileCacheData),
      buildLayerTiles env tx ty i ls = some tiles → tiles.length = ls.length := by
  induction ls with
  | nil =>
    intro i tiles h
    simp only [buildLayerTiles, Option.some.injEq] at h
    subst h
    rfl
  | cons layer rest ih =>
    intro i tiles h
    simp only [buildLayerTiles] at h
    split at h
    · exact absurd h (by simp)
    · split at h
      · exact absurd h (by simp)
      · rename_i tile _ tiles' hrest
        simp only [Option.some.injEq] at h
        rw [← h, List.length_cons, List.length_cons, ih _ _ hrest]

/-- The `j`-th tile of the serialisation loop is built from the `j`-th layer, with
layer index `i + j`. -/
theorem buildLayerTiles_get (env : Collab) (tx ty : Int) (ls : List rcHeightfieldLayer) :
    ∀ (i : Int) (tiles : List TileCacheData),
      buildLayerTiles env tx ty i ls = some tiles →
      ∀ (j : Nat) (layer : rcHeightfieldLayer), ls[j]? = some layer →
        ∃ tile, tiles[j]? = some tile ∧
          env.dtBuildTileCacheLayer (layerHeaderOf tx ty (i + j) layer) layer = some tile := by
  induction ls with
  | nil =>
    intro i tiles _ j layer hj
    simp at hj
  | cons l rest ih =>
    intro i tiles h j layer hj
    simp only [buildLayerTiles] at h
    split at h
    · exact absurd h (by simp)
    · split at h
      · exact absurd h (by simp)
      · rename_i _ tile htile _ tiles' hrest
        simp only [Option.some.injEq] at h
        subst h
        cases j with
        | zero =>
          simp only [List.getElem?_cons_zero, Option.some.injEq] at hj
          subst hj
          exact ⟨tile, by simp, by simpa using htile⟩
        | succ j =>
          simp only [List.getElem?_cons_succ] at hj
          obtain ⟨t, h1, h2⟩ := ih _ _ hrest j layer hj
          refine ⟨t, by simpa using h1, ?_⟩
          rw [← h2]
          congr 2
          push_cast
          ring

/-- The serialisation loop completes when every layer it is given serialises. -/
theorem buildLayerTiles_ok (env : Collab) (tx ty : Int) (ls : List rcHeightfieldLayer) :
    ∀ (i : Int),
      (∀ (j : Nat) (layer : rcHeightfieldLayer), ls[j]? = some layer →
        (env.dtBuildTileCacheLayer (layerHeaderOf tx ty (i + j) layer) layer).isSome = true) →
      ∃ tiles, buildLayerTiles env tx ty i ls = some tiles := by
  induction ls with
  | nil =>
    intro i _
    exact ⟨[], rfl⟩
  | cons l rest ih =>
    intro i h
    have h0 := h 0 l (by simp)
    simp only [Nat.cast_zero, add_zero] at h0
    obtain ⟨tile, htile⟩ := Option.isSome_iff_exists.mp h0
    obtain ⟨tiles, hrest⟩ := ih (i + 1) (by
      intro j layer hj
      have := h (j + 1) layer (by simpa using hj)
      rw [← this]
      congr 3
      push_cast
      ring)
    exact ⟨tile :: tiles, by simp only [buildLayerTiles, htile, hrest]⟩

/-- The number of tiles `rasterizeTileLayers` returns never exceeds the array size nor
`MAX_LAYERS`, for an array size that is not negative. -/
theorem rasterizeTileLayers_le (env : Collab) (s : OgreDetourTileCache)
    (geom : Option InputGeom) (tx ty maxTiles : Int) (hmax : 0 ≤ maxTiles) :
    ((rasterizeTileLayers env s geom tx ty maxTiles).length : Int) ≤ min maxTiles MAX_LAYERS := by
  have h0 : (([] : List TileCacheData).length : Int) ≤ min maxTiles MAX_LAYERS := by
    simp only [List.length_nil, Nat.cast_zero]
    exact le_min hmax (by decide)
  unfold rasterizeTileLayers
  dsimp only
  repeat' split
  all_goals first
    | exact h0
    | skip
  rename_i layers _ rcTiles hb
  have hl := buildLayerTiles_length env tx ty _ _ _ hb
  rw [List.length_take] at hl
  rw [List.length_take, rcMin_eq_min]
  rw [rcMin_eq_min] at hl
  unfold MAX_LAYERS at hl ⊢
  omega

/-- When the Recast steps before the serialisation loop succeed and every layer the
loop visits serialises, `rasterizeTileLayers` returns the leading `maxTiles` tiles of the
loop's result. -/
theorem rasterizeTileLayers_built (env : Collab) (s : OgreDetourTileCache) (g : InputGeom)
    (tx ty maxTiles : Int) (layers : List rcHeightfieldLayer)
    (he : g.isEmpty = false) (hc : g.chunkyMesh = true)
    (h1 : env.rcAllocHeightfield = true)
    (h2 : env.rcCreateHeightfield (tileConfig s tx ty) = true)
    (h3 : env.rcGetChunksOverlappingRect g
      ((tileConfig s tx ty).bmin.x, (tileConfig s tx ty).bmin.z)
      ((tileConfig s tx ty).bmax.x, (tileConfig s tx ty).bmax.z) ≠ 0)
    (h4 : env.rcAllocCompactHeightfield = true)
    (h5 : env.rcBuildCompactHeightfield g (tileConfig s tx ty) = true)
    (h6 : env.rcErodeWalkableArea g (tileConfig s tx ty) = true)
    (h7 : env.rcAllocHeightfieldLayerSet = true)
    (h8 : env.rcBuildHeightfieldLayers g (tileConfig s tx ty) = some layers)
    (hser : ∀ (i : Nat) (layer : rcHeightfieldLayer), layers[i]? = some layer →
      (i : Int) < MAX_LAYERS →
      (env.dtBuildTileCacheLayer (layerHeaderOf tx ty i layer) layer).isSome = true) :
    ∃ rcTiles,
      buildLayerTiles env tx ty 0 (layers.take (rcMin layers.length MAX_LAYERS).toNat)
        = some rcTiles ∧
      rasterizeTileLayers env s (some g) tx ty maxTiles
        = rcTiles.take (rcMin rcTiles.length maxTiles).toNat := by
  obtain ⟨rcTiles, hb⟩ := buildLayerTiles_ok env tx ty
    (layers.take (rcMin layers.length MAX_LAYERS).toNat) 0 (by
      intro j layer hj
      rw [List.getElem?_take] at hj
      split_ifs at hj with hlt
      rw [zero_add]
      refine hser j layer hj ?_
      rw [rcMin_eq_min] at hlt
      omega)
  refine ⟨rcTiles, hb, ?_⟩
  simp only [rasterizeTileLayers, he, hc, h1, h2, h3, h4, h5, h6, h7, h8, hb, Bool.not_true,
    Bool.false_eq_true, if_false]

/-- C20: for an array size `maxTiles` that is not negative, `rasterizeTileLayers` returns
at most `min(maxTiles, MAX_LAYERS)` tiles on every input; and when the Recast steps
produce the layer set `layers` and every layer below the cap serialises, it returns
exactly `min(nlayers, MAX_LAYERS, maxTiles)` tiles, the `i`-th being the block built from
layer `i` with a header carrying `(tx, ty)` and layer index `i`. Layers beyond the cap
are not visited and cause no failure. -/
theorem rasterizeTileLayers_layers (env : Collab) (s : OgreDetourTileCache)
    (geom : Option InputGeom) (tx ty maxTiles : Int) (hmax : 0 ≤ maxTiles) :
    ((rasterizeTileLayers env s geom tx ty maxTiles).length : Int) ≤ min maxTiles MAX_LAYERS ∧
    ∀ (g : InputGeom) (layers : List rcHeightfieldLayer),
      geom = some g → g.isEmpty = false → g.chunkyMesh = true →
      env.rcAllocHeightfield = true →
      env.rcCreateHeightfield (tileConfig s tx ty) = true →
      env.rcGetChunksOverlappingRect g
        ((tileConfig s tx ty).bmin.x, (tileConfig s tx ty).bmin.z)
        ((tileConfig s tx ty).bmax.x, (tileConfig s tx ty).bmax.z) ≠ 0 →
      env.rcAllocCompactHeightfield = true →
      env.rcBuildCompactHeightfield g (tileConfig s tx ty) = true →
      env.rcErodeWalkableArea g (tileConfig s tx ty) = true →
      env.rcAllocHeightfieldLayerSet = true →
      env.rcBuildHeightfieldLayers g (tileConfig s tx ty) = some layers →
      (∀ (i : Nat) (layer : rcHeightfieldLayer), layers[i]? = some layer →
        (i : Int) < MAX_LAYERS →
        (env.dtBuildTileCacheLayer (layerHeaderOf tx ty i layer) layer).isSome = true) →
      ((rasterizeTileLayers env s geom tx ty maxTiles).length : Int)
        = min (min (layers.length : Int) MAX_LAYERS) maxTiles ∧
      ∀ (i : Nat), i < (rasterizeTileLayers env s geom tx ty maxTiles).length →
        ∃ (layer : rcHeightfieldLayer) (tile : TileCacheData),
          layers[i]? = some layer ∧
          (rasterizeTileLayers env s geom tx ty maxTiles)[i]? = some tile ∧
          env.dtBuildTileCacheLayer (layerHeaderOf tx ty i layer) layer = some tile ∧
          (layerHeaderOf tx ty i layer).tx = tx ∧ (layerHeaderOf tx ty i layer).ty = ty ∧
          (layerHeaderOf tx ty i layer).tlayer = i := by
  refine ⟨rasterizeTileLayers_le env s geom tx ty maxTiles hmax, ?_⟩
  intro g layers hg he hc h1 h2 h3 h4 h5 h6 h7 h8 hser
  subst hg
  obtain ⟨rcTiles, hb, hr⟩ :=
    rasterizeTileLayers_built env s g tx ty maxTiles layers he hc h1 h2 h3 h4 h5 h6 h7 h8 hser
  have hl := buildLayerTiles_length env tx ty _ _ _ hb
  rw [List.length_take, rcMin_eq_min] at hl
  rw [hr, rcMin_eq_min]
  constructor
  · rw [List.length_take]
    unfold MAX_LAYERS at hl ⊢
    omega
  · intro i hi
    rw [List.length_take] at hi
    have hil : i < layers.length := by omega
    have hik : i < (min (layers.length : Int) MAX_LAYERS).toNat := by omega
    obtain ⟨tile, t1, t2⟩ := buildLayerTiles_get env tx ty _ 0 rcTiles hb i layers[i] (by
      rw [rcMin_eq_min, List.getElem?_take, if_pos hik, List.getElem?_eq_getElem hil])
    rw [zero_add] at t2
    refine ⟨layers[i], tile, List.getElem?_eq_getElem hil, ?_, t2, rfl, rfl, rfl⟩
    rw [List.getElem?_take, if_pos (by omega), t1]

/-- Witness for C20: a tile with two layers and an array of four entries; one tile is
returned, built from layer 0. -/
theorem rasterizeTileLayers_layers_witness :
    ((rasterizeTileLayers layerCollab (construct layerCollab (sampleRecast 1) 8 48)
        (some (sampleGeom ⟨0, 0, 0⟩ ⟨10, 2, 10⟩)) 2 3 4).length : Int)
      = min (min (([sampleLayer 7, sampleLayer 9] : List rcHeightfieldLayer).length : Int)
          MAX_LAYERS) 4 ∧
    (min (min (([sampleLayer 7, sampleLayer 9] : List rcHeightfieldLayer).length : Int)
          MAX_LAYERS) 4 : Int) = 1 :=
  ⟨((rasterizeTileLayers_layers layerCollab (construct layerCollab (sampleRecast 1) 8 48)
      (some (sampleGeom ⟨0, 0, 0⟩ ⟨10, 2, 10⟩)) 2 3 4 (by decide)).2
      (sampleGeom ⟨0, 0, 0⟩ ⟨10, 2, 10⟩) [sampleLayer 7, sampleLayer 9] rfl (by decide) rfl rfl
      rfl (by decide) rfl rfl rfl rfl rfl (fun _ _ _ _ => rfl)).1, by decide⟩

/-- A rejected `addBoxObstacle` reports failure, writes no reference and leaves the cache
as it was. -/
theorem addBoxObstacle_rejected (env : Collab) (tc : dtTileCache) (shape : ObstacleShape)
    (area_id flags : Nat)
    (h : env.MAX_REQUESTS ≤ tc.m_reqs.length ∨ tc.freeObstacle = none) :
    tc.addBoxObstacle env shape area_id flags = (false, none, tc) := by
  unfold dtTileCache.addBoxObstacle
  by_cases hq : env.MAX_REQUESTS ≤ tc.m_reqs.length
  · rw [if_pos hq]
  · rw [if_neg hq]
    rcases h with h | h
    · exact absurd h hq
    · rw [h]

/-- An accepted `addBoxObstacle` reports `DT_SUCCESS` and writes a non-null reference. -/
theorem addBoxObstacle_accepted (env : Collab) (tc : dtTileCache) (shape : ObstacleShape)
    (area_id flags : Nat)
    (h : ¬ (env.MAX_REQUESTS ≤ tc.m_reqs.length ∨ tc.freeObstacle = none)) :
    (tc.addBoxObstacle env shape area_id flags).1 = true ∧
    ∃ ref, ref ≠ 0 ∧ (tc.addBoxObstacle env shape area_id flags).2.1 = some ref := by
  unfold dtTileCache.addBoxObstacle
  have hq : ¬ env.MAX_REQUESTS ≤ tc.m_reqs.length := fun c => h (Or.inl c)
  rw [if_neg hq]
  cases hf : tc.freeObstacle with
  | none => exact absurd (Or.inr hf) h
  | some i => exact ⟨rfl, i + 1, Nat.succ_ne_zero i, rfl⟩

/-- Writing back the tile cache a state already holds changes nothing. -/
theorem OgreDetourTileCache.tileCache_self (s : OgreDetourTileCache) (tc : dtTileCache)
    (h : s.m_tileCache = some tc) : { s with m_tileCache := some tc } = s := by
  cases s
  simp only at h
  subst h
  rfl

/-- C13: both `AddObstacle` overloads return the null reference 0 and leave the state as
it was when no tile cache exists or when the underlying add request is rejected (request
queue full or obstacle table full). In every case the only members that can differ
afterwards are the tile cache and `TempObstacleAdded`, and the flag is set exactly by a
call whose underlying add returned `DT_SUCCESS`, which is the case when the request is
not rejected; the reference returned is then not null. -/
theorem AddObstacle_spec (env : Collab) (s : OgreDetourTileCache) (min max centre : Vec3)
    (width depth height y_rotation : ℚ) (area_id flags : Nat) :
    (s.m_tileCache = none →
      AddObstacle env s min max area_id flags = (0, s) ∧
      AddObstacleRotated env s centre width depth height y_rotation area_id flags = (0, s)) ∧
    (∀ tc, s.m_tileCache = some tc →
      (env.MAX_REQUESTS ≤ tc.m_reqs.length ∨ tc.freeObstacle = none →
        AddObstacle env s min max area_id flags = (0, s) ∧
        AddObstacleRotated env s centre width depth height y_rotation area_id flags = (0, s)) ∧
      (¬ (env.MAX_REQUESTS ≤ tc.m_reqs.length ∨ tc.freeObstacle = none) →
        (AddObstacle env s min max area_id flags).1 ≠ 0 ∧
        (AddObstacle env s min max area_id flags).2.TempObstacleAdded = true ∧
        (AddObstacleRotated env s centre width depth height y_rotation area_id flags).1 ≠ 0 ∧
        (AddObstacleRotated env s centre width depth height y_rotation area_id
          flags).2.TempObstacleAdded = true) ∧
      (AddObstacle env s min max area_id flags).2
        = { s with
            m_tileCache :=
              some (tc.addBoxObstacle env (ObstacleShape.box min max) area_id flags).2.2
            TempObstacleAdded := s.TempObstacleAdded ||
              (tc.addBoxObstacle env (ObstacleShape.box min max) area_id flags).1 } ∧
      (AddObstacleRotated env s centre width depth height y_rotation area_id flags).2
        = { s with
            m_tileCache :=
              some (tc.addBoxObstacle env
                (ObstacleShape.orientedBox centre ⟨f32 (width / 2), f32 (height / 2), f32 (depth / 2)⟩ y_rotation)
                area_id flags).2.2
            TempObstacleAdded := s.TempObstacleAdded ||
              (tc.addBoxObstacle env
                (ObstacleShape.orientedBox centre ⟨f32 (width / 2), f32 (height / 2), f32 (depth / 2)⟩ y_rotation)
                area_id flags).1 }) := by
  refine ⟨?_, ?_⟩
  · intro h
    simp only [AddObstacle, AddObstacleRotated, h, and_self]
  · intro tc h
    refine ⟨?_, ?_, ?_, ?_⟩
    · intro hrej
      simp only [AddObstacle, AddObstacleRotated, h, addBoxObstacle_rejected env tc _ _ _ hrej,
        Option.getD_none, Bool.false_eq_true, if_false,
        OgreDetourTileCache.tileCache_self s tc h, and_self]
    · intro hacc
      obtain ⟨a1, r1, a2, a3⟩ :=
        addBoxObstacle_accepted env tc (ObstacleShape.box min max) area_id flags hacc
      obtain ⟨b1, r2, b2, b3⟩ :=
        addBoxObstacle_accepted env tc
          (ObstacleShape.orientedBox centre ⟨f32 (width / 2), f32 (height / 2), f32 (depth / 2)⟩ y_rotation)
          area_id flags hacc
      simp only [AddObstacle, AddObstacleRotated, h, a1, a3, b1, b3, if_true, Option.getD_some]
      exact ⟨a2, trivial, b2, trivial⟩
    · simp only [AddObstacle, h]
      split_ifs with hs
      · simp [hs]
      · simp [hs]
    · simp only [AddObstacleRotated, h]
      split_ifs with hs
      · simp [hs]
      · simp [hs]

/-- Witness for C13: with room for two obstacles the first add is accepted, gives
reference 1 and sets the flag; with no room (a table of no slots) it gives 0 and the
state stays as it was. -/
theorem AddObstacle_spec_witness :
    (AddObstacle okCollab obstacleState ⟨0, 0, 0⟩ ⟨1, 1, 1⟩ 5 1).1 ≠ 0 ∧
    (AddObstacle okCollab obstacleState ⟨0, 0, 0⟩ ⟨1, 1, 1⟩ 5 1).2.TempObstacleAdded = true ∧
    AddObstacle okCollab sampleSaved ⟨0, 0, 0⟩ ⟨1, 1, 1⟩ 5 1 = (0, sampleSaved) :=
  ⟨(((AddObstacle_spec okCollab obstacleState ⟨0, 0, 0⟩ ⟨1, 1, 1⟩ ⟨0, 0, 0⟩ 2 2 2 0 5 1).2
      obstacleCache rfl).2.1 (by decide)).1,
    (((AddObstacle_spec okCollab obstacleState ⟨0, 0, 0⟩ ⟨1, 1, 1⟩ ⟨0, 0, 0⟩ 2 2 2 0 5 1).2
      obstacleCache rfl).2.1 (by decide)).2.1,
    (((AddObstacle_spec okCollab sampleSaved ⟨0, 0, 0⟩ ⟨1, 1, 1⟩ ⟨0, 0, 0⟩ 2 2 2 0 5 1).2
      sampleCache rfl).1 (Or.inr (by decide))).1⟩

/-- C14: on a newly constructed `OgreDetourTileCache`, whose tile cache pointer is null,
`AddObstacle` returns the null reference, `handleUpdate` does nothing and `saveAll`
returns false, each leaving the state as it was; `RemoveObstacle` and `getObstacleByRef`
dereference the null tile cache pointer. -/
theorem unbuilt_cache_operations (env : Collab) (recast : OgreRecast) (max_num_obstacles : Nat)
    (tileSize : Int) (ids : FormatIds) (fopenOk until_up_to_date : Bool) (min max centre : Vec3)
    (width depth height y_rotation dt : ℚ) (area_id flags ref : Nat) :
    AddObstacle env (construct env recast max_num_obstacles tileSize) min max area_id flags
      = (0, construct env recast max_num_obstacles tileSize) ∧
    AddObstacleRotated env (construct env recast max_num_obstacles tileSize) centre width depth
        height y_rotation area_id flags
      = (0, construct env recast max_num_obstacles tileSize) ∧
    handleUpdate env (construct env recast max_num_obstacles tileSize) dt until_up_to_date
      = { state := construct env recast max_num_obstacles tileSize, updates := [],
          redraws := [] } ∧
    saveAll ids fopenOk (construct env recast max_num_obstacles tileSize) = some (false, none) ∧
    RemoveObstacle env (construct env recast max_num_obstacles tileSize) ref = none ∧
    getObstacleByRef (construct env recast max_num_obstacles tileSize) ref = none := by
  refine ⟨rfl, rfl, ?_, rfl, rfl, rfl⟩
  unfold handleUpdate
  cases h : (construct env recast max_num_obstacles tileSize).m_recast.m_navMesh <;> rfl

/-- On a cache with an empty queue and no waiting tile, `update` changes nothing and
reports the cache up to date. -/
theorem update_idle (env : Collab) (tc : dtTileCache) (dt : ℚ) (nav : dtNavMesh)
    (hr : tc.m_reqs = []) (hu : tc.m_update = []) :
    tc.update env dt nav = (tc, nav, true) := by
  cases tc
  simp only at hr hu
  subst hr hu
  rfl

/-- The value `update` reports is true exactly when the queue is empty and no tile
waits. -/
theorem update_reports (env : Collab) (tc : dtTileCache) (dt : ℚ) (nav : dtNavMesh) :
    (tc.update env dt nav).2.2 = true ↔
      (tc.update env dt nav).1.m_reqs = [] ∧ (tc.update env dt nav).1.m_update = [] := by
  simp only [dtTileCache.update, Bool.and_eq_true, List.isEmpty_iff]
  tauto

/-- The loop of `handleUpdate` ends after a call of `update` that reported the cache up
to date: the reported values are `false` for every call but the last and `true` for the
last, the result is the one of that many successive calls, and it has an empty queue and
no waiting tile. -/
theorem updateUntilUpToDate_spec (env : Collab) (dt : ℚ) (tc : dtTileCache) (nav : dtNavMesh) :
    (updateUntilUpToDate env dt tc nav).2.2
      = List.replicate ((updateUntilUpToDate env dt tc nav).2.2.length - 1) false ++ [true] ∧
    ((updateUntilUpToDate env dt tc nav).1, (updateUntilUpToDate env dt tc nav).2.1)
      = updateTimes env dt (updateUntilUpToDate env dt tc nav).2.2.length (tc, nav) ∧
    (updateUntilUpToDate env dt tc nav).1.m_reqs = [] ∧
    (updateUntilUpToDate env dt tc nav).1.m_update = [] := by
  induction tc, nav using updateUntilUpToDate.induct env dt with
  | case1 tc nav h =>
    rw [updateUntilUpToDate, dif_pos h]
    exact ⟨rfl, rfl, (update_reports env tc dt nav).mp h⟩
  | case2 tc nav h ih =>
    rw [updateUntilUpToDate, dif_neg h]
    obtain ⟨i1, i2, i3, i4⟩ := ih
    refine ⟨?_, ?_, i3, i4⟩
    · simp only [List.length_cons, Nat.add_sub_cancel]
      conv_lhs => rw [i1]
      have hpos : 0 < (updateUntilUpToDate env dt (dtTileCache.update env tc dt nav).1
          (dtTileCache.update env tc dt nav).2.1).2.2.length := by
        rw [i1]
        simp
      obtain ⟨k, hk⟩ := Nat.exists_eq_succ_of_ne_zero (Nat.pos_iff_ne_zero.mp hpos)
      rw [hk]
      simp [List.replicate_succ]
    · simp only [List.length_cons, updateTimes]
      exact i2

/-- C15: `handleUpdate` does nothing when the nav mesh or the tile cache is absent.
Otherwise with `until_up_to_date = false` it calls the cache's `update` exactly once; with
`until_up_to_date = true` it calls `update` at least once, every call but the last
reported "not up to date" and the last one reported "up to date", and the cache and nav
mesh it leaves are those after that many calls. -/
theorem handleUpdate_calls (env : Collab) (s : OgreDetourTileCache) (dt : ℚ) :
    (s.m_recast.m_navMesh = none ∨ s.m_tileCache = none →
      ∀ until_up_to_date : Bool,
        handleUpdate env s dt until_up_to_date = { state := s, updates := [], redraws := [] }) ∧
    (∀ (nav : dtNavMesh) (tc : dtTileCache),
      s.m_recast.m_navMesh = some nav → s.m_tileCache = some tc →
      ((handleUpdate env s dt false).updates.length = 1 ∧
        (handleUpdate env s dt false).state.m_tileCache = some (updateTimes env dt 1 (tc, nav)).1 ∧
        (handleUpdate env s dt false).state.m_recast.m_navMesh
          = some (updateTimes env dt 1 (tc, nav)).2) ∧
      (1 ≤ (handleUpdate env s dt true).updates.length ∧
        (handleUpdate env s dt true).updates
          = List.replicate ((handleUpdate env s dt true).updates.length - 1) false ++ [true] ∧
        (handleUpdate env s dt true).state.m_tileCache
          = some (updateTimes env dt (handleUpdate env s dt true).updates.length (tc, nav)).1 ∧
        (handleUpdate env s dt true).state.m_recast.m_navMesh
          = some (updateTimes env dt (handleUpdate env s dt true).updates.length (tc, nav)).2)) := by
  refine ⟨?_, ?_⟩
  · intro h until_up_to_date
    unfold handleUpdate
    rcases h with h | h
    · rw [h]
    · rw [h]
      cases s.m_recast.m_navMesh <;> rfl
  · intro nav tc hn ht
    obtain ⟨l1, l2, -, -⟩ := updateUntilUpToDate_spec env dt tc nav
    have hpos : 1 ≤ (updateUntilUpToDate env dt tc nav).2.2.length := by
      rw [l1]
      simp
    have e1 := congrArg Prod.fst l2
    have e2 := congrArg Prod.snd l2
    simp only at e1 e2
    refine ⟨?_, ?_⟩
    · simp only [handleUpdate, hn, ht, Bool.not_false, if_true, updateTimes]
      split_ifs <;> exact ⟨rfl, rfl, rfl⟩
    · simp only [handleUpdate, hn, ht, Bool.not_true, Bool.false_eq_true, if_false]
      split_ifs
      · exact ⟨hpos, l1, congrArg some e1, congrArg some e2⟩
      · exact ⟨hpos, l1, congrArg some e1, congrArg some e2⟩

/-- Witness for C15: an obstacle touching two tiles has been requested; settling takes
two calls of `update`, the first reporting "not up to date". -/
theorem handleUpdate_calls_witness :
    (handleUpdate touchCollab queuedState 0 true).updates = [false, true] ∧
    (handleUpdate touchCollab queuedState 0 false).updates.length = 1 ∧
    (handleUpdate touchCollab queuedState 0 true).updates
      = List.replicate ((handleUpdate touchCollab queuedState 0 true).updates.length - 1) false
        ++ [true] := by
  have h := (handleUpdate_calls touchCollab queuedState 0).2 dtNavMesh.fresh
    (obstacleCache.addBoxObstacle touchCollab (ObstacleShape.box ⟨0, 0, 0⟩ ⟨1, 1, 1⟩) 5 1).2.2
    rfl rfl
  refine ⟨?_, h.1.1, h.2.2.1⟩
  have hn : queuedState.m_recast.m_navMesh = some dtNavMesh.fresh := rfl
  have ht : queuedState.m_tileCache = some (obstacleCache.addBoxObstacle touchCollab
      (ObstacleShape.box ⟨0, 0, 0⟩ ⟨1, 1, 1⟩) 5 1).2.2 := rfl
  have hl : (updateUntilUpToDate touchCollab 0
      (obstacleCache.addBoxObstacle touchCollab (ObstacleShape.box ⟨0, 0, 0⟩ ⟨1, 1, 1⟩) 5 1).2.2
      dtNavMesh.fresh).2.2 = [false, true] := by
    rw [updateUntilUpToDate, dif_neg (by decide)]
    simp only []
    rw [updateUntilUpToDate, dif_pos (by decide)]
  simp only [handleUpdate, hn, ht, Bool.not_true, Bool.false_eq_true, if_false]
  split_ifs <;> exact hl

/-- On a cache with an empty queue and no waiting tile the loop of `handleUpdate` makes
one call of `update` and changes nothing. -/
theorem updateUntilUpToDate_idle (env : Collab) (dt : ℚ) (tc : dtTileCache) (nav : dtNavMesh)
    (hr : tc.m_reqs = []) (hu : tc.m_update = []) :
    updateUntilUpToDate env dt tc nav = (tc, nav, [true]) := by
  rw [updateUntilUpToDate, dif_pos (by rw [update_idle env tc dt nav hr hu])]
  rw [update_idle env tc dt nav hr hu]

/-- Writing back the nav mesh a recast module already holds changes nothing. -/
theorem OgreRecast.navMesh_self (r : OgreRecast) (nav : dtNavMesh) (h : r.m_navMesh = some nav) :
    { r with m_navMesh := some nav } = r := by
  cases r
  simp only at h
  subst h
  rfl

/-- The state `handleUpdate(dt, true)` leaves when nav mesh and tile cache exist: the
cache and nav mesh the loop ends with, and `TempObstacleAdded` cleared when it was set
with a debugger attached. -/
theorem handleUpdate_state (env : Collab) (s : OgreDetourTileCache) (dt : ℚ) (nav : dtNavMesh)
    (tc : dtTileCache) (hn : s.m_recast.m_navMesh = some nav) (ht : s.m_tileCache = some tc) :
    (handleUpdate env s dt true).state
      = { s with
          m_tileCache := some (updateUntilUpToDate env dt tc nav).1
          m_recast := { s.m_recast with m_navMesh := some (updateUntilUpToDate env dt tc nav).2.1 }
          TempObstacleAdded := s.TempObstacleAdded && !s.NavMeshDebugInstance.isSome } ∧
    (handleUpdate env s dt true).updates = (updateUntilUpToDate env dt tc nav).2.2 ∧
    (handleUpdate env s dt true).redraws
      = if s.TempObstacleAdded && s.NavMeshDebugInstance.isSome
        then redrawCalls (updateUntilUpToDate env dt tc nav).1 else [] := by
  simp only [handleUpdate, hn, ht, Bool.not_true, Bool.false_eq_true, if_false]
  by_cases hc : (s.TempObstacleAdded && s.NavMeshDebugInstance.isSome) = true
  · have hflag : (s.TempObstacleAdded && !s.NavMeshDebugInstance.isSome) = false := by
      simp only [Bool.and_eq_true] at hc
      simp [hc.2]
    rw [if_pos hc, if_pos hc, hflag]
    exact ⟨rfl, rfl, rfl⟩
  · have hflag : (s.TempObstacleAdded && !s.NavMeshDebugInstance.isSome)
        = s.TempObstacleAdded := by
      cases hf : s.TempObstacleAdded <;> cases hd : s.NavMeshDebugInstance.isSome <;>
        simp [hf, hd] at hc ⊢
    rw [if_neg hc, if_neg hc, hflag]
    exact ⟨rfl, rfl, rfl⟩

/-- Calling `handleUpdate(dt, true)` a second time right after the first changes nothing,
makes no redraw call and, when nav mesh and tile cache exist, makes one call of `update`. -/
theorem handleUpdate_twice (env : Collab) (s : OgreDetourTileCache) (dt : ℚ) :
    (handleUpdate env (handleUpdate env s dt true).state dt true).state
      = (handleUpdate env s dt true).state ∧
    (handleUpdate env (handleUpdate env s dt true).state dt true).redraws = [] := by
  cases hn : s.m_recast.m_navMesh with
  | none =>
    have h1 : handleUpdate env s dt true = { state := s, updates := [], redraws := [] } := by
      simp only [handleUpdate, hn]
    rw [h1]
    simp only [h1, and_self]
  | some nav =>
    cases ht : s.m_tileCache with
    | none =>
      have h1 : handleUpdate env s dt true = { state := s, updates := [], redraws := [] } := by
        simp only [handleUpdate, hn, ht]
      rw [h1]
      simp only [h1, and_self]
    | some tc =>
      obtain ⟨e1, -, -⟩ := handleUpdate_state env s dt nav tc hn ht
      obtain ⟨-, -, l3, l4⟩ := updateUntilUpToDate_spec env dt tc nav
      rw [e1]
      generalize updateUntilUpToDate env dt tc nav = L at l3 l4
      obtain ⟨f1, -, f3⟩ := handleUpdate_state env
        { s with
          m_tileCache := some L.1
          m_recast := { s.m_recast with m_navMesh := some L.2.1 }
          TempObstacleAdded := s.TempObstacleAdded && !s.NavMeshDebugInstance.isSome }
        dt L.2.1 L.1 rfl rfl
      rw [f1, f3, updateUntilUpToDate_idle env dt L.1 L.2.1 l3 l4]
      have hflag : ((s.TempObstacleAdded && !s.NavMeshDebugInstance.isSome)
          && !s.NavMeshDebugInstance.isSome)
          = (s.TempObstacleAdded && !s.NavMeshDebugInstance.isSome) := by
        cases s.TempObstacleAdded <;> cases s.NavMeshDebugInstance.isSome <;> rfl
      have hcond : ((s.TempObstacleAdded && !s.NavMeshDebugInstance.isSome)
          && s.NavMeshDebugInstance.isSome) = false := by
        cases s.TempObstacleAdded <;> cases s.NavMeshDebugInstance.isSome <;> rfl
      simp only [hflag, hcond, Bool.false_eq_true, if_false, and_self]

/-- C16 (amended): when nav mesh and tile cache exist, the request queue is empty and no
tile waits for a rebuild, `handleUpdate(dt, true)` makes one call of `update`, rebuilds
no tile and leaves the tile cache, the nav mesh and every member of the wrapper as they
were, except for the flag `TempObstacleAdded`: when the flag is set and a debugger is
attached, the touched tiles of every obstacle are redrawn and the flag is cleared; when
the flag is clear or no debugger is attached the state is unchanged and no redraw call
is made. A second call right after a first one always leaves the state unchanged and
makes no redraw call. -/
theorem handleUpdate_idle (env : Collab) (s : OgreDetourTileCache) (dt : ℚ) :
    (∀ (nav : dtNavMesh) (tc : dtTileCache),
      s.m_recast.m_navMesh = some nav → s.m_tileCache = some tc →
      tc.m_reqs = [] → tc.m_update = [] →
      (handleUpdate env s dt true).updates = [true] ∧
      (handleUpdate env s dt true).state.m_tileCache = some tc ∧
      (handleUpdate env s dt true).state.m_recast = s.m_recast ∧
      (handleUpdate env s dt true).state
        = { s with
            TempObstacleAdded := s.TempObstacleAdded && !s.NavMeshDebugInstance.isSome } ∧
      (s.TempObstacleAdded = true → s.NavMeshDebugInstance.isSome = true →
        (handleUpdate env s dt true).redraws = redrawCalls tc ∧
        (handleUpdate env s dt true).state = { s with TempObstacleAdded := false }) ∧
      (s.TempObstacleAdded = false ∨ s.NavMeshDebugInstance = none →
        (handleUpdate env s dt true).state = s ∧ (handleUpdate env s dt true).redraws = [])) ∧
    (handleUpdate env (handleUpdate env s dt true).state dt true).state
      = (handleUpdate env s dt true).state ∧
    (handleUpdate env (handleUpdate env s dt true).state dt true).redraws = [] := by
  refine ⟨?_, handleUpdate_twice env s dt⟩
  intro nav tc hn ht hr hu
  obtain ⟨e1, e2, e3⟩ := handleUpdate_state env s dt nav tc hn ht
  rw [updateUntilUpToDate_idle env dt tc nav hr hu] at e1 e2 e3
  simp only at e1 e2 e3
  rw [OgreRecast.navMesh_self s.m_recast nav hn] at e1
  have e1' : (handleUpdate env s dt true).state
      = { s with
          TempObstacleAdded := s.TempObstacleAdded && !s.NavMeshDebugInstance.isSome } := by
    rw [e1]
    cases s
    simp only at ht
    subst ht
    rfl
  refine ⟨e2, ?_, ?_, e1', ?_, ?_⟩
  · rw [e1']
    exact ht
  · rw [e1']
  · intro hf hd
    refine ⟨?_, ?_⟩
    · rw [e3, hf, hd]
      rfl
    · rw [e1', hf, hd]
      rfl
  · intro hclear
    have hflag : (s.TempObstacleAdded && !s.NavMeshDebugInstance.isSome)
        = s.TempObstacleAdded := by
      rcases hclear with h | h
      · rw [h]
        rfl
      · rw [h]
        simp
    have hcond : (s.TempObstacleAdded && s.NavMeshDebugInstance.isSome) = false := by
      rcases hclear with h | h
      · rw [h]
        rfl
      · rw [h]
        simp
    refine ⟨?_, ?_⟩
    · rw [e1', hflag]
    · rw [e3, hcond]
      rfl

/-- The sample state `redrawPending`: its tile cache and nav mesh are those the settling
loop left, the cache is idle, the flag is set, a debugger is attached, and the redraw
loops visit the two tiles the obstacle touches. -/
theorem redrawPending_state :
    redrawPending.m_recast.m_navMesh = some (updateUntilUpToDate touchCollab 0
      (obstacleCache.addBoxObstacle touchCollab (ObstacleShape.box ⟨0, 0, 0⟩ ⟨1, 1, 1⟩) 5 1).2.2
      dtNavMesh.fresh).2.1 ∧
    redrawPending.m_tileCache = some (updateUntilUpToDate touchCollab 0
      (obstacleCache.addBoxObstacle touchCollab (ObstacleShape.box ⟨0, 0, 0⟩ ⟨1, 1, 1⟩) 5 1).2.2
      dtNavMesh.fresh).1 ∧
    redrawPending.TempObstacleAdded = true ∧ redrawPending.NavMeshDebugInstance = some 1 ∧
    redrawCalls (updateUntilUpToDate touchCollab 0
      (obstacleCache.addBoxObstacle touchCollab (ObstacleShape.box ⟨0, 0, 0⟩ ⟨1, 1, 1⟩) 5 1).2.2
      dtNavMesh.fresh).1 = [(0, 0), (0, 0)] := by
  obtain ⟨e1, -, -⟩ := handleUpdate_state touchCollab queuedState 0 dtNavMesh.fresh
    (obstacleCache.addBoxObstacle touchCollab (ObstacleShape.box ⟨0, 0, 0⟩ ⟨1, 1, 1⟩) 5 1).2.2
    rfl rfl
  refine ⟨?_, ?_, ?_, rfl, ?_⟩
  · simp only [redrawPending, SetDebugger, e1]
  · simp only [redrawPending, SetDebugger, e1]
  · simp only [redrawPending, SetDebugger, e1]
    rfl
  · rw [updateUntilUpToDate, dif_neg (by decide)]
    simp only []
    rw [updateUntilUpToDate, dif_pos (by decide)]
    decide

/-- Witness for C16: on the sample state, whose cache is idle and whose flag is clear,
`handleUpdate(0, true)` makes one call of `update` and changes nothing; on the sample
state with the flag set and a debugger attached it redraws the two touched tiles and
clears the flag. -/
theorem handleUpdate_idle_witness :
    (handleUpdate okCollab obstacleState 0 true).updates = [true] ∧
    (handleUpdate okCollab obstacleState 0 true).state = obstacleState ∧
    (handleUpdate okCollab obstacleState 0 true).redraws = [] ∧
    (handleUpdate touchCollab redrawPending 0 true).redraws = [(0, 0), (0, 0)] ∧
    (handleUpdate touchCollab redrawPending 0 true).state
      = { redrawPending with TempObstacleAdded := false } := by
  obtain ⟨hn, ht, hf, hd, hc⟩ := redrawPending_state
  obtain ⟨-, -, l3, l4⟩ := updateUntilUpToDate_spec touchCollab 0
    (obstacleCache.addBoxObstacle touchCollab (ObstacleShape.box ⟨0, 0, 0⟩ ⟨1, 1, 1⟩) 5 1).2.2
    dtNavMesh.fresh
  have hr := ((handleUpdate_idle touchCollab redrawPending 0).1 _ _ hn ht l3 l4).2.2.2.2.1 hf
    (by rw [hd]; rfl)
  refine ⟨((handleUpdate_idle okCollab obstacleState 0).1 dtNavMesh.fresh obstacleCache
      rfl rfl rfl rfl).1,
    (((handleUpdate_idle okCollab obstacleState 0).1 dtNavMesh.fresh obstacleCache
      rfl rfl rfl rfl).2.2.2.2.2 (Or.inl rfl)).1,
    (((handleUpdate_idle okCollab obstacleState 0).1 dtNavMesh.fresh obstacleCache
      rfl rfl rfl rfl).2.2.2.2.2 (Or.inl rfl)).2, ?_, hr.2⟩
  rw [hr.1, hc]

/-- Counterexample for C16 as stated: an obstacle is added and settled by
`handleUpdate(0, true)` while no debugger is attached, then a debugger is attached. The
request queue is empty and no tile waits, yet the next `handleUpdate(0, true)` clears
`TempObstacleAdded`, so the wrapper state is not what it was. -/
theorem handleUpdate_idle_counterexample :
    (∃ (nav : dtNavMesh) (tc : dtTileCache),
      redrawPending.m_recast.m_navMesh = some nav ∧ redrawPending.m_tileCache = some tc ∧
      tc.m_reqs = [] ∧ tc.m_update = []) ∧
    redrawPending.TempObstacleAdded = true ∧
    (handleUpdate touchCollab redrawPending 0 true).state.TempObstacleAdded = false ∧
    (handleUpdate touchCollab redrawPending 0 true).state ≠ redrawPending := by
  obtain ⟨hn, ht, hflag, hdbg, -⟩ := redrawPending_state
  obtain ⟨-, -, l3, l4⟩ := updateUntilUpToDate_spec touchCollab 0
    (obstacleCache.addBoxObstacle touchCollab (ObstacleShape.box ⟨0, 0, 0⟩ ⟨1, 1, 1⟩) 5 1).2.2
    dtNavMesh.fresh
  obtain ⟨f1, -, -⟩ := handleUpdate_state touchCollab redrawPending 0 _ _ hn ht
  have hafter : (handleUpdate touchCollab redrawPending 0 true).state.TempObstacleAdded
      = false := by
    rw [f1]
    simp only [hflag, hdbg]
    rfl
  refine ⟨⟨_, _, hn, ht, l3, l4⟩, hflag, hafter, ?_⟩
  intro h
  rw [h, hflag] at hafter
  exact absurd hafter (by decide)

/-! ### The stored tile size -/

/-- The tile size stored by the constructor is a multiple of 8 between 16 and 128, for
every 32-bit argument. -/
theorem ctorTileSize_range (tileSize : Int) (hlo : INT_MIN ≤ tileSize) (hhi : tileSize ≤ INT_MAX) :
    8 ∣ ctorTileSize tileSize ∧ 16 ≤ ctorTileSize tileSize ∧ ctorTileSize tileSize ≤ 128 := by
  have hsnap : snapTileSize tileSize = 8 * tileSize.tdiv 8 := by
    unfold snapTileSize wrap32
    unfold INT_MIN at hlo
    unfold INT_MAX at hhi
    rw [Int.tmod_def]
    rcases Int.le_total 0 tileSize with h0 | h0
    · rw [tdiv_of_nonneg h0 (by decide)]
      omega
    · rw [tdiv_of_nonpos h0 (by decide)]
      omega
  unfold ctorTileSize
  simp only [hsnap]
  split_ifs with h
  · exact ⟨by decide, by decide, by decide⟩
  · exact ⟨Dvd.intro _ rfl, by omega, by omega⟩

/-- The mesh loop keeps the tile size, the configuration and the identifier limits. -/
theorem buildAllMeshes_config (coords : List (Int × Int)) (s s' : OgreDetourTileCache)
    (h : buildAllMeshes coords s = some s') :
    s'.m_tileSize = s.m_tileSize ∧ s'.m_cellSize = s.m_cellSize ∧ s'.m_cfg = s.m_cfg ∧
    s'.m_maxTiles = s.m_maxTiles ∧ s'.m_maxPolysPerTile = s.m_maxPolysPerTile ∧
    s'.m_tw = s.m_tw ∧ s'.m_th = s.m_th := by
  induction coords generalizing s with
  | nil =>
    simp only [buildAllMeshes, Option.some.injEq] at h
    subst h
    exact ⟨rfl, rfl, rfl, rfl, rfl, rfl, rfl⟩
  | cons c rest ih =>
    obtain ⟨x, y⟩ := c
    cases htc : s.m_tileCache with
    | none => simp [buildAllMeshes, htc] at h
    | some tc =>
      simp only [buildAllMeshes, htc] at h
      obtain ⟨a1, a2, a3, a4, a5, a6, a7⟩ := ih _ h
      exact ⟨a1, a2, a3, a4, a5, a6, a7⟩

/-- The grid members the part of `loadAll` after the tile loop leaves behind, in terms
of the recast configuration `m_cfg` it starts from (the one read from the file). -/
theorem loadConfig_grid (env : Collab) (header : TileCacheSetHeader) (srcGeom : InputGeom)
    (s s' : OgreDetourTileCache) (b : Bool)
    (h : loadConfig env header srcGeom s = some (b, s')) :
    b = true ∧
    s'.m_tileSize = s.m_cfg.tileSize ∧ s'.m_cellSize = s.m_cfg.cs ∧
    s'.m_tw = tileCount (rcCalcGridSize s.m_cfg.bmin s.m_cfg.bmax s.m_cfg.cs).1 s.m_cfg.tileSize ∧
    s'.m_th = tileCount (rcCalcGridSize s.m_cfg.bmin s.m_cfg.bmax s.m_cfg.cs).2 s.m_cfg.tileSize ∧
    s'.m_maxTiles = shl1 (tileBitsOf s'.m_tw s'.m_th) ∧
    s'.m_maxPolysPerTile = shl1 (polyBitsOf s'.m_tw s'.m_th) := by
  unfold loadConfig at h
  simp only at h
  split at h
  · simp at h
  split at h
  · simp at h
  split at h
  · simp at h
  · rename_i s1 heq
    obtain ⟨f1, f2, f3, f4, f5, f6, f7⟩ := buildAllMeshes_config _ _ _ heq
    split_ifs at h
    simp only [Option.some.injEq, Prod.mk.injEq] at h
    obtain ⟨hb, rfl⟩ := h
    refine ⟨hb.symm, ?_, ?_, ?_, ?_, ?_, ?_⟩
    · exact f1
    · exact f2
    · exact f6
    · exact f7
    · show s1.m_maxTiles = shl1 (tileBitsOf s1.m_tw s1.m_th)
      rw [f4, f6, f7]
    · show s1.m_maxPolysPerTile = shl1 (polyBitsOf s1.m_tw s1.m_th)
      rw [f5, f6, f7]
      rfl

/-- Every return of `loadAll` with the result `false` leaves the tile size as it was. -/
theorem loadAll_false_tileSize (ids : FormatIds) (env : Collab) (file : Option TileCacheFile)
    (srcGeom : InputGeom) (s s' : OgreDetourTileCache)
    (h : loadAll ids env file srcGeom s = some (false, s')) : s'.m_tileSize = s.m_tileSize := by
  unfold loadAll at h
  cases file with
  | none =>
    simp only [Option.some.injEq, Prod.mk.injEq, true_and] at h
    rw [← h]
  | some fp =>
    simp only at h
    split_ifs at h with c1 c2 c3 c4 c5 c6
    all_goals try (simp only [Option.some.injEq, Prod.mk.injEq, true_and] at h; rw [← h])
    split at h
    · simp at h
    · have := (loadConfig_grid _ _ _ _ _ _ h).1
      exact absurd this (by decide)

/-- `configure` never assigns the tile size. -/
theorem configure_tileSize (env : Collab) (inputGeom : Option InputGeom)
    (s : OgreDetourTileCache) : (configure env inputGeom s).2.m_tileSize = s.m_tileSize := by
  unfold configure
  simp only
  split
  · rfl
  · split_ifs
    · rfl
    · rfl
    · rw [(initTileCache_frame env _).2.2.2.2.2.2.1]
      rfl

/-- What a successful `loadAll` stores as the tile size: the tile size of the recast
configuration in the file. -/
theorem loadAll_true_tileSize (ids : FormatIds) (env : Collab) (file : Option TileCacheFile)
    (srcGeom : InputGeom) (s s' : OgreDetourTileCache)
    (h : loadAll ids env file srcGeom s = some (true, s')) :
    ∃ fp, file = some fp ∧ s'.m_tileSize = fp.header.recastConfig.tileSize := by
  cases file with
  | none => simp [loadAll] at h
  | some fp =>
    obtain ⟨tc, nav, -, h2⟩ := loadAll_success_inv ids env fp srcGeom s s' h
    exact ⟨fp, rfl, (loadConfig_grid _ _ _ _ _ _ h2).2.1⟩

/-- C21 (amended): the stored tile size is a multiple of 8 in [16,128] after
construction; `configure` does not assign it (and copies it into the recast
configuration it stores); a `loadAll` that fails leaves it as it was, and a `loadAll`
that succeeds sets it to the tile size of the recast configuration stored in the stream,
which for a stream written by `saveAll` is the tile size of the saved configuration. -/
theorem tileSize_invariant :
    (∀ (env : Collab) (recast : OgreRecast) (max_num_obstacles : Nat) (tileSize : Int),
      INT_MIN ≤ tileSize → tileSize ≤ INT_MAX →
      8 ∣ (construct env recast max_num_obstacles tileSize).m_tileSize ∧
      16 ≤ (construct env recast max_num_obstacles tileSize).m_tileSize ∧
      (construct env recast max_num_obstacles tileSize).m_tileSize ≤ 128) ∧
    (∀ (env : Collab) (inputGeom : Option InputGeom) (s : OgreDetourTileCache),
      (configure env inputGeom s).2.m_tileSize = s.m_tileSize) ∧
    (∀ (env : Collab) (g : InputGeom) (s : OgreDetourTileCache),
      g.isEmpty = false → g.chunkyMesh = true →
      (configure env (some g) s).2.m_cfg.tileSize = s.m_tileSize) ∧
    (∀ (ids : FormatIds) (env : Collab) (file : Option TileCacheFile) (srcGeom : InputGeom)
        (s s' : OgreDetourTileCache),
      (loadAll ids env file srcGeom s = some (false, s') → s'.m_tileSize = s.m_tileSize) ∧
      (loadAll ids env file srcGeom s = some (true, s') →
        ∃ fp, file = some fp ∧ s'.m_tileSize = fp.header.recastConfig.tileSize)) ∧
    (∀ (ids : FormatIds) (s : OgreDetourTileCache) (fp : TileCacheFile),
      saveAll ids true s = some (true, some fp) →
      fp.header.recastConfig.tileSize = s.m_cfg.tileSize) := by
  refine ⟨?_, configure_tileSize, ?_, ?_, ?_⟩
  · intro env recast n tileSize hlo hhi
    exact ctorTileSize_range tileSize hlo hhi
  · intro env g s h1 h2
    rw [configure_usable env g s h1 h2, (initTileCache_frame env _).2.2.2.2.2.1]
    rfl
  · intro ids env file srcGeom s s'
    exact ⟨loadAll_false_tileSize ids env file srcGeom s s',
      loadAll_true_tileSize ids env file srcGeom s s'⟩
  · intro ids s fp h
    unfold saveAll at h
    split at h
    · simp at h
    · split_ifs at h
      · simp at h
      · split at h
        · simp at h
        · simp only [Option.some.injEq, Prod.mk.injEq, true_and] at h
          rw [← h]

/-- Witness for C21: a constructor argument of 50 is stored as 48, a multiple of 8 in
[16,128]. -/
theorem tileSize_invariant_witness :
    (8 ∣ (construct okCollab (sampleRecast 1) 8 50).m_tileSize ∧
      16 ≤ (construct okCollab (sampleRecast 1) 8 50).m_tileSize ∧
      (construct okCollab (sampleRecast 1) 8 50).m_tileSize ≤ 128) ∧
    (construct okCollab (sampleRecast 1) 8 50).m_tileSize = 48 :=
  ⟨tileSize_invariant.1 okCollab (sampleRecast 1) 8 50 (by decide) (by decide), by decide⟩

/-- Counterexample for C21 as stated: a stream that passes the magic and version checks
and stores the tile size 50 loads with success, and the stored tile size is then 50,
which is not a multiple of 8. -/
theorem tileSize_invariant_counterexample :
    oddTileSizeFile.header.magic = sampleIds.TILECACHESET_MAGIC ∧
    oddTileSizeFile.header.version = sampleIds.TILECACHESET_VERSION ∧
    ∃ s', loadAll sampleIds okCollab (some oddTileSizeFile) emptyGeom
        (construct okCollab (sampleRecast 1) 8 48) = some (true, s') ∧
      s'.m_tileSize = 50 ∧ ¬ (8 : Int) ∣ s'.m_tileSize := by
  obtain ⟨s', hs', -⟩ := loadAll_ok sampleIds okCollab oddTileSizeFile emptyGeom
    (construct okCollab (sampleRecast 1) 8 48) _ _ rfl rfl rfl rfl rfl rfl rfl rfl rfl
    (by decide)
  obtain ⟨fp, hfp, hts⟩ := loadAll_true_tileSize _ _ _ _ _ _ hs'
  simp only [Option.some.injEq] at hfp
  subst hfp
  have h50 : s'.m_tileSize = 50 := hts
  refine ⟨rfl, rfl, s', hs', h50, ?_⟩
  rw [h50]
  decide

/-! ### The bit counts as a ceiling logarithm -/

/-- For a tile total `n` between 1 and `INT_MAX`, `dtIlog2(dtNextPow2(n))` is the least
`k` with `n ≤ 2^k`, and the tile bit count is that number capped at 14. -/
theorem tileBitsOf_clog (tw th : Int) (h0 : 1 ≤ tw * th * EXPECTED_LAYERS_PER_TILE)
    (h1 : tw * th * EXPECTED_LAYERS_PER_TILE ≤ INT_MAX) :
    dtIlog2 (dtNextPow2 (tw * th * EXPECTED_LAYERS_PER_TILE).toNat)
      = Nat.clog 2 (tw * th * EXPECTED_LAYERS_PER_TILE).toNat ∧
    tileBitsOf tw th
      = min 14 ((Nat.clog 2 (tw * th * EXPECTED_LAYERS_PER_TILE).toNat : Nat) : Int) := by
  have hE : EXPECTED_LAYERS_PER_TILE = 1 := rfl
  rw [hE] at h0 h1 ⊢
  unfold INT_MAX at h1
  simp only [mul_one] at h0 h1 ⊢
  have hT : tileTotal tw th = tw * th := by
    unfold tileTotal wrap32
    rw [hE]
    omega
  have hU : toU32 (tileTotal tw th) = (tw * th).toNat := by
    unfold toU32
    rw [hT]
    congr 1
    omega
  obtain ⟨k, hk, e, hle, hlow⟩ := dtNextPow2_spec (tw * th).toNat (by omega) (by omega)
  have hclog : Nat.clog 2 (tw * th).toNat = k := by
    apply le_antisymm
    · exact (Nat.le_pow_iff_clog_le (by decide)).mp hle
    · rcases hlow with h | h
      · omega
      · have := (Nat.pow_lt_iff_lt_clog (by decide)).mp h
        omega
  refine ⟨?_, ?_⟩
  · rw [e, dtIlog2_two_pow k hk, hclog]
  · rw [hclog]
    unfold tileBitsOf rcMin ofU32 wrap32
    rw [hU, e, dtIlog2_two_pow k hk]
    simp only
    split_ifs <;> omega

/-- C22: for every tile grid computed by `configure` (usable geometry) whose tile total
`n = tileCountX * tileCountY * EXPECTED_LAYERS_PER_TILE` is at least 1 (and, being an
`int`, at most `INT_MAX`), `dtIlog2(dtNextPow2(n))` is `ceil(log2 n)`, the tile-index
bit count is `min(14, ceil(log2 n))`, the polygon-index bit count is 22 minus it, and
`m_maxTiles` and `m_maxPolysPerTile` are the corresponding powers of two. -/
theorem configure_tileBits (env : Collab) (g : InputGeom) (s : OgreDetourTileCache)
    (h1 : g.isEmpty = false) (h2 : g.chunkyMesh = true)
    (hn1 : 1 ≤ (configure env (some g) s).2.m_tw * (configure env (some g) s).2.m_th
      * EXPECTED_LAYERS_PER_TILE)
    (hn2 : (configure env (some g) s).2.m_tw * (configure env (some g) s).2.m_th
      * EXPECTED_LAYERS_PER_TILE ≤ INT_MAX) :
    dtIlog2 (dtNextPow2 ((configure env (some g) s).2.m_tw * (configure env (some g) s).2.m_th
        * EXPECTED_LAYERS_PER_TILE).toNat)
      = Nat.clog 2 ((configure env (some g) s).2.m_tw * (configure env (some g) s).2.m_th
          * EXPECTED_LAYERS_PER_TILE).toNat ∧
    tileBitsOf (configure env (some g) s).2.m_tw (configure env (some g) s).2.m_th
      = min 14 ((Nat.clog 2 ((configure env (some g) s).2.m_tw * (configure env (some g) s).2.m_th
          * EXPECTED_LAYERS_PER_TILE).toNat : Nat) : Int) ∧
    polyBitsOf (configure env (some g) s).2.m_tw (configure env (some g) s).2.m_th
      = 22 - min 14 ((Nat.clog 2 ((configure env (some g) s).2.m_tw
          * (configure env (some g) s).2.m_th * EXPECTED_LAYERS_PER_TILE).toNat : Nat) : Int) ∧
    (configure env (some g) s).2.m_maxTiles
      = 2 ^ (min 14 (Nat.clog 2 ((configure env (some g) s).2.m_tw
          * (configure env (some g) s).2.m_th * EXPECTED_LAYERS_PER_TILE).toNat)) ∧
    (configure env (some g) s).2.m_maxPolysPerTile
      = 2 ^ (22 - min 14 (Nat.clog 2 ((configure env (some g) s).2.m_tw
          * (configure env (some g) s).2.m_th * EXPECTED_LAYERS_PER_TILE).toNat)) := by
  obtain ⟨-, -, e3, e4, -⟩ := configure_grid env g s h1 h2
  generalize (configure env (some g) s).2 = s' at e3 e4 hn1 hn2 ⊢
  obtain ⟨c1, c2⟩ := tileBitsOf_clog s'.m_tw s'.m_th hn1 hn2
  generalize Nat.clog 2 (s'.m_tw * s'.m_th * EXPECTED_LAYERS_PER_TILE).toNat = k at c1 c2 ⊢
  have hp : polyBitsOf s'.m_tw s'.m_th = 22 - tileBitsOf s'.m_tw s'.m_th := rfl
  have hmin : (min 14 (k : Int)) = ((min 14 k : Nat) : Int) := by
    rcases Nat.le_total 14 k with h | h
    · rw [min_eq_left h, min_eq_left (by exact_mod_cast h)]
      rfl
    · rw [min_eq_right h, min_eq_right (by exact_mod_cast h)]
  have hle : min 14 k ≤ 14 := min_le_left _ _
  refine ⟨c1, c2, ?_, ?_, ?_⟩
  · rw [hp, c2]
  · rw [e3, c2, hmin, shl1_eq _ (by omega) (by omega), Int.toNat_ofNat]
  · have ht : ((22 : Int) - ((min 14 k : Nat) : Int)).toNat = 22 - min 14 k := by omega
    rw [e4, hp, c2, hmin, shl1_eq _ (by omega) (by omega), ht]

/-- The sample world has 333 x 333 voxels and 7 x 7 tiles. -/
theorem sampleConfigured_grid : sampleConfigured.m_tw = 7 ∧ sampleConfigured.m_th = 7 := by
  have hg := configure_grid okCollab sampleWorld sampleConstructed (by decide) rfl
  have e1 : (rcCalcGridSize sampleWorld.bmin sampleWorld.bmax
      sampleConstructed.m_recast.m_cfg.cs).1 = 333 := by
    norm_num [rcCalcGridSize, truncToInt, sampleWorld, sampleGeom, sampleConstructed, construct,
      sampleRecast]
  have e2 : (rcCalcGridSize sampleWorld.bmin sampleWorld.bmax
      sampleConstructed.m_recast.m_cfg.cs).2 = 333 := by
    norm_num [rcCalcGridSize, truncToInt, sampleWorld, sampleGeom, sampleConstructed, construct,
      sampleRecast]
  have ets : sampleConstructed.m_tileSize = 48 := by decide
  unfold sampleConfigured
  rw [hg.1, hg.2.1, e1, e2, ets]
  exact ⟨by decide, by decide⟩

/-- Witness for C22: the 100 x 100 world with cell size 0.3 and tile size 48 has 7 x 7
tiles; `ceil(log2 49) = 6`, so there are 6 tile bits. -/
theorem configure_tileBits_witness :
    tileBitsOf sampleConfigured.m_tw sampleConfigured.m_th
      = min 14 ((Nat.clog 2 (sampleConfigured.m_tw * sampleConfigured.m_th
          * EXPECTED_LAYERS_PER_TILE).toNat : Nat) : Int) ∧
    sampleConfigured.m_tw * sampleConfigured.m_th * EXPECTED_LAYERS_PER_TILE = 49 ∧
    Nat.clog 2 49 = 6 := by
  have hn : sampleConfigured.m_tw * sampleConfigured.m_th * EXPECTED_LAYERS_PER_TILE = 49 := by
    rw [sampleConfigured_grid.1, sampleConfigured_grid.2]
    decide
  refine ⟨(configure_tileBits okCollab sampleWorld sampleConstructed (by decide) rfl ?_ ?_).2.1,
    hn, ?_⟩
  · show 1 ≤ sampleConfigured.m_tw * sampleConfigured.m_th * EXPECTED_LAYERS_PER_TILE
    rw [hn]
    decide
  · show sampleConfigured.m_tw * sampleConfigured.m_th * EXPECTED_LAYERS_PER_TILE ≤ INT_MAX
    rw [hn]
    decide
  · exact le_antisymm ((Nat.le_pow_iff_clog_le (by decide)).mp (by norm_num))
      ((Nat.pow_lt_iff_lt_clog (by decide)).mp (by norm_num : 2 ^ 5 < 49))

/-! ### Border size and heightfield size -/

/-- The conversion `(int) f` of a whole number is that number. -/
theorem truncToInt_intCast (n : Int) : truncToInt (n : ℚ) = n := by
  unfold truncToInt
  split_ifs
  · exact Int.floor_intCast n
  · exact Int.ceil_intCast n

/-- The recast configuration `configure` stores for usable geometry. -/
theorem configure_cfg (env : Collab) (g : InputGeom) (s : OgreDetourTileCache)
    (h1 : g.isEmpty = false) (h2 : g.chunkyMesh = true) :
    (configure env (some g) s).2.m_cfg
      = configureCfg g { s with m_geom := some g, m_ctx := s.m_recast.m_ctx } ∧
    (configure env (some g) s).2.m_tileSize = s.m_tileSize ∧
    (configure env (some g) s).2.m_cellSize = s.m_recast.m_cfg.cs := by
  rw [configure_usable env g s h1 h2]
  refine ⟨(initTileCache_frame env _).2.2.2.2.2.1, (initTileCache_frame env _).2.2.2.2.2.2.1, ?_⟩
  unfold initTileCache
  dsimp only
  repeat' split
  all_goals rfl

/-- The `float` sum of a walkable radius between `-2^24` and `2^24 - 3` and the padding
is exact, and its `int` conversion is the radius plus 3. -/
theorem borderSize_exact (r : Int) (hlo : -16777216 ≤ r) (hhi : r ≤ 16777213) :
    truncToInt (f32 (f32 (r : ℚ) + BORDER_PADDING)) = r + 3 := by
  have h1 : f32 (r : ℚ) = r := f32_intCast r (by rw [abs_le]; constructor <;> omega)
  have h2 : (r : ℚ) + BORDER_PADDING = ((r + 3 : Int) : ℚ) := by
    unfold BORDER_PADDING
    push_cast
    rfl
  rw [h1, h2, f32_intCast (r + 3) (by rw [abs_le]; constructor <;> omega), truncToInt_intCast]

/-- The `float` sum of the walkable radius 16777218 and the padding is 16777220: the
exact sum 16777221 lies halfway between two `float` values. -/
theorem borderSize_16777218 :
    truncToInt (f32 (f32 ((16777218 : Int) : ℚ) + BORDER_PADDING)) = 16777220 := by
  have h1 : f32 ((16777218 : Int) : ℚ) = 16777218 := by
    have := f32_exact 8388609 1 (by decide) (by decide)
    norm_num at this ⊢
    exact this
  have h2 : f32 (16777221 : ℚ) = 16777220 := by
    rw [f32_eq_pos _ 24 (by decide) (by norm_num) (by norm_num)]
    norm_num [roundHalfEven]
  rw [h1]
  unfold BORDER_PADDING
  norm_num
  rw [h2]
  norm_num [truncToInt]

/-- C23 (amended): for usable geometry `configure` keeps the walkable radius (a number of
cells) and stores `borderSize = (int) (walkableRadius + BORDER_PADDING)` with
`BORDER_PADDING = 3`, the sum being a `float` sum whose operands and result are rounded
to `float` (its value lying in the range of `int`); `borderSize` is `walkableRadius + 3`
whenever `-2^24 ≤ walkableRadius ≤ 2^24 - 3`; and the heightfield width and height are
both `tileSize + 2 * borderSize` when that `int` sum is representable. -/
theorem configure_border (env : Collab) (g : InputGeom) (s : OgreDetourTileCache)
    (h1 : g.isEmpty = false) (h2 : g.chunkyMesh = true) :
    BORDER_PADDING = 3 ∧
    (configure env (some g) s).2.m_cfg.walkableRadius = s.m_recast.m_cfg.walkableRadius ∧
    (configure env (some g) s).2.m_cfg.tileSize = s.m_tileSize ∧
    (((INT_MIN : Int) : ℚ) ≤ f32 (f32 (s.m_recast.m_cfg.walkableRadius : ℚ) + BORDER_PADDING) →
      f32 (f32 (s.m_recast.m_cfg.walkableRadius : ℚ) + BORDER_PADDING) ≤ ((INT_MAX : Int) : ℚ) →
      (configure env (some g) s).2.m_cfg.borderSize
        = truncToInt (f32 (f32 (s.m_recast.m_cfg.walkableRadius : ℚ) + BORDER_PADDING))) ∧
    (-16777216 ≤ s.m_recast.m_cfg.walkableRadius →
      s.m_recast.m_cfg.walkableRadius ≤ 16777213 →
      (configure env (some g) s).2.m_cfg.borderSize = s.m_recast.m_cfg.walkableRadius + 3) ∧
    (INT_MIN ≤ s.m_tileSize + 2 * (configure env (some g) s).2.m_cfg.borderSize →
      s.m_tileSize + 2 * (configure env (some g) s).2.m_cfg.borderSize ≤ INT_MAX →
      (configure env (some g) s).2.m_cfg.width
        = (configure env (some g) s).2.m_cfg.tileSize
          + 2 * (configure env (some g) s).2.m_cfg.borderSize ∧
      (configure env (some g) s).2.m_cfg.height
        = (configure env (some g) s).2.m_cfg.tileSize
          + 2 * (configure env (some g) s).2.m_cfg.borderSize) := by
  rw [(configure_cfg env g s h1 h2).1]
  simp only [configureCfg]
  refine ⟨rfl, trivial, trivial, fun _ _ => trivial, ?_, ?_⟩
  · intro hlo hhi
    exact borderSize_exact _ hlo hhi
  · intro hlo hhi
    unfold INT_MIN at hlo
    unfold INT_MAX at hhi
    constructor
    · unfold wrap32
      omega
    · unfold wrap32
      omega

/-- Witness for C23: on the sample object (walkable radius 2, tile size 48) the border
is 5 cells and the heightfield is 58 x 58. -/
theorem configure_border_witness :
    sampleConfigured.m_cfg.borderSize = 5 ∧ sampleConfigured.m_cfg.width = 58 ∧
    sampleConfigured.m_cfg.height = 58 := by
  obtain ⟨-, -, e1, -, e2, e3⟩ := configure_border okCollab sampleWorld sampleConstructed
    (by decide) rfl
  have hts : sampleConstructed.m_tileSize = 48 := by decide
  have hr : sampleConstructed.m_recast.m_cfg.walkableRadius = 2 := rfl
  have f2 : sampleConfigured.m_cfg.borderSize = 5 := by
    rw [show sampleConfigured.m_cfg.borderSize
      = sampleConstructed.m_recast.m_cfg.walkableRadius + 3 from
        e2 (by rw [hr]; decide) (by rw [hr]; decide), hr]
    rfl
  have f1 : sampleConfigured.m_cfg.tileSize = 48 := e1.trans hts
  have f3 : (configure okCollab (some sampleWorld) sampleConstructed).2.m_cfg.borderSize = 5 :=
    f2
  obtain ⟨e4, e5⟩ := e3 (by rw [hts, f3]; decide) (by rw [hts, f3]; decide)
  refine ⟨f2, ?_, ?_⟩
  · rw [show sampleConfigured.m_cfg.width
      = sampleConfigured.m_cfg.tileSize + 2 * sampleConfigured.m_cfg.borderSize from e4, f1, f2]
    rfl
  · rw [show sampleConfigured.m_cfg.height
      = sampleConfigured.m_cfg.tileSize + 2 * sampleConfigured.m_cfg.borderSize from e5, f1, f2]
    rfl

/-- Counterexample for C23 as stated: with a walkable radius of 16777218 cells
`configure` stores the border size 16777220, not 16777218 + 3 = 16777221. -/
theorem configure_border_counterexample :
    (construct okCollab wideRadiusRecast 8 48).m_recast.m_cfg.walkableRadius = 16777218 ∧
    (configure okCollab (some sampleWorld) (construct okCollab wideRadiusRecast 8 48)).2.m_cfg.borderSize
      = 16777220 ∧
    (configure okCollab (some sampleWorld) (construct okCollab wideRadiusRecast 8 48)).2.m_cfg.borderSize
      ≠ (construct okCollab wideRadiusRecast 8 48).m_recast.m_cfg.walkableRadius
        + 3 := by
  have hb : (configure okCollab (some sampleWorld)
      (construct okCollab wideRadiusRecast 8 48)).2.m_cfg.borderSize = 16777220 := by
    rw [(configure_cfg okCollab sampleWorld _ (by decide) rfl).1]
    exact borderSize_16777218
  refine ⟨rfl, hb, ?_⟩
  rw [hb]
  decide

/-! ### The rectangle of a tile -/

/-- The tile configuration of `rasterizeTileLayers` is `m_cfg` with the bounds replaced
by the rectangle of the tile, computed with `float` operations, for tile coordinates
whose successor is a representable `int` and a state whose two copies of the cell size
agree. -/
theorem tileConfig_eq (s : OgreDetourTileCache) (tx ty : Int)
    (htx : INT_MIN ≤ tx + 1 ∧ tx + 1 ≤ INT_MAX) (hty : INT_MIN ≤ ty + 1 ∧ ty + 1 ≤ INT_MAX)
    (hcs : s.m_cfg.cs = s.m_cellSize) :
    tileConfig s tx ty
      = { s.m_cfg with
          bmin := (tileRect f32 s.m_cfg.bmin s.m_cfg.bmax s.m_tileSize s.m_cfg.borderSize
            s.m_cellSize tx ty).1
          bmax := (tileRect f32 s.m_cfg.bmin s.m_cfg.bmax s.m_tileSize s.m_cfg.borderSize
            s.m_cellSize tx ty).2 } := by
  have hx : wrap32 (tx + 1) = tx + 1 := by
    unfold wrap32
    unfold INT_MIN INT_MAX at htx
    omega
  have hy : wrap32 (ty + 1) = ty + 1 := by
    unfold wrap32
    unfold INT_MIN INT_MAX at hty
    omega
  simp only [tileConfig, tileRect, hx, hy, hcs]

/-- The rectangle of a tile in exact arithmetic: its corners and its extents. -/
theorem tileRect_exact (bmin bmax : Vec3) (ts b : Int) (cs : ℚ) (tx ty : Int) :
    (tileRect id bmin bmax ts b cs tx ty).1
      = ⟨bmin.x + (tx : ℚ) * ((ts : ℚ) * cs) - (b : ℚ) * cs, bmin.y,
          bmin.z + (ty : ℚ) * ((ts : ℚ) * cs) - (b : ℚ) * cs⟩ ∧
    (tileRect id bmin bmax ts b cs tx ty).2
      = ⟨bmin.x + ((tx : ℚ) + 1) * ((ts : ℚ) * cs) + (b : ℚ) * cs, bmax.y,
          bmin.z + ((ty : ℚ) + 1) * ((ts : ℚ) * cs) + (b : ℚ) * cs⟩ ∧
    (tileRect id bmin bmax ts b cs tx ty).2.x - (tileRect id bmin bmax ts b cs tx ty).1.x
      = ((ts + 2 * b : Int) : ℚ) * cs ∧
    (tileRect id bmin bmax ts b cs tx ty).2.z - (tileRect id bmin bmax ts b cs tx ty).1.z
      = ((ts + 2 * b : Int) : ℚ) * cs := by
  simp only [tileRect, id, Int.cast_add, Int.cast_one, Int.cast_mul, Int.cast_ofNat, true_and]
  constructor <;> ring

/-- C24: after `configure` on usable geometry, for every tile coordinate `(tx, ty)`
(with `tx + 1` and `ty + 1` representable and every `float` result on the way to the
rectangle finite) `rasterizeTileLayers` hands to Recast the configuration `tcfg` that is `m_cfg` with the bounds replaced by the rectangle `x` in
`[bmin.x + tx*T - b*cs, bmin.x + (tx+1)*T + b*cs]`, `z` in `[bmin.z + ty*T - b*cs,
bmin.z + (ty+1)*T + b*cs]`, where `T = tileSize * cellSize`, `b = borderSize` and `bmin`,
`bmax` are the bounds of the world, each operation being a `float` operation, with the
vertical range `[bmin.y, bmax.y]` of the world and finite corners: the heightfield is created for `tcfg`, the
chunks are those overlapping its `x`, `z` rectangle, no tile results when either fails,
and when the steps succeed the tiles returned are built from the layers Recast derives
for `tcfg`. In exact arithmetic the extent of the rectangle on each horizontal axis is
`(tileSize + 2*borderSize) * cellSize`, the configured heightfield width times the cell
size. -/
theorem rasterizeTileLayers_rect (env : Collab) (g : InputGeom) (s : OgreDetourTileCache)
    (tx ty maxTiles : Int) (tcfg : rcConfig) (h1 : g.isEmpty = false)
    (h2 : g.chunkyMesh = true)
    (htx : INT_MIN ≤ tx + 1 ∧ tx + 1 ≤ INT_MAX) (hty : INT_MIN ≤ ty + 1 ∧ ty + 1 ≤ INT_MAX)
    (hfin : ∀ v ∈ tileRectSteps g.bmin (configure env (some g) s).2.m_tileSize
      (configure env (some g) s).2.m_cfg.borderSize (configure env (some g) s).2.m_cellSize
      tx ty, |v| ≤ FLT_MAX)
    (hcfg : tcfg = { (configure env (some g) s).2.m_cfg with
      bmin := (tileRect f32 g.bmin g.bmax (configure env (some g) s).2.m_tileSize
        (configure env (some g) s).2.m_cfg.borderSize (configure env (some g) s).2.m_cellSize
        tx ty).1
      bmax := (tileRect f32 g.bmin g.bmax (configure env (some g) s).2.m_tileSize
        (configure env (some g) s).2.m_cfg.borderSize (configure env (some g) s).2.m_cellSize
        tx ty).2 }) :
    (tcfg.bmin.y = g.bmin.y ∧ tcfg.bmax.y = g.bmax.y) ∧
    (|tcfg.bmin.x| ≤ FLT_MAX ∧ |tcfg.bmin.z| ≤ FLT_MAX ∧ |tcfg.bmax.x| ≤ FLT_MAX ∧
      |tcfg.bmax.z| ≤ FLT_MAX) ∧
    (env.rcCreateHeightfield tcfg = false →
      rasterizeTileLayers env (configure env (some g) s).2 (some g) tx ty maxTiles = []) ∧
    (env.rcGetChunksOverlappingRect g (tcfg.bmin.x, tcfg.bmin.z) (tcfg.bmax.x, tcfg.bmax.z) = 0 →
      rasterizeTileLayers env (configure env (some g) s).2 (some g) tx ty maxTiles = []) ∧
    (∀ (layers : List rcHeightfieldLayer),
      env.rcAllocHeightfield = true → env.rcCreateHeightfield tcfg = true →
      env.rcGetChunksOverlappingRect g (tcfg.bmin.x, tcfg.bmin.z) (tcfg.bmax.x, tcfg.bmax.z)
        ≠ 0 →
      env.rcAllocCompactHeightfield = true → env.rcBuildCompactHeightfield g tcfg = true →
      env.rcErodeWalkableArea g tcfg = true → env.rcAllocHeightfieldLayerSet = true →
      env.rcBuildHeightfieldLayers g tcfg = some layers →
      (∀ (i : Nat) (layer : rcHeightfieldLayer), layers[i]? = some layer →
        (i : Int) < MAX_LAYERS →
        (env.dtBuildTileCacheLayer (layerHeaderOf tx ty i layer) layer).isSome = true) →
      ∃ rcTiles,
        buildLayerTiles env tx ty 0 (layers.take (rcMin layers.length MAX_LAYERS).toNat)
          = some rcTiles ∧
        rasterizeTileLayers env (configure env (some g) s).2 (some g) tx ty maxTiles
          = rcTiles.take (rcMin rcTiles.length maxTiles).toNat) ∧
    ((tileRect id g.bmin g.bmax (configure env (some g) s).2.m_tileSize
          (configure env (some g) s).2.m_cfg.borderSize (configure env (some g) s).2.m_cellSize
          tx ty).2.x
        - (tileRect id g.bmin g.bmax (configure env (some g) s).2.m_tileSize
          (configure env (some g) s).2.m_cfg.borderSize (configure env (some g) s).2.m_cellSize
          tx ty).1.x
      = (((configure env (some g) s).2.m_tileSize
            + 2 * (configure env (some g) s).2.m_cfg.borderSize : Int) : ℚ)
          * (configure env (some g) s).2.m_cellSize) ∧
    ((tileRect id g.bmin g.bmax (configure env (some g) s).2.m_tileSize
          (configure env (some g) s).2.m_cfg.borderSize (configure env (some g) s).2.m_cellSize
          tx ty).2.z
        - (tileRect id g.bmin g.bmax (configure env (some g) s).2.m_tileSize
          (configure env (some g) s).2.m_cfg.borderSize (configure env (some g) s).2.m_cellSize
          tx ty).1.z
      = (((configure env (some g) s).2.m_tileSize
            + 2 * (configure env (some g) s).2.m_cfg.borderSize : Int) : ℚ)
          * (configure env (some g) s).2.m_cellSize) ∧
    (INT_MIN ≤ (configure env (some g) s).2.m_tileSize
        + 2 * (configure env (some g) s).2.m_cfg.borderSize →
      (configure env (some g) s).2.m_tileSize
        + 2 * (configure env (some g) s).2.m_cfg.borderSize ≤ INT_MAX →
      (configure env (some g) s).2.m_cfg.width
        = (configure env (some g) s).2.m_tileSize
          + 2 * (configure env (some g) s).2.m_cfg.borderSize) ∧
    (configure env (some g) s).2.m_cfg.cs = (configure env (some g) s).2.m_cellSize := by
  obtain ⟨c1, c2, c3⟩ := configure_cfg env g s h1 h2
  have hcs : (configure env (some g) s).2.m_cfg.cs = (configure env (some g) s).2.m_cellSize := by
    rw [c1, c3]
    rfl
  have hmin : (configure env (some g) s).2.m_cfg.bmin = g.bmin := by
    rw [c1]
    rfl
  have hmax : (configure env (some g) s).2.m_cfg.bmax = g.bmax := by
    rw [c1]
    rfl
  have ht : tileConfig (configure env (some g) s).2 tx ty = tcfg := by
    rw [tileConfig_eq _ tx ty htx hty hcs, hcfg, hmin, hmax]
  obtain ⟨-, -, x1, x2⟩ := tileRect_exact g.bmin g.bmax (configure env (some g) s).2.m_tileSize
    (configure env (some g) s).2.m_cfg.borderSize (configure env (some g) s).2.m_cellSize tx ty
  refine ⟨?_, ?_, ?_, ?_, ?_, x1, x2, ?_, hcs⟩
  · rw [hcfg]
    exact ⟨rfl, rfl⟩
  · rw [hcfg]
    refine ⟨hfin _ ?_, hfin _ ?_, hfin _ ?_, hfin _ ?_⟩ <;> simp [tileRectSteps, tileRect]
  · intro hf
    simp only [rasterizeTileLayers, h1, h2, ht, hf, Bool.not_true, Bool.not_false,
      Bool.false_eq_true, if_false, if_true, ite_self]
  · intro hf
    simp only [rasterizeTileLayers, h1, h2, ht, hf, Bool.not_true, Bool.not_false,
      Bool.false_eq_true, if_false, if_true, ite_self]
  · intro layers a1 a2 a3 a4 a5 a6 a7 a8 hser
    rw [← ht] at a2 a3 a5 a6 a8
    exact rasterizeTileLayers_built env _ g tx ty maxTiles layers h1 h2 a1 a2 a3 a4 a5 a6 a7 a8
      hser
  · intro hlo hhi
    rw [c2] at hlo hhi ⊢
    rw [c1] at hlo hhi ⊢
    simp only [configureCfg] at hlo hhi ⊢
    unfold INT_MIN at hlo
    unfold INT_MAX at hhi
    unfold wrap32
    omega

/-- The members of the sample object `rectConfigured` that the rectangle depends on. -/
theorem rectConfigured_cfg :
    rectConfigured.m_cfg.bmin = ⟨0, 0, 0⟩ ∧ rectConfigured.m_cfg.bmax = ⟨96, 2, 96⟩ ∧
    rectConfigured.m_tileSize = 48 ∧ rectConfigured.m_cellSize = 1 ∧
    rectConfigured.m_cfg.borderSize = 5 ∧ rectConfigured.m_cfg.width = 58 ∧
    rectConfigured.m_cfg.height = 58 := by
  obtain ⟨c1, c2, c3⟩ := configure_cfg rectCollab rectWorld
    (construct rectCollab (sampleRecast 1) 8 48) (by decide) rfl
  have hb : truncToInt (f32 (f32 ((2 : Int) : ℚ) + BORDER_PADDING)) = 5 :=
    borderSize_exact 2 (by decide) (by decide)
  have hts : (construct rectCollab (sampleRecast 1) 8 48).m_tileSize = 48 := by decide
  have hbs : rectConfigured.m_cfg.borderSize = 5 := by
    unfold rectConfigured
    rw [c1]
    exact hb
  refine ⟨?_, ?_, c2.trans hts, c3, hbs, ?_, ?_⟩
  · unfold rectConfigured
    rw [c1]
    rfl
  · unfold rectConfigured
    rw [c1]
    rfl
  · unfold rectConfigured
    rw [c1]
    show wrap32 ((construct rectCollab (sampleRecast 1) 8 48).m_tileSize
      + wrap32 (truncToInt (f32 (f32 ((2 : Int) : ℚ) + BORDER_PADDING)) * 2)) = 58
    rw [hb, hts]
    decide
  · unfold rectConfigured
    rw [c1]
    show wrap32 ((construct rectCollab (sampleRecast 1) 8 48).m_tileSize
      + wrap32 (truncToInt (f32 (f32 ((2 : Int) : ℚ) + BORDER_PADDING)) * 2)) = 58
    rw [hb, hts]
    decide

/-- The `float` rectangles of the tiles (1, 1) and (0, 0) of the sample world. -/
theorem tileRect_sample :
    tileRect f32 ⟨0, 0, 0⟩ ⟨96, 2, 96⟩ 48 5 1 1 1 = (⟨43, 0, 43⟩, ⟨101, 2, 101⟩) ∧
    tileRect f32 ⟨0, 0, 0⟩ ⟨96, 2, 96⟩ 48 5 1 0 0 = (⟨-5, 0, -5⟩, ⟨53, 2, 53⟩) := by
  have e : ∀ n : Int, |n| ≤ 2 ^ 24 → f32 (n : ℚ) = (n : ℚ) := f32_intCast
  have e0 := e 0 (by decide)
  have e1 := e 1 (by decide)
  have e2 := e 2 (by decide)
  have e5 := e 5 (by decide)
  have e43 := e 43 (by decide)
  have e48 := e 48 (by decide)
  have e53 := e 53 (by decide)
  have e96 := e 96 (by decide)
  have e101 := e 101 (by decide)
  have em5 := e (-5) (by decide)
  norm_num at e0 e1 e2 e5 e43 e48 e53 e96 e101 em5
  constructor
  · simp only [tileRect]
    norm_num [e0, e1, e2, e5, e43, e48, e53, e96, e101, em5]
  · simp only [tileRect]
    norm_num [e0, e1, e2, e5, e43, e48, e53, e96, e101, em5]

/-- The `float` results on the way to the rectangles of the tiles (1, 1) and (0, 0) of
the sample world. -/
theorem tileRectSteps_sample :
    tileRectSteps ⟨0, 0, 0⟩ 48 5 1 1 1
      = [48, 5, 48, 48, 43, 48, 48, 43, 96, 96, 101, 96, 96, 101] ∧
    tileRectSteps ⟨0, 0, 0⟩ 48 5 1 0 0 = [48, 5, 0, 0, -5, 0, 0, -5, 48, 48, 53, 48, 48, 53] := by
  have e : ∀ n : Int, |n| ≤ 2 ^ 24 → f32 (n : ℚ) = (n : ℚ) := f32_intCast
  have e0 := e 0 (by decide)
  have e1 := e 1 (by decide)
  have e2 := e 2 (by decide)
  have e5 := e 5 (by decide)
  have e43 := e 43 (by decide)
  have e48 := e 48 (by decide)
  have e53 := e 53 (by decide)
  have e96 := e 96 (by decide)
  have e101 := e 101 (by decide)
  have em5 := e (-5) (by decide)
  norm_num at e0 e1 e2 e5 e43 e48 e53 e96 e101 em5
  constructor
  · simp only [tileRectSteps]
    norm_num [e0, e1, e2, e5, e43, e48, e53, e96, e101, em5]
  · simp only [tileRectSteps]
    norm_num [e0, e1, e2, e5, e43, e48, e53, e96, e101, em5]

/-- Witness for C24: on a world of 2 x 2 tiles with cell size 1, tile size 48 and border 5,
Recast answering for the rectangle `x`, `z` in [43, 101] alone, the tile (1, 1), whose
rectangle this is, yields the block of its first layer, and the tile (0, 0) yields
nothing; the extent 58 of the rectangle is the heightfield width 58 times the cell
size 1. -/
theorem rasterizeTileLayers_rect_witness :
    rasterizeTileLayers rectCollab rectConfigured (some rectWorld) 1 1 4
      = [{ data := [7], dataSize := 1 }] ∧
    rasterizeTileLayers rectCollab rectConfigured (some rectWorld) 0 0 4 = [] ∧
    (tileRect f32 rectWorld.bmin rectWorld.bmax rectConfigured.m_tileSize
        rectConfigured.m_cfg.borderSize rectConfigured.m_cellSize 1 1)
      = (⟨43, 0, 43⟩, ⟨101, 2, 101⟩) ∧
    rectConfigured.m_cfg.width = 58 := by
  obtain ⟨b1, b2, b3, b4, b5, b6, b7⟩ := rectConfigured_cfg
  have hr : tileRect f32 rectWorld.bmin rectWorld.bmax rectConfigured.m_tileSize
      rectConfigured.m_cfg.borderSize rectConfigured.m_cellSize 1 1
      = (⟨43, 0, 43⟩, ⟨101, 2, 101⟩) := by
    rw [b3, b4, b5]
    exact tileRect_sample.1
  have hfin1 : ∀ v ∈ tileRectSteps rectWorld.bmin rectConfigured.m_tileSize
      rectConfigured.m_cfg.borderSize rectConfigured.m_cellSize 1 1, |v| ≤ FLT_MAX := by
    rw [b3, b4, b5]
    intro v hv
    rw [show rectWorld.bmin = ⟨0, 0, 0⟩ from rfl, tileRectSteps_sample.1] at hv
    simp only [List.mem_cons, List.mem_singleton, List.not_mem_nil, or_false] at hv
    unfold FLT_MAX
    rcases hv with h | h | h | h | h | h | h | h | h | h | h | h | h | h <;>
      (rw [h]; norm_num)
  have hfin0 : ∀ v ∈ tileRectSteps rectWorld.bmin rectConfigured.m_tileSize
      rectConfigured.m_cfg.borderSize rectConfigured.m_cellSize 0 0, |v| ≤ FLT_MAX := by
    rw [b3, b4, b5]
    intro v hv
    rw [show rectWorld.bmin = ⟨0, 0, 0⟩ from rfl, tileRectSteps_sample.2] at hv
    simp only [List.mem_cons, List.mem_singleton, List.not_mem_nil, or_false] at hv
    unfold FLT_MAX
    rcases hv with h | h | h | h | h | h | h | h | h | h | h | h | h | h <;>
      (rw [h]; norm_num [abs_le])
  have hcreate : rectCollab.rcCreateHeightfield
      { rectConfigured.m_cfg with bmin := ⟨43, 0, 43⟩, bmax := ⟨101, 2, 101⟩ } = true := by
    simp [rectCollab, b6, b7]
  obtain ⟨rcTiles, t1, t2⟩ :=
    (rasterizeTileLayers_rect rectCollab rectWorld (construct rectCollab (sampleRecast 1) 8 48)
      1 1 4 { rectConfigured.m_cfg with bmin := ⟨43, 0, 43⟩, bmax := ⟨101, 2, 101⟩ }
      (by decide) rfl (by decide) (by decide) hfin1
      (by
        show _ = { rectConfigured.m_cfg with
          bmin := (tileRect f32 rectWorld.bmin rectWorld.bmax rectConfigured.m_tileSize
            rectConfigured.m_cfg.borderSize rectConfigured.m_cellSize 1 1).1
          bmax := (tileRect f32 rectWorld.bmin rectWorld.bmax rectConfigured.m_tileSize
            rectConfigured.m_cfg.borderSize rectConfigured.m_cellSize 1 1).2 }
        rw [hr])).2.2.2.2.1
      [sampleLayer 7, sampleLayer 9] rfl hcreate (by simp [rectCollab]) rfl rfl rfl rfl rfl
      (fun _ _ _ _ => rfl)
  have t3 : rcTiles = [{ data := [7], dataSize := 1 }] := by
    have : buildLayerTiles rectCollab 1 1 0
        (([sampleLayer 7, sampleLayer 9] : List rcHeightfieldLayer).take
          (rcMin (([sampleLayer 7, sampleLayer 9] : List rcHeightfieldLayer).length : Int)
            MAX_LAYERS).toNat)
        = some [{ data := [7], dataSize := 1 }] := by decide
    rw [this] at t1
    exact (Option.some.inj t1).symm
  have hr0 : tileRect f32 rectWorld.bmin rectWorld.bmax rectConfigured.m_tileSize
      rectConfigured.m_cfg.borderSize rectConfigured.m_cellSize 0 0
      = (⟨-5, 0, -5⟩, ⟨53, 2, 53⟩) := by
    rw [b3, b4, b5]
    exact tileRect_sample.2
  have hnone := (rasterizeTileLayers_rect rectCollab rectWorld
      (construct rectCollab (sampleRecast 1) 8 48)
      0 0 4 { rectConfigured.m_cfg with bmin := ⟨-5, 0, -5⟩, bmax := ⟨53, 2, 53⟩ }
      (by decide) rfl (by decide) (by decide) hfin0
      (by
        show _ = { rectConfigured.m_cfg with
          bmin := (tileRect f32 rectWorld.bmin rectWorld.bmax rectConfigured.m_tileSize
            rectConfigured.m_cfg.borderSize rectConfigured.m_cellSize 0 0).1
          bmax := (tileRect f32 rectWorld.bmin rectWorld.bmax rectConfigured.m_tileSize
            rectConfigured.m_cfg.borderSize rectConfigured.m_cellSize 0 0).2 }
        rw [hr0])).2.2.1 (by norm_num [rectCollab])
  refine ⟨?_, hnone, hr, b6⟩
  show rasterizeTileLayers rectCollab
    (configure rectCollab (some rectWorld) (construct rectCollab (sampleRecast 1) 8 48)).2
    (some rectWorld) 1 1 4 = _
  rw [t2, t3]
  decide

/-! ### Failure of `rasterizeTileLayers` -/

/-- When `rasterizeTileLayers` returns a tile, the geometry was usable, every Recast step
succeeded, a chunk overlapped the tile rectangle and the serialisation loop completed. -/
theorem rasterizeTileLayers_nonempty (env : Collab) (s : OgreDetourTileCache)
    (geom : Option InputGeom) (tx ty maxTiles : Int)
    (h : rasterizeTileLayers env s geom tx ty maxTiles ≠ []) :
    ∃ (g : InputGeom) (layers : List rcHeightfieldLayer) (rcTiles : List TileCacheData),
      geom = some g ∧ g.isEmpty = false ∧ g.chunkyMesh = true ∧
      env.rcAllocHeightfield = true ∧ env.rcCreateHeightfield (tileConfig s tx ty) = true ∧
      env.rcGetChunksOverlappingRect g
        ((tileConfig s tx ty).bmin.x, (tileConfig s tx ty).bmin.z)
        ((tileConfig s tx ty).bmax.x, (tileConfig s tx ty).bmax.z) ≠ 0 ∧
      env.rcAllocCompactHeightfield = true ∧
      env.rcBuildCompactHeightfield g (tileConfig s tx ty) = true ∧
      env.rcErodeWalkableArea g (tileConfig s tx ty) = true ∧
      env.rcAllocHeightfieldLayerSet = true ∧
      env.rcBuildHeightfieldLayers g (tileConfig s tx ty) = some layers ∧
      buildLayerTiles env tx ty 0 (layers.take (rcMin layers.length MAX_LAYERS).toNat)
        = some rcTiles := by
  unfold rasterizeTileLayers at h
  dsimp only at h
  repeat' split at h
  all_goals try (exact absurd rfl h)
  rename_i g c1 c2 c3 c4 c5 c6 c7 c8 c9 _ layers hl _ rcTiles hb
  refine ⟨g, layers, rcTiles, rfl, ?_, ?_, ?_, ?_, c5, ?_, ?_, ?_, ?_, hl, hb⟩
  · simpa using c1
  · simpa using c2
  · simpa using c3
  · simpa using c4
  · simpa using c6
  · simpa using c7
  · simpa using c8
  · simpa using c9

/-- C25: `rasterizeTileLayers` returns 0 tiles and writes nothing into the caller's
array whenever the geometry is missing or empty, has no chunky mesh, no chunk overlaps
the tile rectangle, or a collaborator step fails: heightfield allocation or creation,
compaction, erosion, allocation or building of the layer set, or the serialisation of
a layer the loop visits. -/
theorem rasterizeTileLayers_fails (env : Collab) (s : OgreDetourTileCache)
    (geom : Option InputGeom) (tx ty maxTiles : Int)
    (h : geom = none ∨ ∃ g, geom = some g ∧
      (g.isEmpty = true ∨ g.chunkyMesh = false ∨
        env.rcAllocHeightfield = false ∨
        env.rcCreateHeightfield (tileConfig s tx ty) = false ∨
        env.rcGetChunksOverlappingRect g
          ((tileConfig s tx ty).bmin.x, (tileConfig s tx ty).bmin.z)
          ((tileConfig s tx ty).bmax.x, (tileConfig s tx ty).bmax.z) = 0 ∨
        env.rcAllocCompactHeightfield = false ∨
        env.rcBuildCompactHeightfield g (tileConfig s tx ty) = false ∨
        env.rcErodeWalkableArea g (tileConfig s tx ty) = false ∨
        env.rcAllocHeightfieldLayerSet = false ∨
        env.rcBuildHeightfieldLayers g (tileConfig s tx ty) = none ∨
        ∃ (layers : List rcHeightfieldLayer) (i : Nat) (layer : rcHeightfieldLayer),
          env.rcBuildHeightfieldLayers g (tileConfig s tx ty) = some layers ∧
          layers[i]? = some layer ∧ (i : Int) < MAX_LAYERS ∧
          env.dtBuildTileCacheLayer (layerHeaderOf tx ty i layer) layer = none)) :
    rasterizeTileLayers env s geom tx ty maxTiles = [] := by
  by_contra hne
  obtain ⟨g, layers, rcTiles, hg, e1, e2, e3, e4, e5, e6, e7, e8, e9, e10, e11⟩ :=
    rasterizeTileLayers_nonempty env s geom tx ty maxTiles hne
  rcases h with h | ⟨g', hg', h⟩
  · rw [h] at hg
    exact absurd hg (by simp)
  · rw [hg'] at hg
    simp only [Option.some.injEq] at hg
    subst hg
    rcases h with h | h | h | h | h | h | h | h | h | h | ⟨layers', i, layer, hl, hi, hcap, hfail⟩
    · rw [h] at e1
      exact absurd e1 (by decide)
    · rw [h] at e2
      exact absurd e2 (by decide)
    · rw [h] at e3
      exact absurd e3 (by decide)
    · rw [h] at e4
      exact absurd e4 (by decide)
    · exact e5 h
    · rw [h] at e6
      exact absurd e6 (by decide)
    · rw [h] at e7
      exact absurd e7 (by decide)
    · rw [h] at e8
      exact absurd e8 (by decide)
    · rw [h] at e9
      exact absurd e9 (by decide)
    · rw [h] at e10
      exact absurd e10 (by simp)
    · rw [hl] at e10
      simp only [Option.some.injEq] at e10
      subst e10
      have hil : i < layers'.length := by
        rcases Nat.lt_or_ge i layers'.length with c | c
        · exact c
        · rw [List.getElem?_eq_none c] at hi
          exact absurd hi (by simp)
      have hik : i < (rcMin (layers'.length : Int) MAX_LAYERS).toNat := by
        rw [rcMin_eq_min]
        omega
      obtain ⟨tile, -, t2⟩ := buildLayerTiles_get env tx ty _ 0 rcTiles e11 i layer (by
        rw [List.getElem?_take, if_pos hik, hi])
      rw [zero_add, hfail] at t2
      exact absurd t2 (by simp)

/-- Witness for C25: on the sample collaborator no chunk overlaps any tile rectangle,
and a missing geometry gives no tile either. -/
theorem rasterizeTileLayers_fails_witness :
    rasterizeTileLayers okCollab sampleConfigured (some sampleWorld) 2 3 1 = [] ∧
    rasterizeTileLayers okCollab sampleConfigured none 2 3 1 = [] :=
  ⟨rasterizeTileLayers_fails okCollab sampleConfigured (some sampleWorld) 2 3 1
      (Or.inr ⟨sampleWorld, rfl, Or.inr (Or.inr (Or.inr (Or.inr (Or.inl rfl))))⟩),
    rasterizeTileLayers_fails okCollab sampleConfigured none 2 3 1 (Or.inl rfl)⟩

/-! ### The allocator invariant -/

/-- C26 (amended): the invariant `0 ≤ top ≤ capacity` of `LinearAllocator` holds after
construction exactly when the capacity given is not negative; `alloc` with a
non-negative size (the `int` sum `top + size` representable), `reset` and `free`
preserve it; `resize(cap)` keeps `top` and replaces the capacity, so it preserves the
invariant exactly when `top ≤ cap`. -/
theorem allocator_invariant :
    (∀ (env : Collab) (cap : Int),
      (0 ≤ (LinearAllocator.new env cap).top ∧
        (LinearAllocator.new env cap).top ≤ (LinearAllocator.new env cap).capacity) ↔ 0 ≤ cap) ∧
    (∀ (a : LinearAllocator) (size : Int), 0 ≤ a.top ∧ a.top ≤ a.capacity → 0 ≤ size →
      a.top + size ≤ INT_MAX →
      0 ≤ (a.alloc size).2.top ∧ (a.alloc size).2.top ≤ (a.alloc size).2.capacity) ∧
    (∀ (a : LinearAllocator), 0 ≤ a.top ∧ a.top ≤ a.capacity →
      0 ≤ a.reset.top ∧ a.reset.top ≤ a.reset.capacity) ∧
    (∀ (a : LinearAllocator) (ptr : Option Int), 0 ≤ a.top ∧ a.top ≤ a.capacity →
      0 ≤ (a.free ptr).top ∧ (a.free ptr).top ≤ (a.free ptr).capacity) ∧
    (∀ (env : Collab) (a : LinearAllocator) (cap : Int), 0 ≤ a.top ∧ a.top ≤ a.capacity →
      ((0 ≤ (a.resize env cap).top ∧ (a.resize env cap).top ≤ (a.resize env cap).capacity)
        ↔ a.top ≤ cap)) := by
  refine ⟨?_, ?_, ?_, ?_, ?_⟩
  · intro env cap
    simp [LinearAllocator.new]
  · intro a size hinv hsize hsum
    rw [alloc_eq a size (by unfold INT_MIN; omega) hsum]
    split_ifs with hc
    · exact ⟨by show 0 ≤ a.top + size; omega, hc.2⟩
    · exact hinv
  · intro a hinv
    exact ⟨le_refl _, by show (0 : Int) ≤ a.capacity; omega⟩
  · intro a ptr hinv
    exact hinv
  · intro env a cap hinv
    simp only [LinearAllocator.resize]
    exact ⟨fun h => h.2, fun h => ⟨hinv.1, h⟩⟩

/-- Witness for C26: on the constructor's allocator of 32000 bytes, an `alloc` of 100
bytes, a `reset` and a `resize` to 64000 bytes keep `0 ≤ top ≤ capacity`. -/
theorem allocator_invariant_witness :
    (0 ≤ ((LinearAllocator.new okCollab 32000).alloc 100).2.top ∧
      ((LinearAllocator.new okCollab 32000).alloc 100).2.top
        ≤ ((LinearAllocator.new okCollab 32000).alloc 100).2.capacity) ∧
    ((0 ≤ (((LinearAllocator.new okCollab 32000).alloc 100).2.resize okCollab 64000).top ∧
      (((LinearAllocator.new okCollab 32000).alloc 100).2.resize okCollab 64000).top
        ≤ (((LinearAllocator.new okCollab 32000).alloc 100).2.resize okCollab 64000).capacity)
      ↔ ((LinearAllocator.new okCollab 32000).alloc 100).2.top ≤ 64000) :=
  ⟨allocator_invariant.2.1 (LinearAllocator.new okCollab 32000) 100
      (by decide) (by decide) (by decide),
    allocator_invariant.2.2.2.2 okCollab ((LinearAllocator.new okCollab 32000).alloc 100).2 64000
      (by decide)⟩

/-- Counterexample for C26 as stated: after an `alloc` of 100 bytes, `resize(50)` leaves
`top = 100` above the new capacity 50. -/
theorem allocator_invariant_counterexample :
    (0 ≤ ((LinearAllocator.new okCollab 32000).alloc 100).2.top ∧
      ((LinearAllocator.new okCollab 32000).alloc 100).2.top
        ≤ ((LinearAllocator.new okCollab 32000).alloc 100).2.capacity) ∧
    (((LinearAllocator.new okCollab 32000).alloc 100).2.resize okCollab 50).top = 100 ∧
    (((LinearAllocator.new okCollab 32000).alloc 100).2.resize okCollab 50).capacity = 50 ∧
    ¬ ((((LinearAllocator.new okCollab 32000).alloc 100).2.resize okCollab 50).top
        ≤ (((LinearAllocator.new okCollab 32000).alloc 100).2.resize okCollab 50).capacity) := by
  decide

/-! ### `MeshProcess::process` applied twice -/

/-- Storing `f | c` in an `unsigned short` twice gives what storing it once gives. -/
theorem orFlag_idem (f c : Nat) : ((f ||| c) % 65536 ||| c) % 65536 = (f ||| c) % 65536 := by
  have h16 : (65536 : Nat) = 2 ^ 16 := by norm_num
  rw [h16]
  apply Nat.eq_of_testBit_eq
  intro i
  simp only [Nat.testBit_mod_two_pow, Nat.testBit_or]
  cases decide (i < 16) <;> cases f.testBit i <;> cases c.testBit i <;> rfl

/-- Storing `f | c | d` in two steps twice gives what storing it once gives. -/
theorem orFlag_idem2 (f c d : Nat) :
    ((((f ||| c) % 65536 ||| d) % 65536 ||| c) % 65536 ||| d) % 65536
      = ((f ||| c) % 65536 ||| d) % 65536 := by
  have h16 : (65536 : Nat) = 2 ^ 16 := by norm_num
  rw [h16]
  apply Nat.eq_of_testBit_eq
  intro i
  simp only [Nat.testBit_mod_two_pow, Nat.testBit_or]
  cases decide (i < 16) <;> cases f.testBit i <;> cases c.testBit i <;> cases d.testBit i <;> rfl

/-- A bit of an `unsigned short` survives storing `f | c`. -/
theorem orFlag_keeps (f c i : Nat) (hf : f < 65536) (h : f.testBit i = true) :
    ((f ||| c) % 65536).testBit i = true := by
  have h16 : (65536 : Nat) = 2 ^ 16 := by norm_num
  have hi : i < 16 := by
    by_contra hc
    have : f < 2 ^ i := lt_of_lt_of_le hf (by
      rw [h16]
      exact Nat.pow_le_pow_right (by decide) (by omega))
    rw [Nat.testBit_lt_two_pow this] at h
    exact absurd h (by decide)
  rw [h16, Nat.testBit_mod_two_pow, Nat.testBit_or, h]
  simp [hi]

/-- The loop body of `MeshProcess::process` applied to its own result changes nothing. -/
theorem processPoly_idem (k : PolyConsts) (area flag : Nat) :
    MeshProcess.processPoly k (MeshProcess.processPoly k area flag).1
        (MeshProcess.processPoly k area flag).2
      = MeshProcess.processPoly k area flag := by
  have harea : ∀ a : Nat,
      (if (if a = k.DT_TILECACHE_WALKABLE_AREA then k.POLYAREA_GRASS % 256 else a)
          = k.DT_TILECACHE_WALKABLE_AREA
        then k.POLYAREA_GRASS % 256
        else (if a = k.DT_TILECACHE_WALKABLE_AREA then k.POLYAREA_GRASS % 256 else a))
      = (if a = k.DT_TILECACHE_WALKABLE_AREA then k.POLYAREA_GRASS % 256 else a) := by
    intro a
    split_ifs <;> rfl
  unfold MeshProcess.processPoly
  simp only
  generalize hb : (if area = k.DT_TILECACHE_WALKABLE_AREA then k.POLYAREA_GRASS % 256 else area)
    = b
  have hbb : (if b = k.DT_TILECACHE_WALKABLE_AREA then k.POLYAREA_GRASS % 256 else b) = b := by
    rw [← hb]
    exact harea area
  by_cases c1 : b = k.POLYAREA_GRASS ∨ b = k.POLYAREA_SAND ∨ b = k.POLYAREA_ROAD
  · simp only [if_pos c1, hbb, orFlag_idem]
  · by_cases c2 : b = k.POLYAREA_WATER
    · simp only [if_neg c1, if_pos c2, hbb, orFlag_idem]
    · by_cases c3 : b = k.POLYAREA_GATE
      · simp only [if_neg c1, if_neg c2, if_pos c3, hbb, orFlag_idem2]
      · simp only [if_neg c1, if_neg c2, if_neg c3, hbb]

/-- The loop body of `MeshProcess::process` clears no bit of an `unsigned short` flag. -/
theorem processPoly_keeps (k : PolyConsts) (area flag i : Nat) (hf : flag < 65536)
    (h : flag.testBit i = true) : (MeshProcess.processPoly k area flag).2.testBit i = true := by
  unfold MeshProcess.processPoly
  simp only
  split_ifs
  all_goals first
    | exact h
    | exact orFlag_keeps _ _ _ hf h
    | exact orFlag_keeps _ _ _ (Nat.mod_lt _ (by decide)) (orFlag_keeps _ _ _ hf h)

/-- C27: `MeshProcess::process` is idempotent and clears no flag: for arrays holding at
least `polyCount` entries, with flags that are `unsigned short` values, a second call on
the arrays left by a first call leaves them as they are, and every flag bit set before
the first call is set after it. -/
theorem process_idempotent (k : PolyConsts) (polyCount : Int) (polyAreas polyFlags : List Nat)
    (hflags : ∀ f ∈ polyFlags, f < 65536)
    (hna : polyCount ≤ polyAreas.length) (hnf : polyCount ≤ polyFlags.length) :
    ∃ (as fs : List Nat),
      MeshProcess.process k polyCount polyAreas polyFlags = some (as, fs) ∧
      MeshProcess.process k polyCount as fs = some (as, fs) ∧
      ∀ (i j f f' : Nat), polyFlags[i]? = some f → fs[i]? = some f' →
        f.testBit j = true → f'.testBit j = true := by
  obtain ⟨as, fs, hrun, hla, hlf, hin, hout⟩ :=
    processLoop_spec k polyCount.toNat 0 polyAreas polyFlags (by omega) (by omega)
  obtain ⟨as2, fs2, hrun2, hla2, hlf2, hin2, hout2⟩ :=
    processLoop_spec k polyCount.toNat 0 as fs (by omega) (by omega)
  have has : as2 = as := by
    apply List.ext_getElem?
    intro j
    by_cases hj : 0 ≤ j ∧ j < 0 + polyCount.toNat
    · obtain ⟨a, f, e1, e2, e3, e4⟩ := hin j hj.1 hj.2
      obtain ⟨a', f', d1, d2, d3, d4⟩ := hin2 j hj.1 hj.2
      rw [e3] at d1
      rw [e4] at d2
      simp only [Option.some.injEq] at d1 d2
      rw [d3, e3, ← d1, ← d2, processPoly_idem]
    · exact (hout2 j hj).1
  have hfs : fs2 = fs := by
    apply List.ext_getElem?
    intro j
    by_cases hj : 0 ≤ j ∧ j < 0 + polyCount.toNat
    · obtain ⟨a, f, e1, e2, e3, e4⟩ := hin j hj.1 hj.2
      obtain ⟨a', f', d1, d2, d3, d4⟩ := hin2 j hj.1 hj.2
      rw [e3] at d1
      rw [e4] at d2
      simp only [Option.some.injEq] at d1 d2
      rw [d4, e4, ← d1, ← d2, processPoly_idem]
    · exact (hout2 j hj).2
  refine ⟨as, fs, hrun, ?_, ?_⟩
  · have h2 : MeshProcess.process k polyCount as fs = some (as2, fs2) := hrun2
    rw [h2, has, hfs]
  · intro i j f f' hf hf' hbit
    by_cases hi : 0 ≤ i ∧ i < 0 + polyCount.toNat
    · obtain ⟨a, f0, e1, e2, e3, e4⟩ := hin i hi.1 hi.2
      rw [hf] at e2
      simp only [Option.some.injEq] at e2
      subst e2
      rw [hf'] at e4
      simp only [Option.some.injEq] at e4
      rw [e4]
      exact processPoly_keeps k a f j (hflags f (List.mem_iff_getElem?.mpr ⟨i, hf⟩)) hbit
    · have := (hout i hi).2
      rw [hf, hf'] at this
      simp only [Option.some.injEq] at this
      rw [this]
      exact hbit

/-- Witness for C27: the arrays left by a first call on the sample arrays are left
unchanged by a second call. -/
theorem process_idempotent_witness :
    MeshProcess.process sampleConsts 3 [63, 1, 4, 63] [0, 0, 8, 5]
      = some ([0, 1, 4, 63], [1, 2, 265, 5]) ∧
    MeshProcess.process sampleConsts 3 [0, 1, 4, 63] [1, 2, 265, 5]
      = some ([0, 1, 4, 63], [1, 2, 265, 5]) ∧
    ∃ (as fs : List Nat),
      MeshProcess.process sampleConsts 3 [63, 1, 4, 63] [0, 0, 8, 5] = some (as, fs) ∧
      MeshProcess.process sampleConsts 3 as fs = some (as, fs) := by
  refine ⟨by decide, by decide, ?_⟩
  obtain ⟨as, fs, h1, h2, -⟩ :=
    process_idempotent sampleConsts 3 [63, 1, 4, 63] [0, 0, 8, 5] (by decide) (by decide)
      (by decide)
  exact ⟨as, fs, h1, h2⟩

/-! ### The grid values of `configure` and `loadAll` -/

/-- C29: for usable geometry `configure` stores as tile counts, `m_maxTiles` and
`m_maxPolysPerTile` the values `gridValues` gives for the world bounds, the cell size of
the recast module and the tile size; a successful `loadAll` stores the values
`gridValues` gives for the bounds, cell size and tile size of the recast configuration
in the file. So with the same bounds, cell size and tile size both store the same four
values, which depend on nothing else. -/
theorem grid_values_agree :
    (∀ (env : Collab) (g : InputGeom) (s : OgreDetourTileCache),
      g.isEmpty = false → g.chunkyMesh = true →
      ((configure env (some g) s).2.m_tw, (configure env (some g) s).2.m_th,
        (configure env (some g) s).2.m_maxTiles, (configure env (some g) s).2.m_maxPolysPerTile)
        = gridValues g.bmin g.bmax s.m_recast.m_cfg.cs s.m_tileSize) ∧
    (∀ (ids : FormatIds) (env : Collab) (fp : TileCacheFile) (srcGeom : InputGeom)
        (s s' : OgreDetourTileCache),
      loadAll ids env (some fp) srcGeom s = some (true, s') →
      (s'.m_tw, s'.m_th, s'.m_maxTiles, s'.m_maxPolysPerTile)
        = gridValues fp.header.recastConfig.bmin fp.header.recastConfig.bmax
            fp.header.recastConfig.cs fp.header.recastConfig.tileSize) ∧
    (∀ (ids : FormatIds) (env env' : Collab) (fp : TileCacheFile) (srcGeom g : InputGeom)
        (s s' t : OgreDetourTileCache),
      g.isEmpty = false → g.chunkyMesh = true →
      loadAll ids env (some fp) srcGeom s = some (true, s') →
      fp.header.recastConfig.bmin = g.bmin → fp.header.recastConfig.bmax = g.bmax →
      fp.header.recastConfig.cs = t.m_recast.m_cfg.cs →
      fp.header.recastConfig.tileSize = t.m_tileSize →
      s'.m_tw = (configure env' (some g) t).2.m_tw ∧
      s'.m_th = (configure env' (some g) t).2.m_th ∧
      s'.m_maxTiles = (configure env' (some g) t).2.m_maxTiles ∧
      s'.m_maxPolysPerTile = (configure env' (some g) t).2.m_maxPolysPerTile) := by
  have hconf : ∀ (env : Collab) (g : InputGeom) (s : OgreDetourTileCache),
      g.isEmpty = false → g.chunkyMesh = true →
      ((configure env (some g) s).2.m_tw, (configure env (some g) s).2.m_th,
        (configure env (some g) s).2.m_maxTiles, (configure env (some g) s).2.m_maxPolysPerTile)
        = gridValues g.bmin g.bmax s.m_recast.m_cfg.cs s.m_tileSize := by
    intro env g s h1 h2
    obtain ⟨e1, e2, e3, e4, -⟩ := configure_grid env g s h1 h2
    rw [e3, e4, e1, e2]
    rfl
  have hload : ∀ (ids : FormatIds) (env : Collab) (fp : TileCacheFile) (srcGeom : InputGeom)
      (s s' : OgreDetourTileCache),
      loadAll ids env (some fp) srcGeom s = some (true, s') →
      (s'.m_tw, s'.m_th, s'.m_maxTiles, s'.m_maxPolysPerTile)
        = gridValues fp.header.recastConfig.bmin fp.header.recastConfig.bmax
            fp.header.recastConfig.cs fp.header.recastConfig.tileSize := by
    intro ids env fp srcGeom s s' h
    obtain ⟨tc, nav, -, h2⟩ := loadAll_success_inv ids env fp srcGeom s s' h
    obtain ⟨-, -, -, e1, e2, e3, e4⟩ := loadConfig_grid _ _ _ _ _ _ h2
    rw [e3, e4, e1, e2]
    rfl
  refine ⟨hconf, hload, ?_⟩
  intro ids env env' fp srcGeom g s s' t h1 h2 hl b1 b2 b3 b4
  have p := hload ids env fp srcGeom s s' hl
  have q := hconf env' g t h1 h2
  rw [b1, b2, b3, b4, ← q] at p
  simp only [Prod.mk.injEq] at p
  exact p

/-- Witness for C29: a file holding the bounds of the sample world, cell size 0.3 and
tile size 48 loads with the grid values `configure` derives for the sample world. -/
theorem grid_values_agree_witness :
    ∃ s', loadAll sampleIds okCollab (some gridFile) emptyGeom sampleConstructed
        = some (true, s') ∧
      s'.m_tw = sampleConfigured.m_tw ∧ s'.m_th = sampleConfigured.m_th ∧
      s'.m_maxTiles = sampleConfigured.m_maxTiles ∧
      s'.m_maxPolysPerTile = sampleConfigured.m_maxPolysPerTile := by
  obtain ⟨s', hs', -⟩ := loadAll_ok sampleIds okCollab gridFile emptyGeom sampleConstructed
    _ _ rfl rfl rfl rfl rfl rfl rfl rfl rfl (by decide)
  exact ⟨s', hs', grid_values_agree.2.2 sampleIds okCollab okCollab gridFile emptyGeom
    sampleWorld sampleConstructed s' sampleConstructed (by decide) rfl hs' rfl rfl rfl
    (by decide)⟩

/-! ### Tile selection -/

end OgreNav
